import Mathlib

/-!
# luna-prefs service: backup / restore engine and authorization gate

A shallow embedding of `luna-prefs-service/database.c`, `accesschecker.c` and the handlers of
`main.c` (the gated system-property methods, the application-property methods, `preBackup`
and `postRestore`), followed by the properties established about them.

Modelling conventions.

* The file system and the sqlite databases living in it are an explicit `State` value that every
  operation takes and returns.  A database file is the pair of tables the service touches
  (`data` of a per-app store, `lunaPrefs_backup` of the snapshot); a table is the list of its
  rows in insertion order and columns hold the text that was bound.  The service declares its
  columns `string`, to which sqlite gives NUMERIC affinity: a text that reads as a number is
  stored as that number and comes back in canonical form (`007` as `7`, `1.0` as `1`), and
  keys that read as the same number collide.  Holding the bound text is what sqlite does for
  the texts singled out by `affinity_stable`; the properties about the stored rows are stated
  for such texts.
* A `sqlite3*` handle is the path the database was opened on.  Statement handles are values
  local to one operation (the C statics are `NULL` between operations that ran to completion).
* An environment failure of a library call (sqlite, glib, libc) is an element of `State.faults`.
* C `NULL` pointers are `Option.none`.
-/

namespace LunaPrefs

/-! ## Data model -/

/-- A row `(key, value)` of the table `data` of a per-app store. -/
abbrev Row := String × String

/-- A row `(appPath, key, value)` of the snapshot table `lunaPrefs_backup`. -/
abbrev BackupRow := String × String × String

/-- Contents of one sqlite database file; `none` means the table does not exist. -/
structure Db where
  data : Option (List Row)
  lunaPrefs_backup : Option (List BackupRow)
deriving DecidableEq, Repr

/-- The SQL texts that `database.c` hands to `sqlite3_exec` and `sqlite3_prepare_v2`. -/
inductive Sql where
  /-- Text "create table if not exists lunaPrefs_backup (appPath string, key string,
  value string, PRIMARY KEY (key))". -/
  | create_backup_table
  /-- Text "insert into lunaPrefs_backup (appPath, key, value) values (?,?,?)". -/
  | insert_backup
  /-- Text "begin immediate transaction". -/
  | begin_immediate
  /-- Text "commit". -/
  | commit
  /-- Text "select key, value from data". -/
  | select_data
  /-- Text "create table if not exists data (key string, value string)". -/
  | create_data_table
  /-- Text "update data set  key=?, value=? where key=?". -/
  | update_data
  /-- Text "insert into data (key,value) values (?,?)". -/
  | insert_data
  /-- Text "select count(*) from data where key='%s'" with the key printed into it. -/
  | count_data (key : String)
  /-- Text "select distinct appPath from lunaPrefs_backup". -/
  | select_distinct_appPath
  /-- Text "select key, value from lunaPrefs_backup where appPath=?". -/
  | select_backup_where_appPath
deriving DecidableEq, Repr

/-- Environment failures of library calls. -/
inductive Fault where
  /-- Failure of `sqlite3_open` on the file. -/
  | open_database (file : String)
  /-- Failure of `sqlite3_close` on the database. -/
  | close_database (file : String)
  /-- Failure of `sqlite3_exec` of the command on the database. -/
  | exec_command (file : String) (command : Sql)
  /-- Failure of `sqlite3_prepare_v2` of the command on the database. -/
  | prepare_statement (file : String) (command : Sql)
  /-- Failure of `sqlite3_step` of the statement on the database. -/
  | step (file : String) (command : Sql)
  /-- Failure of `mkdir` on the directory for a reason other than its existence. -/
  | mkdir (dir : String)
  /-- Failure of `g_dir_open` on the directory. -/
  | g_dir_open (dir : String)
deriving DecidableEq, Repr

/-- What exists at a path: a directory or a database file. -/
inductive Node where
  | dir
  | file (db : Db)
deriving DecidableEq, Repr

/-- A prepared statement: the database it was prepared on and its text. -/
structure Stmt where
  db : String
  sql : Sql
deriving DecidableEq, Repr

/-- The file system, the databases in it, and the module state of `database.c`. -/
structure State where
  /-- The static `backup_db_path`. -/
  backup_db_path : Option String
  /-- What exists in the file system, by path, in the order the OS enumerates it. -/
  nodes : List (String × Node)
  /-- The open write transaction: the database and its contents when the transaction began. -/
  journal : Option (String × Db)
  /-- The library calls that fail. -/
  faults : List Fault
  /-- What sqlite makes of the count query text for a key that contains a single quote
  (the quote ends the SQL literal early): `none` when the text does not compile, otherwise
  the count that the compiled text computes. -/
  quoted_count : String → Option (List Row → Nat)

/-! ## Constants of `database.c` -/

def backup_db_file : String := "/var/preferences/lunaprefs_backup.db"
def prefs_dir : String := "/var/preferences"
def s_temp_backup_DbFilename : String := "lunaprefs_backup.db"

/-! ## glib path helpers -/

def is_sep (c : Char) : Bool := c == '/'

/-- The single quote character, which delimits SQL text literals. -/
def sql_quote : Char := Char.ofNat 39

def strip_leading (cs : List Char) : List Char := cs.dropWhile is_sep

def strip_trailing (cs : List Char) : List Char := (cs.reverse.dropWhile is_sep).reverse

def leading_seps (cs : List Char) : List Char := cs.takeWhile is_sep

def trailing_seps (cs : List Char) : List Char := cs.reverse.takeWhile is_sep

/-- Model of glib `g_build_filename`: empty elements are ignored; at each boundary the trailing
separators of the left element and the leading separators of the right one are replaced by one
separator; the leading separators of the first element and the trailing separators of the last
element are kept; a single element is returned as it is. -/
def g_build_filename (elements : List String) : String :=
  match (elements.map String.data).filter (fun e => e ≠ []) with
  | [] => ""
  | [e] => String.mk e
  | e :: es =>
    let cores := ((e :: es).map (fun x => strip_trailing (strip_leading x))).filter
      (fun x => x ≠ [])
    String.mk (leading_seps e ++ List.intercalate ['/'] cores
      ++ trailing_seps ((e :: es).getLast (List.cons_ne_nil e es)))

/-- The loop `while (base > file_name && G_IS_DIR_SEPARATOR (*base)) base--` of glib
`g_path_get_dirname`, on the reversed prefix that ends at the last separator. -/
def strip_sep_back : List Char → List Char
  | [] => []
  | [c] => [c]
  | c :: d :: rest => if is_sep c then strip_sep_back (d :: rest) else c :: d :: rest

/-- Model of glib `g_path_get_dirname`: "." when the name has no separator, else the name
up to its last separator, without the separators that end that prefix (the root stays). -/
def g_path_get_dirname (file_name : String) : String :=
  match file_name.data.reverse.dropWhile (fun c => !is_sep c) with
  | [] => "."
  | c :: rest => String.mk (strip_sep_back (c :: rest)).reverse

/-- The last component of a path: what `g_dir_read_name` reports for the entry. -/
def path_basename (p : String) : String :=
  String.mk (p.data.reverse.takeWhile (fun c => !is_sep c)).reverse

/-! ## File system primitives -/

def node_get (path : String) : List (String × Node) → Option Node
  | [] => none
  | (p, n) :: rest => if p = path then some n else node_get path rest

def node_put (path : String) (node : Node) : List (String × Node) → List (String × Node)
  | [] => [(path, node)]
  | (p, n) :: rest => if p = path then (p, node) :: rest else (p, n) :: node_put path node rest

/-- Whether a directory exists at the path. -/
def is_dir (s : State) (path : String) : Bool :=
  match node_get path s.nodes with
  | some Node.dir => true
  | _ => false

/-- The database file at the path, if there is one. -/
def file_get (s : State) (path : String) : Option Db :=
  match node_get path s.nodes with
  | some (Node.file d) => some d
  | _ => none

/-- Writing the contents of the database file at the path. -/
def file_put (s : State) (path : String) (db : Db) : State :=
  { s with nodes := node_put path (Node.file db) s.nodes }

/-- Model of `g_file_test (path, G_FILE_TEST_EXISTS)`. -/
def g_file_test (s : State) (path : String) : Bool :=
  (node_get path s.nodes).isSome

/-- Model of `unlink`: removes the file at the path if there is one (a directory stays). -/
def unlink (s : State) (path : String) : State :=
  { s with nodes := s.nodes.filter (fun e => !(decide (e.1 = path) && decide (e.2 ≠ Node.dir))) }

/-- Model of `mkdir (dir, mode) < 0`, returning whether the directory was created: it fails
when something exists at `dir` (`EEXIST`), when the containing directory is missing
(`ENOENT`), or on an environment fault.  Permission bits are not modelled. -/
def mkdir (s : State) (dir : String) : Bool × State :=
  if Fault.mkdir dir ∈ s.faults then (false, s)
  else if g_file_test s dir then (false, s)
  else if !is_dir s (g_path_get_dirname dir) then (false, s)
  else (true, { s with nodes := s.nodes ++ [(dir, Node.dir)] })

/-- The names `g_dir_read_name` yields for an open directory: its immediate entries. -/
def g_dir_read_name (s : State) (dir : String) : List String :=
  ((s.nodes.map Prod.fst).filter
    (fun p => decide (p ≠ dir) && decide (g_path_get_dirname p = dir))).map path_basename

/-! ## sqlite primitives -/

/-- Model of `open_database` (`sqlite3_open`): opens the file, creating an empty database
when nothing exists at the path and its directory exists. -/
def open_database (s : State) (file : String) : Bool × State :=
  if Fault.open_database file ∈ s.faults then (false, s)
  else match node_get file s.nodes with
    | some (Node.file _) => (true, s)
    | some Node.dir => (false, s)
    | none =>
      if is_dir s (g_path_get_dirname file) then (true, file_put s file ⟨none, none⟩)
      else (false, s)

/-- Model of `close_database` (`sqlite3_close`). -/
def close_database (s : State) (db : String) : Bool × State :=
  (decide (Fault.close_database db ∉ s.faults), s)

/-- Whether the tables a statement names exist in the database. -/
def tables_exist (d : Db) : Sql → Bool
  | .insert_backup => d.lunaPrefs_backup.isSome
  | .select_distinct_appPath => d.lunaPrefs_backup.isSome
  | .select_backup_where_appPath => d.lunaPrefs_backup.isSome
  | .select_data => d.data.isSome
  | .update_data => d.data.isSome
  | .insert_data => d.data.isSome
  | .count_data _ => d.data.isSome
  | _ => true

/-- Whether the statement text compiles: only the count query, whose key is printed into the
text, can be ill-formed. -/
def text_compiles (s : State) : Sql → Bool
  | .count_data key => if sql_quote ∈ key.data then (s.quoted_count key).isSome else true
  | _ => true

/-- Model of `prepare_statement` (`sqlite3_prepare_v2`): the handle, or `none` on failure. -/
def prepare_statement (s : State) (db : String) (command : Sql) : Option Stmt :=
  if Fault.prepare_statement db command ∈ s.faults then none
  else match file_get s db with
    | none => none
    | some d =>
      if tables_exist d command && text_compiles s command then some ⟨db, command⟩ else none

/-- Model of `exec_command` (`sqlite3_exec`) for the commands the service executes.  There is
one writer: a transaction cannot begin while another one is open.  A failed commit leaves the
transaction open and the following `sqlite3_close` rolls it back; nothing reads the database
in between, so the rollback is applied at the failed commit. -/
def exec_command (s : State) (db : String) (command : Sql) : Bool × State :=
  match file_get s db with
  | none => (false, s)
  | some d =>
    match command with
    | .create_backup_table =>
      if Fault.exec_command db command ∈ s.faults then (false, s)
      else
        let d' : Db := { d with lunaPrefs_backup := some (d.lunaPrefs_backup.getD []) }
        (true, file_put s db d')
    | .create_data_table =>
      if Fault.exec_command db command ∈ s.faults then (false, s)
      else
        let d' : Db := { d with data := some (d.data.getD []) }
        (true, file_put s db d')
    | .begin_immediate =>
      if Fault.exec_command db command ∈ s.faults then (false, s)
      else if s.journal.isSome then (false, s)
      else (true, { s with journal := some (db, d) })
    | .commit =>
      match s.journal with
      | none => (false, s)
      | some (jdb, jd) =>
        if jdb ≠ db then (false, s)
        else if Fault.exec_command db command ∈ s.faults then
          (false, { file_put s db jd with journal := none })
        else (true, { s with journal := none })
    | _ => (false, s)

/-- Stepping the snapshot insert statement with `(path, key, value)` bound; `true` is
`SQLITE_DONE`.  The table is keyed by `key` alone (`PRIMARY KEY (key)`): a row whose key is
already present is rejected.  The row is held as the bound text and keys are compared as
text, which is what the columns (declared `string`) do for `affinity_stable` text. -/
def step_insert_backup (s : State) (stmt : Option Stmt) (path key value : String) :
    Bool × State :=
  match stmt with
  | none => (false, s)
  | some st =>
    if st.sql ≠ Sql.insert_backup then (false, s)
    else if Fault.step st.db st.sql ∈ s.faults then (false, s)
    else match file_get s st.db with
      | none => (false, s)
      | some d =>
        match d.lunaPrefs_backup with
        | none => (false, s)
        | some rows =>
          if rows.any (fun r => r.2.1 = key) then (false, s)
          else
            let d' : Db := { d with lunaPrefs_backup := some (rows ++ [(path, key, value)]) }
            (true, file_put s st.db d')

/-- Stepping a select over the table `data` to its end: the rows delivered, and whether the
last step was `SQLITE_DONE`. -/
def step_select_data (s : State) (stmt : Option Stmt) : List Row × Bool :=
  match stmt with
  | none => ([], false)
  | some st =>
    if st.sql ≠ Sql.select_data then ([], false)
    else if Fault.step st.db st.sql ∈ s.faults then ([], false)
    else match file_get s st.db with
      | none => ([], false)
      | some d =>
        match d.data with
        | none => ([], false)
        | some rows => (rows, true)

/-- The rows of the snapshot table of a database. -/
def backup_rows (s : State) (db : String) : Option (List BackupRow) :=
  match file_get s db with
  | none => none
  | some d => d.lunaPrefs_backup

/-- The rows of the table `data` of a database. -/
def data_rows (s : State) (db : String) : Option (List Row) :=
  match file_get s db with
  | none => none
  | some d => d.data

/-- The distinct values of a column, each at its first occurrence. -/
def sql_distinct : List String → List String
  | [] => []
  | x :: rest => x :: (sql_distinct rest).filter (fun y => decide (y ≠ x))

/-- Stepping "select distinct appPath from lunaPrefs_backup" to its end. -/
def step_select_distinct (s : State) (stmt : Option Stmt) : List String :=
  match stmt with
  | none => []
  | some st =>
    if st.sql ≠ Sql.select_distinct_appPath then []
    else if Fault.step st.db st.sql ∈ s.faults then []
    else match backup_rows s st.db with
      | none => []
      | some rows => sql_distinct (rows.map (fun r => r.1))

/-- Stepping "select key, value from lunaPrefs_backup where appPath=?" with the path bound:
the rows delivered, and whether the last step was `SQLITE_DONE`. -/
def step_select_where (s : State) (stmt : Option Stmt) (path : String) : List Row × Bool :=
  match stmt with
  | none => ([], false)
  | some st =>
    if st.sql ≠ Sql.select_backup_where_appPath then ([], false)
    else if Fault.step st.db st.sql ∈ s.faults then ([], false)
    else match backup_rows s st.db with
      | none => ([], false)
      | some rows => ((rows.filter (fun r => r.1 = path)).map (fun r => r.2), true)

/-- Stepping the count statement once: the count when the step is `SQLITE_ROW`. -/
def step_count (s : State) (stmt : Option Stmt) : Option Nat :=
  match stmt with
  | none => none
  | some st =>
    match st.sql with
    | .count_data key =>
      if Fault.step st.db st.sql ∈ s.faults then none
      else match data_rows s st.db with
        | none => none
        | some rows =>
          if sql_quote ∈ key.data then (s.quoted_count key).map (fun f => f rows)
          else some (rows.filter (fun r => r.1 = key)).length
    | _ => none

/-- Stepping "update data set key=?, value=? where key=?"; `true` is `SQLITE_DONE`. -/
def step_update_data (s : State) (stmt : Option Stmt) (key value where_key : String) :
    Bool × State :=
  match stmt with
  | none => (false, s)
  | some st =>
    if st.sql ≠ Sql.update_data then (false, s)
    else if Fault.step st.db st.sql ∈ s.faults then (false, s)
    else match file_get s st.db with
      | none => (false, s)
      | some d =>
        match d.data with
        | none => (false, s)
        | some rows =>
          let d' : Db :=
            { d with data := some (rows.map fun r => if r.1 = where_key then (key, value) else r) }
          (true, file_put s st.db d')

/-- Stepping "insert into data (key,value) values (?,?)"; `true` is `SQLITE_DONE`.  The row is
held as the bound text, which is what the columns of the table that `restore_action` creates
(declared `string`) do for `affinity_stable` text. -/
def step_insert_data (s : State) (stmt : Option Stmt) (key value : String) : Bool × State :=
  match stmt with
  | none => (false, s)
  | some st =>
    if st.sql ≠ Sql.insert_data then (false, s)
    else if Fault.step st.db st.sql ∈ s.faults then (false, s)
    else match file_get s st.db with
      | none => (false, s)
      | some d =>
        match d.data with
        | none => (false, s)
        | some rows =>
          let d' : Db := { d with data := some (rows ++ [(key, value)]) }
          (true, file_put s st.db d')

/-! ## `database.c` -/

/-- Model of `setBackupFile`: stores and returns the backup database file name. -/
def setBackupFile (s : State) (tempDir : Option String) : String × State :=
  let path := match tempDir with
    | some dir => g_build_filename [dir, s_temp_backup_DbFilename]
    | none => backup_db_file
  (path, { s with backup_db_path := some path })

/-- Model of `getBackupFile`. -/
def getBackupFile (s : State) : String × State :=
  match s.backup_db_path with
  | none => setBackupFile s none
  | some path => (path, s)

/-- Model of `sqlite3_last_insert_rowid` on the snapshot database.  The snapshot table only ever
grows by single-row inserts, so the rowid of the last inserted row is the number of rows. -/
def sqlite3_last_insert_rowid (s : State) (backUpDb : String) : Nat :=
  ((backup_rows s backUpDb).getD []).length

/-- Model of `backup_action`: the rowid of the inserted row, 0 when nothing was inserted. -/
def backup_action (s : State) (backUpDb : String) (backup_statement : Option Stmt)
    (path key value : Option String) : Nat × State :=
  match path, key, value with
  | some path, some key, some value =>
    let (done, s1) := step_insert_backup s backup_statement path key value
    if !done then (0, s1)
    else (sqlite3_last_insert_rowid s1 backUpDb, s1)
  | _, _, _ => (0, s)

/-- Model of `setup_database`: whether it succeeded, and the static `backup_statement`. -/
def setup_database (s : State) (backUpDb : String) : Bool × Option Stmt × State :=
  let (created, s1) := exec_command s backUpDb Sql.create_backup_table
  if !created then (false, none, s1)
  else
    match prepare_statement s1 backUpDb Sql.insert_backup with
    | none => (false, none, s1)
    | some stmt => (true, some stmt, s1)

/-- Model of `make_list`: the paths `path/<entry>/prefsDB.sl` that exist, for the entries of
`path` in enumeration order. -/
def make_list (s : State) (path : Option String) : List String :=
  match path with
  | none => []
  | some path =>
    if Fault.g_dir_open path ∈ s.faults ∨ !is_dir s path then []
    else
      (g_dir_read_name s path).filterMap fun file =>
        let full_path := g_build_filename [path, file, "prefsDB.sl"]
        if g_file_test s full_path then some full_path else none

/-- Model of `create_backup`, the body of the `g_list_foreach` over the discovered stores:
copies every row of one per-app store into the snapshot through `backup_action`. -/
def create_backup (backUpDb : String) (backup_statement : Option Stmt) (s : State)
    (file : Option String) : State :=
  match file with
  | none => s
  | some db_path =>
    let (opened, s1) := open_database s db_path
    if !opened then s1
    else
      match prepare_statement s1 db_path Sql.select_data with
      | none => s1
      | some prefs_db_statement =>
        let rows := (step_select_data s1 (some prefs_db_statement)).1
        let s2 := rows.foldl
          (fun acc row =>
            (backup_action acc backUpDb backup_statement (some db_path) (some row.1)
              (some row.2)).2) s1
        (close_database s2 db_path).2

/-- Model of `read_and_backup_list`. -/
def read_and_backup_list (s : State) (db_files : List String) (abs_temp_path : String) :
    Bool × State :=
  let (opened, s1) := open_database s abs_temp_path
  if !opened then (false, s1)
  else
    let (_, backup_statement, s2) := setup_database s1 abs_temp_path
    let (begun, s3) := exec_command s2 abs_temp_path Sql.begin_immediate
    if !begun then (false, s3)
    else
      let s4 := db_files.foldl
        (fun acc file => create_backup abs_temp_path backup_statement acc (some file)) s3
      let (_, s5) := exec_command s4 abs_temp_path Sql.commit
      let (closed, s6) := close_database s5 abs_temp_path
      if !closed then (false, s6) else (true, s6)

/-- Model of `create_prefs_backup`. -/
def create_prefs_backup (s : State) : Bool × State :=
  let (abs_temp_path, s1) := getBackupFile s
  let s2 := unlink s1 abs_temp_path
  let db_files := make_list s2 (some prefs_dir)
  read_and_backup_list s2 db_files abs_temp_path

/-- Model of `restore_prefs_data`: update by key when `set_flag`, insert otherwise; a failed
step is only logged. -/
def restore_prefs_data (s : State) (backup_statement individual_db_statement : Option Stmt)
    (key value : String) (set_flag : Bool) : State :=
  if set_flag then (step_update_data s backup_statement key value key).2
  else (step_insert_data s individual_db_statement key value).2

/-- One iteration of the row loop of `restore_action`, on the local `count` and the state. -/
def restore_row (restoreDb : String) (backup_statement individual_db_statement : Option Stmt)
    (acc : Nat × State) (row : Row) : Nat × State :=
  let count_stmt := prepare_statement acc.2 restoreDb (Sql.count_data row.1)
  let count := match step_count acc.2 count_stmt with
    | some n => n
    | none => acc.1
  if count ≠ 0 then
    (count, restore_prefs_data acc.2 backup_statement individual_db_statement row.1 row.2 true)
  else
    (count, restore_prefs_data acc.2 backup_statement individual_db_statement row.1 row.2 false)

/-- Model of `restore_action`, with the statics it reads as arguments: `restoreDb` and the
select statement `prefs_db_statement` prepared by `begin_restore`. -/
def restore_action (s : State) (prefs_db_statement : Option Stmt) (restoreDb : String)
    (path : Option String) : Bool × State :=
  match path with
  | none => (false, s)
  | some path =>
    let (created, s1) := exec_command s restoreDb Sql.create_data_table
    if !created then (false, s1)
    else
      match prepare_statement s1 restoreDb Sql.update_data with
      | none => (false, s1)
      | some backup_statement =>
        match prepare_statement s1 restoreDb Sql.insert_data with
        | none => (false, s1)
        | some individual_db_statement =>
          let (rows, done) := step_select_where s1 prefs_db_statement path
          let s2 := (rows.foldl
            (restore_row restoreDb (some backup_statement) (some individual_db_statement))
            (0, s1)).2
          (done, s2)

/-- The loop of `begin_restore` over the origin paths of the snapshot. -/
def restore_loop (prefs_db_statement : Option Stmt) : State → List String → Bool × State
  | s, [] => (true, s)
  | s, path :: rest =>
    let parent_dir := g_path_get_dirname path
    let (made, s1) := mkdir s parent_dir
    if !made then (false, s1)
    else
      let (opened, s2) := open_database s1 path
      if !opened then (false, s2)
      else
        let (restored, s3) := restore_action s2 prefs_db_statement path (some path)
        if !restored then (false, (close_database s3 path).2)
        else restore_loop prefs_db_statement (close_database s3 path).2 rest

/-- Model of `begin_restore`. -/
def begin_restore (s : State) (db_file : Option String) : Bool × State :=
  match db_file with
  | none => (false, s)
  | some db_file =>
    let (opened, s1) := open_database s db_file
    if !opened then (false, s1)
    else
      match prepare_statement s1 db_file Sql.select_distinct_appPath with
      | none => (false, s1)
      | some distinct_statement =>
        let restore_db_list := step_select_distinct s1 (some distinct_statement)
        match prepare_statement s1 db_file Sql.select_backup_where_appPath with
        | none => (false, s1)
        | some prefs_db_statement =>
          let (restored, s2) := restore_loop (some prefs_db_statement) s1 restore_db_list
          if !restored then (false, s2)
          else
            let (closed, s3) := close_database s2 db_file
            if !closed then (false, s3) else (true, s3)

/-- Model of `try_restore`. -/
def try_restore (s : State) (db_file : Option String) : Bool × State :=
  match db_file with
  | none => (true, s)
  | some file => if g_file_test s file then begin_restore s (some file) else (true, s)

/-! ## JSON values, the bus and the property library

The JSON codec (json-c), the message bus (luna-service2) and the property store (lunaprefs)
are collaborators of the service: their answers are parameters of the model (`BusEnv`).
A request is followed through the list of bus operations the service performs on it. -/

/-- A json-c value.  The JSON `null` is the C `NULL` pointer, so nullable positions hold an
`Option`.  A double is kept as a decimal mantissa and exponent. -/
inductive Json where
  | boolean (b : Bool)
  | int (n : Int)
  | double (mantissa exponent : Int)
  | string (s : String)
  | array (elems : List (Option Json))
  | object (members : List (String × Option Json))

/-- Error codes of the property library; `LP_ERR_NONE` is 0. -/
inductive LPErr where
  | LP_ERR_NONE
  | LP_ERR_PERM
  | LP_ERR_INTERNAL
  | LP_ERR_PARAM_ERR
  | LP_ERR_VALUENOTJSON
  | LP_ERR_OTHER (code : Nat)
deriving DecidableEq, Repr

/-- The text handed to `LSMessageReply`: built with `g_strdup_printf`, or the serialisation
(`json_object_to_json_string`) of a JSON value. -/
inductive Body where
  | text (s : String)
  | json (j : Option Json)

/-- A bus operation on the request being served. -/
inductive Event where
  /-- A call of `LSMessageReply` on the request, and whether the bus accepted it. -/
  | reply (body : Body) (sent : Bool)
  /-- A call of `LSMessageRef` on the request. -/
  | ref
  /-- A call of `LSMessageUnref` on the request. -/
  | unref
  /-- A dispatched `LSCallOneReply`. -/
  | call (uri payload : String)

/-- What the service reads from an `LSMessage`. -/
structure LSMessage where
  /-- Result of `LSMessageGetPayload`. -/
  payload : Option String
  /-- Result of `LSMessageGetKind`: the category and method of the request. -/
  kind : String
  /-- Result of `LSMessageGetMethod`. -/
  method : String
  /-- Result of `LSMessageGetSenderServiceName`. -/
  senderServiceName : Option String
  /-- Result of `LSMessageGetSender`. -/
  sender : Option String

/-- The answers of the collaborators. -/
structure BusEnv where
  /-- Result of `json_tokener_parse`: `none` when the text does not parse (or is `null`). -/
  json_tokener_parse : String → Option Json
  /-- Result of `json_object_get_string` on a value that is not a string: its serialisation. -/
  json_object_to_json_string : Json → String
  /-- Whether `LSMessageReply` with the body succeeds. -/
  LSMessageReply : Body → Bool
  /-- Whether `LSCallOneReply` to the URI with the payload can be dispatched. -/
  LSCallOneReply : String → String → Bool
  /-- Whether `malloc` of the callback context succeeds. -/
  malloc : Bool
  /-- Result of `LPSystemCopyStringValue` for a key: the error code and the value. -/
  LPSystemCopyStringValue : String → LPErr × Option String
  /-- Result of `LPSystemKeyIsPublic` for a key (the service asserts `LP_ERR_NONE`). -/
  LPSystemKeyIsPublic : String → Bool
  /-- Result of `LPSystemCopyKeysCJ`: the error code and the JSON array of keys. -/
  LPSystemCopyKeysCJ : LPErr × List (Option Json)
  /-- Result of `LPSystemCopyKeysPublicCJ`. -/
  LPSystemCopyKeysPublicCJ : LPErr × List (Option Json)
  /-- Result of `LPSystemCopyAllCJ`: the error code and the JSON array of properties. -/
  LPSystemCopyAllCJ : LPErr × List (Option Json)
  /-- Result of `LPSystemCopyAllPublicCJ`. -/
  LPSystemCopyAllPublicCJ : LPErr × List (Option Json)
  /-- Result of `LPErrorString`: the message for an error code. -/
  LPErrorString : LPErr → Option String

/-- The continuation type `callbackType` of `accesschecker.h`. -/
abbrev callbackType := BusEnv → LSMessage → Bool → List Event

/-- The struct `callbackContext` of `accesschecker.c`. -/
structure callbackContext where
  message : Option LSMessage
  callback : Option callbackType

def SERVICE_ROOT_URI : String := "luna://com.palm.preferences"
def GET_SYS_KEY_OBJ_API : String := "getSysKeysObj"
def GET_SOME_SYS_PROP_OBJ_API : String := "getSomeSysPropertiesObj"
def GET_ALL_SYS_PROP_OBJ_API : String := "getAllSysPropertiesObj"
def IS_CALL_ALLOWED_CHECK : String := "luna://com.webos.service.bus/isCallAllowed"

/-! ### json-c accessors -/

/-- The member lookup of `json_object_object_get` on a member list. -/
def members_get (key : String) : List (String × Option Json) → Option Json
  | [] => none
  | (k, v) :: rest => if k = key then v else members_get key rest

/-- Model of `json_object_object_get`: `NULL` for a missing member, a `null` member, or a
value that is not an object. -/
def json_object_object_get (obj : Option Json) (key : String) : Option Json :=
  match obj with
  | some (Json.object members) => members_get key members
  | _ => none

/-- Model of `json_object_object_add` on a member list: replaces the member of that name or
appends a new one. -/
def json_object_object_add (members : List (String × Option Json)) (key : String)
    (val : Option Json) : List (String × Option Json) :=
  match members with
  | [] => [(key, val)]
  | (k, v) :: rest =>
    if k = key then (k, val) :: rest else (k, v) :: json_object_object_add rest key val

/-- Model of `json_object_get_boolean`. -/
def json_object_get_boolean (jso : Option Json) : Bool :=
  match jso with
  | some (Json.boolean b) => b
  | some (Json.int n) => decide (n ≠ 0)
  | some (Json.double mantissa _) => decide (mantissa ≠ 0)
  | some (Json.string s) => decide (s.length ≠ 0)
  | _ => false

/-- Model of `json_object_get_string`: the text of a string, the serialisation of any other
value, `NULL` for `NULL`. -/
def json_object_get_string (env : BusEnv) (jso : Option Json) : Option String :=
  match jso with
  | none => none
  | some (Json.string s) => some s
  | some j => some (env.json_object_to_json_string j)

def is_json_object : Option Json → Bool
  | some (Json.object _) => true
  | _ => false

/-! ### `main.c`: replies -/

/-- Model of `errorReplyStr`. -/
def errorReplyStr (env : BusEnv) (errString : Option String) : List Event :=
  let errString := errString.getD "error text goes here"
  let errJson := "\x7b\"returnValue\": false, \"errorText\": \"" ++ errString ++ "\"\x7d"
  [Event.reply (Body.text errJson) (env.LSMessageReply (Body.text errJson))]

/-- Model of `errorReplyErr`: replies only for an error code other than `LP_ERR_NONE`. -/
def errorReplyErr (env : BusEnv) (err : LPErr) : List Event :=
  if err ≠ LPErr.LP_ERR_NONE then errorReplyStr env (env.LPErrorString err) else []

/-- Model of `formURI`. -/
def formURI (message : LSMessage) : Option String :=
  some (SERVICE_ROOT_URI ++ message.kind)

/-- The loop of `parseMessage` over the requested keys: whether every key was found with a
string value, and the strings copied out so far. -/
def parseMessage_keys (doc : Option Json) : List String → Bool × List (Option String)
  | [] => (true, [])
  | key :: rest =>
    match json_object_object_get doc key with
    | some (Json.string s) =>
      let (success, outs) := parseMessage_keys doc rest
      (success, some s :: outs)
    | _ => (false, none :: rest.map fun _ => none)

/-- Model of `parseMessage` for keys that are all requested as `json_type_string`. -/
def parseMessage (env : BusEnv) (message : LSMessage) (keys : List String) :
    Bool × List (Option String) :=
  match message.payload with
  | none => (false, keys.map fun _ => none)
  | some str =>
    match env.json_tokener_parse str with
    | none => (false, keys.map fun _ => none)
    | some doc => parseMessage_keys (some doc) keys

/-- Model of `replyWithValue`: the reply, and whether it was sent. -/
def replyWithValue (env : BusEnv) (value : Body) : List Event × Bool :=
  ([Event.reply value (env.LSMessageReply value)], env.LSMessageReply value)

/-- Model of `replyWithKeyValue`. -/
def replyWithKeyValue (env : BusEnv) (key value : String) : List Event × Bool :=
  let jsonVal : Json :=
    match env.json_tokener_parse value with
    | none => Json.string value
    | some (Json.object members) => Json.object members
    | some (Json.array elems) => Json.array elems
    | some _ => Json.string value
  let result := json_object_object_add
    (json_object_object_add [] key (some jsonVal)) "returnValue" (some (Json.boolean true))
  replyWithValue env (Body.json (some (Json.object result)))

/-- Model of `wrapArray` on the elements of the array. -/
def wrapArray (jarray : List (Option Json)) : Json :=
  let returnValue := !(jarray.any fun elem =>
    is_json_object elem && (json_object_object_get elem "errorText").isSome)
  Json.object (json_object_object_add
    (json_object_object_add [] "values" (some (Json.array jarray)))
    "returnValue" (some (Json.boolean returnValue)))

/-- Model of `sysGet_internal`; the getter has been called and gives `getter`. -/
def sysGet_internal (env : BusEnv) (getter : LPErr × List (Option Json)) (asObj : Bool) :
    List Event :=
  if getter.1 ≠ LPErr.LP_ERR_NONE then
    errorReplyErr env getter.1 ++ [Event.unref]
  else
    let json : Json := if asObj then wrapArray getter.2 else Json.array getter.2
    [Event.reply (Body.json (some json)) (env.LSMessageReply (Body.json (some json))),
      Event.unref]

/-- Model of `sysGetKeysObj_callback`. -/
def sysGetKeysObj_callback : callbackType := fun env message allowed =>
  sysGet_internal env (if allowed then env.LPSystemCopyKeysCJ else env.LPSystemCopyKeysPublicCJ)
    (decide (message.method = GET_SYS_KEY_OBJ_API))

/-- Model of `sysGetAllObj_callback`. -/
def sysGetAllObj_callback : callbackType := fun env message allowed =>
  sysGet_internal env (if allowed then env.LPSystemCopyAllCJ else env.LPSystemCopyAllPublicCJ)
    (decide (message.method = GET_ALL_SYS_PROP_OBJ_API))

/-- Model of `addKeyValueToArray`: the one-member object appended to the array. -/
def addKeyValueToArray (key : String) (value : Option String) : Option Json :=
  some (Json.object (json_object_object_add [] key (value.map Json.string)))

/-- Model of `onWhitelist`. -/
def onWhitelist (env : BusEnv) (key : String) : Bool := env.LPSystemKeyIsPublic key

/-- The body of the loop of `sysGetSomeObj_callback`: the output element for one input
element. -/
def sysGetSome_elem (env : BusEnv) (allowed : Bool) (elem : Option Json) : Option Json :=
  if is_json_object elem then
    match json_object_object_get elem "key" with
    | some key =>
      let keyText := (json_object_get_string env (some key)).getD ""
      if !allowed && !onWhitelist env keyText then
        addKeyValueToArray "errorText" (env.LPErrorString LPErr.LP_ERR_PERM)
      else
        let r := env.LPSystemCopyStringValue keyText
        if r.1 = LPErr.LP_ERR_NONE then addKeyValueToArray keyText r.2
        else addKeyValueToArray "errorText" (env.LPErrorString r.1)
    | none => addKeyValueToArray "errorText" (some "missing 'key' parameter")
  else addKeyValueToArray "errorText" (some "missing 'key' parameter")

/-- Model of `sysGetSomeObj_callback`. -/
def sysGetSomeObj_callback : callbackType := fun env message allowed =>
  let arrayOut : Option (List (Option Json)) :=
    match message.payload with
    | none => none
    | some str =>
      match env.json_tokener_parse str with
      | some (Json.array elems) => some (elems.map (sysGetSome_elem env allowed))
      | _ => none
  match arrayOut with
  | some out =>
    let json : Json :=
      if message.method = GET_SOME_SYS_PROP_OBJ_API then wrapArray out else Json.array out
    (replyWithValue env (Body.json (some json))).1 ++ [Event.unref]
  | none => errorReplyErr env LPErr.LP_ERR_PARAM_ERR ++ [Event.unref]

/-- Model of `sysGetValue_callback`. -/
def sysGetValue_callback : callbackType := fun env message allowed =>
  let parsed := parseMessage env message ["key"]
  let key : Option String := parsed.2.headD none
  let step : List Event × LPErr :=
    match parsed.1, key with
    | true, some key =>
      if !allowed && !onWhitelist env key then ([], LPErr.LP_ERR_PERM)
      else
        let r := env.LPSystemCopyStringValue key
        match r.1, r.2 with
        | LPErr.LP_ERR_NONE, some value =>
          let sent := replyWithKeyValue env key value
          if !sent.2 then (sent.1, LPErr.LP_ERR_INTERNAL) else (sent.1, LPErr.LP_ERR_NONE)
        | err, _ => ([], err)
    | _, _ => (errorReplyStr env (some "missing parameter key"), LPErr.LP_ERR_NONE)
  step.1 ++ (if step.2 ≠ LPErr.LP_ERR_NONE then errorReplyErr env step.2 else [])
    ++ [Event.unref]

/-! ### `accesschecker.c` -/

/-- Model of `processReply`: the bus operations on the original request when the reply of the
permission oracle arrives. -/
def processReply (env : BusEnv) (message : LSMessage) (ctx : Option callbackContext) :
    List Event :=
  let payload := message.payload.bind env.json_tokener_parse
  match ctx with
  | none => []
  | some newCC =>
    match payload with
    | some p =>
      if !json_object_get_boolean (json_object_object_get (some p) "returnValue") then
        [Event.unref]
      else
        match newCC.callback, newCC.message with
        | some callback, some request =>
          callback env request (json_object_get_boolean (json_object_object_get (some p) "allowed"))
        | _, _ => []
    | none => []

/-- Model of `checkAccess`: whether the nested call was dispatched, the bus operations, and
the context registered with the call. -/
def checkAccess (env : BusEnv) (message : LSMessage) (uri_to_check : String)
    (callback : callbackType) : Bool × List Event × Option callbackContext :=
  if !env.malloc then (false, [], none)
  else
    let serviceName := match message.senderServiceName with
      | some name => some name
      | none => message.sender
    match serviceName with
    | none => (false, [], none)
    | some requester_service =>
      let payload := "\x7b\"requester\":\"" ++ requester_service ++ "\",\"uri\":\""
        ++ uri_to_check ++ "\"\x7d"
      if !env.LSCallOneReply IS_CALL_ALLOWED_CHECK payload then (false, [], none)
      else (true, [Event.call IS_CALL_ALLOWED_CHECK payload],
        some ⟨some message, some callback⟩)

/-! ### `main.c`: the gated handlers -/

/-- The common body of the gated handlers `sysGetValue`, `sysGetKeysObj`, `sysGetAllObj` and
`sysGetSomeObj`, which differ in the continuation only: the bus operations of the handler,
and the context left registered with the nested call. -/
def gated_handler (callback : callbackType) (env : BusEnv) (message : LSMessage) :
    List Event × Option callbackContext :=
  match formURI message with
  | none => (errorReplyStr env (some "URI not formed"), none)
  | some uri_to_check =>
    let checked := checkAccess env message uri_to_check callback
    if !checked.1 then
      ([Event.ref] ++ checked.2.1 ++ errorReplyErr env LPErr.LP_ERR_PERM ++ [Event.unref], none)
    else ([Event.ref] ++ checked.2.1, checked.2.2)

/-- Model of `sysGetValue`. -/
def sysGetValue (env : BusEnv) (message : LSMessage) : List Event × Option callbackContext :=
  gated_handler sysGetValue_callback env message

/-- Model of `sysGetKeysObj`. -/
def sysGetKeysObj (env : BusEnv) (message : LSMessage) : List Event × Option callbackContext :=
  gated_handler sysGetKeysObj_callback env message

/-- Model of `sysGetAllObj`. -/
def sysGetAllObj (env : BusEnv) (message : LSMessage) : List Event × Option callbackContext :=
  gated_handler sysGetAllObj_callback env message

/-- Model of `sysGetSomeObj`. -/
def sysGetSomeObj (env : BusEnv) (message : LSMessage) : List Event × Option callbackContext :=
  gated_handler sysGetSomeObj_callback env message

/-- The method table `sysPropGetMethods`. -/
def sysPropGetMethods :
    List (String × (BusEnv → LSMessage → List Event × Option callbackContext)) :=
  [("Get", sysGetValue), ("getSysKeys", sysGetKeysObj), ("getSysKeysObj", sysGetKeysObj),
   ("getAllSysProperties", sysGetAllObj), ("getAllSysPropertiesObj", sysGetAllObj),
   ("getSomeSysProperties", sysGetSomeObj), ("getSomeSysPropertiesObj", sysGetSomeObj),
   ("getSysProperty", sysGetValue)]

/-- A gated request from arrival to its last bus operation: the handler runs; if it left a
nested call registered, the bus later delivers the oracle's one reply to `processReply` with
the registered context. -/
def gated_request (handler : BusEnv → LSMessage → List Event × Option callbackContext)
    (env : BusEnv) (message : LSMessage) (oracle_reply : LSMessage) : List Event :=
  let handled := handler env message
  match handled.2 with
  | none => handled.1
  | some ctx => handled.1 ++ processReply env oracle_reply (some ctx)

/-- The number of replies the bus accepted for the request. -/
def replies_sent (events : List Event) : Nat :=
  events.countP fun e => match e with
    | Event.reply _ sent => sent
    | _ => false

/-- The number of `LSMessageRef` calls on the request. -/
def refs_taken (events : List Event) : Nat :=
  events.countP fun e => match e with
    | Event.ref => true
    | _ => false

/-- The number of `LSMessageUnref` calls on the request. -/
def refs_released (events : List Event) : Nat :=
  events.countP fun e => match e with
    | Event.unref => true
    | _ => false

/-- A continuation run that sends one reply and releases the reference once. -/
def resolves_once (events : List Event) : Prop :=
  replies_sent events = 1 ∧ refs_taken events = 0 ∧ refs_released events = 1

/-- Whether a gated request is dropped on the oracle's answer: the nested call was dispatched
and the parsed answer `p` has a false (or missing) `returnValue`. -/
def dropped_by_oracle (handler : BusEnv → LSMessage → List Event × Option callbackContext)
    (env : BusEnv) (message : LSMessage) (p : Json) : Bool :=
  (handler env message).2.isSome &&
    !json_object_get_boolean (json_object_object_get (some p) "returnValue")

/-- Collaborators for the examples: the oracle's answers parse as shown, the bus accepts every
reply and call, and the property store holds `com.palm.properties.version`. -/
def example_env : BusEnv where
  json_tokener_parse := fun text =>
    if text = "\x7b\"returnValue\":false\x7d" then
      some (Json.object [("returnValue", some (Json.boolean false))])
    else if text = "\x7b\"returnValue\":true,\"allowed\":true\x7d" then
      some (Json.object [("returnValue", some (Json.boolean true)),
        ("allowed", some (Json.boolean true))])
    else if text = "\x7b\"key\":\"com.palm.properties.version\"\x7d" then
      some (Json.object [("key", some (Json.string "com.palm.properties.version"))])
    else none
  json_object_to_json_string := fun _ => ""
  LSMessageReply := fun _ => true
  LSCallOneReply := fun _ _ => true
  malloc := true
  LPSystemCopyStringValue := fun key =>
    if key = "com.palm.properties.version" then (LPErr.LP_ERR_NONE, some "Open webOS 3.5.0")
    else (LPErr.LP_ERR_OTHER 1, none)
  LPSystemKeyIsPublic := fun _ => false
  LPSystemCopyKeysCJ := (LPErr.LP_ERR_NONE, [])
  LPSystemCopyKeysPublicCJ := (LPErr.LP_ERR_NONE, [])
  LPSystemCopyAllCJ := (LPErr.LP_ERR_NONE, [])
  LPSystemCopyAllPublicCJ := (LPErr.LP_ERR_NONE, [])
  LPErrorString := fun _ => some "error"

/-- A `getSysProperty` request for `com.palm.properties.version` from `com.example.app`. -/
def example_request : LSMessage where
  payload := some "\x7b\"key\":\"com.palm.properties.version\"\x7d"
  kind := "/systemProperties/getSysProperty"
  method := "getSysProperty"
  senderServiceName := some "com.example.app"
  sender := none

/-- An answer of the oracle with the payload text. -/
def oracle_answer (payload : String) : LSMessage where
  payload := some payload
  kind := "/isCallAllowed"
  method := "isCallAllowed"
  senderServiceName := some "com.webos.service.bus"
  sender := none

/-! ## Specification vocabulary -/

/-- Model of `sqlite3Isspace`. -/
def sqlite3Isspace (c : Char) : Bool :=
  c == ' ' || c == '\t' || c == '\n' || c == '\r' || c == Char.ofNat 11 || c == Char.ofNat 12

/-- A decimal integer without sign, in canonical form and within 64 bits: at most 18 digits,
the first of which is not `0`. -/
def canonical_digits (cs : List Char) : Bool :=
  match cs with
  | [] => false
  | d :: rest =>
    d.isDigit && d != '0' && rest.all Char.isDigit && decide (rest.length < 18)

/-- A decimal integer in the form in which sqlite prints it: `0`, or canonical digits with an
optional minus sign before them. -/
def canonical_integer (cs : List Char) : Bool :=
  cs == ['0'] || canonical_digits cs ||
    match cs with
    | c :: rest => c == '-' && canonical_digits rest
    | [] => false

/-- Whether a character can begin a text that sqlite reads as a number: white space, a sign,
a digit or a decimal point. -/
def begins_number (c : Char) : Bool :=
  sqlite3Isspace c || c.isDigit || c == '+' || c == '-' || c == '.'

/-- Texts that a column declared `string` (NUMERIC affinity) hands back as they were bound,
and that such a column tells apart exactly when they differ as text: a text that does not
begin like a number (the empty text included), which stays text, and a canonical integer,
which is stored as an integer and printed back in the same form. -/
def affinity_stable (text : String) : Bool :=
  canonical_integer text.data ||
    match text.data with
    | [] => true
    | c :: _ => !begins_number c

/-- Whether the key and the value of every row are `affinity_stable`. -/
def rows_affinity_stable (rows : List BackupRow) : Bool :=
  rows.all fun r => affinity_stable r.2.1 && affinity_stable r.2.2

/-- The key column of a snapshot row. -/
def row_key (r : BackupRow) : String := r.2.1

/-- The state in which `create_prefs_backup` enumerates and reads the per-app stores: the
backup file name is resolved and the old backup file is deleted. -/
def backup_start (s : State) : State := unlink (getBackupFile s).2 (getBackupFile s).1

/-- The `(key, value)` pairs held by the per-app store at a path (none when there is no
database there or it has no table `data`). -/
def store_rows (s : State) (path : String) : List Row := (data_rows s path).getD []

/-- The rows of a per-app store as snapshot rows: each tagged with the store's path. -/
def tagged_rows (s : State) (path : String) : List BackupRow :=
  (store_rows s path).map fun r => (path, r.1, r.2)

/-- All rows of the listed stores as snapshot rows, in merge order. -/
def merge_order (s : State) (stores : List String) : List BackupRow :=
  stores.flatMap (tagged_rows s)

/-- A keyed insert: the row is appended unless its key is already present. -/
def insert_unique (rows : List BackupRow) (r : BackupRow) : List BackupRow :=
  if rows.any (fun x => x.2.1 = r.2.1) then rows else rows ++ [r]

/-- The snapshot table at `bp` holds at most one row per key. -/
def keys_unique (s : State) (bp : String) : Prop :=
  (((backup_rows s bp).getD []).map row_key).Nodup

/-- The contents journalled for `bp` hold at most one row per key. -/
def journal_keys_unique (s : State) (bp : String) : Prop :=
  ∀ jd, s.journal = some (bp, jd) → ((jd.lunaPrefs_backup.getD []).map row_key).Nodup

/-- The `(key, value)` pairs a snapshot records for an origin path. -/
def rows_for (rows : List BackupRow) (path : String) : List Row :=
  (rows.filter (fun r => decide (r.1 = path))).map (fun r => r.2)

/-- The state after one origin path has been restored into a fresh directory. -/
def restored_one (t : State) (rows : List BackupRow) (p : String) : State :=
  file_put { t with nodes := t.nodes ++ [(g_path_get_dirname p, Node.dir)] } p
    ⟨some (rows_for rows p), none⟩

/-! ## Example states -/

/-- The example of the specification: store A at `/var/preferences/apps/com.x/prefsDB.sl`
holding color=red and store B at `/var/preferences/apps/com.y/prefsDB.sl` holding size=3. -/
def spec_example : State where
  backup_db_path := none
  nodes := [("/", Node.dir), ("/var", Node.dir), ("/var/preferences", Node.dir),
    ("/var/preferences/apps", Node.dir),
    ("/var/preferences/apps/com.x", Node.dir),
    ("/var/preferences/apps/com.x/prefsDB.sl", Node.file ⟨some [("color", "red")], none⟩),
    ("/var/preferences/apps/com.y", Node.dir),
    ("/var/preferences/apps/com.y/prefsDB.sl", Node.file ⟨some [("size", "3")], none⟩)]
  journal := none
  faults := []
  quoted_count := fun _ => none

/-- The same two stores one level below the preferences root, where `make_list` looks. -/
def flat_example : State where
  backup_db_path := none
  nodes := [("/", Node.dir), ("/var", Node.dir), ("/var/preferences", Node.dir),
    ("/var/preferences/com.x", Node.dir),
    ("/var/preferences/com.x/prefsDB.sl", Node.file ⟨some [("color", "red")], none⟩),
    ("/var/preferences/com.y", Node.dir),
    ("/var/preferences/com.y/prefsDB.sl", Node.file ⟨some [("size", "3")], none⟩)]
  journal := none
  faults := []
  quoted_count := fun _ => none

/-- Two stores that share the key `theme`: `com.x` is enumerated first and holds `dark`,
`com.y` is enumerated second and holds `light`. -/
def collision_example : State where
  backup_db_path := none
  nodes := [("/", Node.dir), ("/var", Node.dir), ("/var/preferences", Node.dir),
    ("/var/preferences/com.x", Node.dir),
    ("/var/preferences/com.x/prefsDB.sl",
      Node.file ⟨some [("color", "red"), ("theme", "dark")], none⟩),
    ("/var/preferences/com.y", Node.dir),
    ("/var/preferences/com.y/prefsDB.sl",
      Node.file ⟨some [("theme", "light"), ("size", "3")], none⟩)]
  journal := none
  faults := []
  quoted_count := fun _ => none

/-- A device after a reset: the preferences root holds only the snapshot produced by the
backup of `flat_example`. -/
def flat_restore_example : State where
  backup_db_path := none
  nodes := [("/", Node.dir), ("/var", Node.dir), ("/var/preferences", Node.dir),
    ("/var/preferences/lunaprefs_backup.db",
      Node.file ⟨none, some [("/var/preferences/com.x/prefsDB.sl", "color", "red"),
        ("/var/preferences/com.y/prefsDB.sl", "size", "3")]⟩)]
  journal := none
  faults := []
  quoted_count := fun _ => none

/-- The device of `spec_example` after its backup, with the two stores replaced by empty fresh
stores at the same paths. -/
def spec_restore_example : State where
  backup_db_path := none
  nodes := [("/", Node.dir), ("/var", Node.dir), ("/var/preferences", Node.dir),
    ("/var/preferences/apps", Node.dir),
    ("/var/preferences/apps/com.x", Node.dir),
    ("/var/preferences/apps/com.x/prefsDB.sl", Node.file ⟨some [], none⟩),
    ("/var/preferences/apps/com.y", Node.dir),
    ("/var/preferences/apps/com.y/prefsDB.sl", Node.file ⟨some [], none⟩),
    ("/var/preferences/lunaprefs_backup.db", Node.file ⟨none, some []⟩)]
  journal := none
  faults := []
  quoted_count := fun _ => none

/-- A device where the directory of the origin path recorded in the snapshot already exists
(and is empty). -/
def existing_dir_example : State where
  backup_db_path := none
  nodes := [("/", Node.dir), ("/var", Node.dir), ("/var/preferences", Node.dir),
    ("/var/preferences/com.x", Node.dir),
    ("/var/preferences/lunaprefs_backup.db",
      Node.file ⟨none, some [("/var/preferences/com.x/prefsDB.sl", "color", "red")]⟩)]
  journal := none
  faults := []
  quoted_count := fun _ => none

/-- A key that closes the SQL literal of the count query: printed into the query text it
gives "select count(*) from data where key='x' or '1'='1'", which counts every row. -/
def injected_key : String := "x' or '1'='1"

/-- A device after a reset whose snapshot holds, for one store, the key `a` and then
`injected_key`; sqlite compiles the count query for `injected_key` into a count of all rows. -/
def quoted_key_example : State where
  backup_db_path := none
  nodes := [("/", Node.dir), ("/var", Node.dir), ("/var/preferences", Node.dir),
    ("/var/preferences/lunaprefs_backup.db",
      Node.file ⟨none, some [("/var/preferences/com.x/prefsDB.sl", "a", "1"),
        ("/var/preferences/com.x/prefsDB.sl", injected_key, "2")]⟩)]
  journal := none
  faults := []
  quoted_count := fun key => if key = injected_key then some List.length else none

/-- The device of `flat_example` on which the commit of the snapshot fails. -/
def commit_fault_example : State where
  backup_db_path := none
  nodes := flat_example.nodes
  journal := none
  faults := [Fault.exec_command backup_db_file Sql.commit]
  quoted_count := fun _ => none

/-- The device of `collision_example` on which the store of `com.x` cannot be opened. -/
def unreadable_store_example : State where
  backup_db_path := none
  nodes := collision_example.nodes
  journal := none
  faults := [Fault.open_database "/var/preferences/com.x/prefsDB.sl"]
  quoted_count := fun _ => none

/-- A device whose snapshot records two origin paths; the directory of the first is missing
and the directory of the second already exists. -/
def partial_restore_example : State where
  backup_db_path := none
  nodes := [("/", Node.dir), ("/var", Node.dir), ("/var/preferences", Node.dir),
    ("/var/preferences/com.y", Node.dir),
    ("/var/preferences/lunaprefs_backup.db",
      Node.file ⟨none, some [("/var/preferences/com.x/prefsDB.sl", "color", "red"),
        ("/var/preferences/com.y/prefsDB.sl", "size", "3")]⟩)]
  journal := none
  faults := []
  quoted_count := fun _ => none

/-- The body of the reply built by `errorReplyStr`. -/
def error_reply_body (errString : Option String) : Body :=
  Body.text ("\x7b\"returnValue\": false, \"errorText\": \""
    ++ errString.getD "error text goes here" ++ "\"\x7d")

/-- The payload of the query to the permission oracle for a requester and a target URI. -/
def isCallAllowed_payload (requester uri : String) : String :=
  "\x7b\"requester\":\"" ++ requester ++ "\",\"uri\":\"" ++ uri ++ "\"\x7d"

/-- Collaborators for the examples in which the oracle denies and every key is public. -/
def public_key_env : BusEnv where
  json_tokener_parse := fun text =>
    if text = "\x7b\"returnValue\":true,\"allowed\":false\x7d" then
      some (Json.object [("returnValue", some (Json.boolean true)),
        ("allowed", some (Json.boolean false))])
    else if text = "\x7b\"key\":\"com.palm.properties.version\"\x7d" then
      some (Json.object [("key", some (Json.string "com.palm.properties.version"))])
    else none
  json_object_to_json_string := fun _ => ""
  LSMessageReply := fun _ => true
  LSCallOneReply := fun _ _ => true
  malloc := true
  LPSystemCopyStringValue := fun key =>
    if key = "com.palm.properties.version" then (LPErr.LP_ERR_NONE, some "Open webOS 3.5.0")
    else (LPErr.LP_ERR_OTHER 1, none)
  LPSystemKeyIsPublic := fun _ => true
  LPSystemCopyKeysCJ := (LPErr.LP_ERR_NONE, [])
  LPSystemCopyKeysPublicCJ := (LPErr.LP_ERR_NONE, [])
  LPSystemCopyAllCJ := (LPErr.LP_ERR_NONE, [])
  LPSystemCopyAllPublicCJ := (LPErr.LP_ERR_NONE, [])
  LPErrorString := fun _ => some "error"

/-- The same collaborators when no key is public. -/
def private_key_env : BusEnv := { public_key_env with LPSystemKeyIsPublic := fun _ => false }

/-! ## `main.c`: the restore request and the application properties -/

/-- Model of `successReply`. -/
def successReply (env : BusEnv) : List Event :=
  let answer := "\x7b\"returnValue\": true\x7d"
  [Event.reply (Body.text answer) (env.LSMessageReply (Body.text answer))]

/-- Model of `errorReplyStrMissingParam`. -/
def errorReplyStrMissingParam (env : BusEnv) (param : String) : List Event :=
  errorReplyStr env (some ("Missing required parameter '" ++ param ++ "'."))

/-- The test `strstr (haystack, needle) != NULL` on the characters of the two strings. -/
def strstr_chars (needle : List Char) : List Char → Bool
  | [] => needle.isEmpty
  | c :: rest => needle.isPrefixOf (c :: rest) || strstr_chars needle rest

/-- Model of `strstr`: whether the needle occurs in the haystack. -/
def strstr (haystack needle : String) : Bool := strstr_chars needle.data haystack.data

/-- Model of `strpbrk`: whether a character of `accept` occurs in the string. -/
def strpbrk (s accept : String) : Bool := s.data.any fun c => accept.data.contains c

/-- The error replies of `postRestore`, built in the object `response`. -/
def postRestore_error (env : BusEnv) (errorText : String) (errorPayload : Option String) :
    List Event :=
  let response := json_object_object_add (json_object_object_add [] "returnValue"
    (some (Json.boolean false))) "errorText" (some (Json.string errorText))
  let response := match errorPayload with
    | some str => json_object_object_add response "errorPayload" (some (Json.string str))
    | none => response
  [Event.reply (Body.json (some (Json.object response)))
    (env.LSMessageReply (Body.json (some (Json.object response))))]

/-- The `final_path` that the loop of `postRestore` computes for an element of `files`, when
the element is not skipped: the element itself when it contains a separator, otherwise the
element under `tempDir`. -/
def postRestore_final_path (env : BusEnv) (temp_dir_str : String) (obj : Option Json) :
    Option String :=
  match json_object_get_string env obj with
  | none => none
  | some cpath =>
    if !strpbrk cpath "/" then some (g_build_filename [temp_dir_str, cpath]) else some cpath

/-- The body of the loop of `postRestore` for one element of `files`. -/
def postRestore_file (env : BusEnv) (temp_dir_str : String) (s : State) (obj : Option Json) :
    List Event × State :=
  match postRestore_final_path env temp_dir_str obj with
  | none => ([], s)
  | some final_path =>
    if strstr final_path "lunaprefs_backup.db" then
      let restored := try_restore s (some final_path)
      if !restored.1 then
        (errorReplyStr env (some "unable to restore preference db"), restored.2)
      else (successReply env, restored.2)
    else ([], s)

/-- The loop of `postRestore` over the elements of `files`. -/
def postRestore_loop (env : BusEnv) (temp_dir_str : String) :
    State → List (Option Json) → List Event × State
  | s, [] => ([], s)
  | s, obj :: rest =>
    let done := postRestore_file env temp_dir_str s obj
    let more := postRestore_loop env temp_dir_str done.2 rest
    (done.1 ++ more.1, more.2)

/-- Model of `postRestore`: the bus operations on the request and the device afterwards. -/
def postRestore (env : BusEnv) (s : State) (message : LSMessage) : List Event × State :=
  match message.payload with
  | none => (postRestore_error env "Cannot get payload" none, s)
  | some str =>
    match env.json_tokener_parse str with
    | none => (postRestore_error env "Cannot parse payload" (some str), s)
    | some payload =>
      match json_object_object_get (some payload) "tempDir" with
      | none =>
        (postRestore_error env "Required parameter \"tempDir\" is missing" (some str), s)
      | some (Json.string temp_dir_str) =>
        match json_object_object_get (some payload) "files" with
        | none =>
          (postRestore_error env "Required parameter \"files\" is missing" (some str), s)
        | some (Json.array fileArray) =>
          let looped := postRestore_loop env temp_dir_str s fileArray
          (looped.1 ++ successReply env, looped.2)
        | some _ =>
          (postRestore_error env "Parameter \"files\" must have value type array" (some str), s)
      | some _ =>
        (postRestore_error env "Parameter \"tempDir\" must have value type string" (some str), s)

/-- The answers of the per-application property store (lunaprefs).  A handle stands for the
application identifier it was obtained for. -/
structure AppStore where
  /-- Result of `LPAppGetHandle` for an application identifier. -/
  LPAppGetHandle : String → LPErr
  /-- Result of `LPAppCopyKeysCJ` on the handle: the error code and the JSON array of keys. -/
  LPAppCopyKeysCJ : String → LPErr × List (Option Json)
  /-- Result of `LPAppCopyAllCJ` on the handle. -/
  LPAppCopyAllCJ : String → LPErr × List (Option Json)
  /-- Result of `LPAppCopyValue` on the handle for a key: the error code, and the value, which
  is set when the code is `LP_ERR_NONE`. -/
  LPAppCopyValue : String → String → LPErr × String
  /-- Result of `LPAppSetValue` on the handle for a key and a value. -/
  LPAppSetValue : String → String → String → LPErr
  /-- Result of `LPAppRemoveValue` on the handle for a key. -/
  LPAppRemoveValue : String → String → LPErr

/-- Model of `appGet_internal`; the getter is given the handle. -/
def appGet_internal (env : BusEnv) (app : AppStore) (message : LSMessage)
    (getter : String → LPErr × List (Option Json)) (asObj : Bool) : List Event :=
  let parsed := parseMessage env message ["appId"]
  match parsed.1, parsed.2.headD none with
  | true, some appId =>
    let err := app.LPAppGetHandle appId
    if err ≠ LPErr.LP_ERR_NONE then errorReplyErr env err
    else
      let got := getter appId
      if got.1 ≠ LPErr.LP_ERR_NONE then errorReplyErr env got.1
      else
        let json : Json := if asObj then wrapArray got.2 else Json.array got.2
        [Event.reply (Body.json (some json)) (env.LSMessageReply (Body.json (some json)))]
          ++ errorReplyErr env got.1
  | _, _ => errorReplyStr env (some "no appId parameter found")
      ++ errorReplyErr env LPErr.LP_ERR_NONE

/-- Model of `appGetKeys`. -/
def appGetKeys (env : BusEnv) (app : AppStore) (message : LSMessage) : List Event :=
  appGet_internal env app message app.LPAppCopyKeysCJ false

/-- Model of `appGetKeysObj`. -/
def appGetKeysObj (env : BusEnv) (app : AppStore) (message : LSMessage) : List Event :=
  appGet_internal env app message app.LPAppCopyKeysCJ true

/-- Model of `appGetAll`. -/
def appGetAll (env : BusEnv) (app : AppStore) (message : LSMessage) : List Event :=
  appGet_internal env app message app.LPAppCopyAllCJ false

/-- Model of `appGetAllObj`. -/
def appGetAllObj (env : BusEnv) (app : AppStore) (message : LSMessage) : List Event :=
  appGet_internal env app message app.LPAppCopyAllCJ true

/-- Model of `appGetValue`.  A failure of `LPAppGetHandle` jumps to the label `error`, past
the call of `errorReplyErr` at the label `err_with_handle`. -/
def appGetValue (env : BusEnv) (app : AppStore) (message : LSMessage) : List Event :=
  let parsed := parseMessage env message ["appId", "key"]
  match parsed.1, parsed.2 with
  | true, [some appId, some key] =>
    let err := app.LPAppGetHandle appId
    if err ≠ LPErr.LP_ERR_NONE then []
    else
      let got := app.LPAppCopyValue appId key
      if got.1 ≠ LPErr.LP_ERR_NONE then errorReplyErr env got.1
      else
        let sent := replyWithKeyValue env key got.2
        if !sent.2 then sent.1 ++ errorReplyErr env got.1
        else sent.1 ++ errorReplyErr env LPErr.LP_ERR_NONE
  | _, _ => errorReplyStr env (some "no appId or key parameter found")

/-- Model of `getStringParam`: the string of a parameter that is present and a string. -/
def getStringParam (param : Option Json) : Option String :=
  match param with
  | some (Json.string str) => some str
  | _ => none

/-- Model of glib `g_ascii_isspace`. -/
def g_ascii_isspace (c : Char) : Bool :=
  c == ' ' || c == '\t' || c == '\n' || c == '\r' || c == Char.ofNat 11 || c == Char.ofNat 12

/-- Model of glib `g_strstrip`: removes the leading and the trailing white space. -/
def g_strstrip (str : String) : String :=
  String.mk ((str.data.dropWhile g_ascii_isspace).reverse.dropWhile g_ascii_isspace).reverse

/-- Model of `appSetValue`.  Nothing is done when the payload does not parse. -/
def appSetValue (env : BusEnv) (app : AppStore) (message : LSMessage) : List Event :=
  match message.payload.bind env.json_tokener_parse with
  | none => []
  | some payload =>
    let appId := json_object_object_get (some payload) "appId"
    let key := json_object_object_get (some payload) "key"
    let value := json_object_object_get (some payload) "value"
    match getStringParam appId with
    | none => errorReplyStrMissingParam env "appId"
    | some appIdString =>
      if g_strstrip appIdString = "" then errorReplyStrMissingParam env "appId"
      else
        match getStringParam key with
        | none => errorReplyStrMissingParam env "key"
        | some keyString =>
          match value with
          | none => errorReplyStrMissingParam env "value"
          | some value =>
            let err := app.LPAppGetHandle (g_strstrip appIdString)
            if err = LPErr.LP_ERR_NONE then
              let err := match json_object_get_string env (some value) with
                | some valString => app.LPAppSetValue (g_strstrip appIdString) keyString valString
                | none => LPErr.LP_ERR_VALUENOTJSON
              errorReplyErr env err ++ (if err = LPErr.LP_ERR_NONE then successReply env else [])
            else errorReplyErr env err

/-- Model of `appRemoveValue`. -/
def appRemoveValue (env : BusEnv) (app : AppStore) (message : LSMessage) : List Event :=
  let parsed := parseMessage env message ["appId", "key"]
  match parsed.1, parsed.2 with
  | true, [some appId, some key] =>
    let err := app.LPAppGetHandle appId
    if err = LPErr.LP_ERR_NONE then
      let err := app.LPAppRemoveValue appId key
      if err = LPErr.LP_ERR_NONE then successReply env else errorReplyErr env err
    else errorReplyErr env err
  | _, _ => errorReplyStr env (some "'appId'(string)/'key'(string) parameter is missing")

/-- The method table `appPropMethods`. -/
def appPropMethods : List (String × (BusEnv → AppStore → LSMessage → List Event)) :=
  [("getAppKeys", appGetKeys), ("getAppKeysObj", appGetKeysObj),
   ("getAllAppProperties", appGetAll), ("getAllAppPropertiesObj", appGetAllObj),
   ("getAppProperty", appGetValue), ("setAppProperty", appSetValue),
   ("removeAppProperty", appRemoveValue)]

/-- The number of calls of `LSMessageReply` on the request. -/
def reply_calls (events : List Event) : Nat :=
  events.countP fun e => match e with
    | Event.reply _ _ => true
    | _ => false

/-- Collaborators for the examples of `postRestore`: the two request payloads parse as shown
and the bus accepts every reply. -/
def restore_env : BusEnv where
  json_tokener_parse := fun text =>
    if text = "\x7b\"tempDir\":\"/var/preferences\",\"files\":[\"lunaprefs_backup.db\"]\x7d" then
      some (Json.object [("tempDir", some (Json.string "/var/preferences")),
        ("files", some (Json.array [some (Json.string "lunaprefs_backup.db")]))])
    else if text = "\x7b\"tempDir\":\"/var/preferences\",\"files\":[]\x7d" then
      some (Json.object [("tempDir", some (Json.string "/var/preferences")),
        ("files", some (Json.array []))])
    else none
  json_object_to_json_string := fun _ => ""
  LSMessageReply := fun _ => true
  LSCallOneReply := fun _ _ => true
  malloc := true
  LPSystemCopyStringValue := fun _ => (LPErr.LP_ERR_OTHER 1, none)
  LPSystemKeyIsPublic := fun _ => false
  LPSystemCopyKeysCJ := (LPErr.LP_ERR_NONE, [])
  LPSystemCopyKeysPublicCJ := (LPErr.LP_ERR_NONE, [])
  LPSystemCopyAllCJ := (LPErr.LP_ERR_NONE, [])
  LPSystemCopyAllPublicCJ := (LPErr.LP_ERR_NONE, [])
  LPErrorString := fun _ => some "error"

/-- A `postRestore` request with the payload text. -/
def restore_request (payload : String) : LSMessage where
  payload := some payload
  kind := "/backup/postRestore"
  method := "postRestore"
  senderServiceName := some "com.example.backup"
  sender := none

/-- The device of `flat_restore_example` on which the snapshot cannot be opened. -/
def unopenable_snapshot_example : State where
  backup_db_path := none
  nodes := flat_restore_example.nodes
  journal := none
  faults := [Fault.open_database backup_db_file]
  quoted_count := fun _ => none

/-- A property store in which no handle can be obtained. -/
def no_handle_store : AppStore where
  LPAppGetHandle := fun _ => LPErr.LP_ERR_OTHER 1
  LPAppCopyKeysCJ := fun _ => (LPErr.LP_ERR_NONE, [])
  LPAppCopyAllCJ := fun _ => (LPErr.LP_ERR_NONE, [])
  LPAppCopyValue := fun _ _ => (LPErr.LP_ERR_NONE, "")
  LPAppSetValue := fun _ _ _ => LPErr.LP_ERR_NONE
  LPAppRemoveValue := fun _ _ => LPErr.LP_ERR_NONE

/-- A `getAppProperty` request for the key `color` of `com.x`, as `app_env` parses it. -/
def app_request : LSMessage where
  payload := some "\x7b\"appId\":\"com.x\",\"key\":\"color\"\x7d"
  kind := "/appProperties/getAppProperty"
  method := "getAppProperty"
  senderServiceName := some "com.example.app"
  sender := none

/-- A `setAppProperty` request whose payload is not a JSON document. -/
def unparsable_request : LSMessage where
  payload := some "appId=com.x"
  kind := "/appProperties/setAppProperty"
  method := "setAppProperty"
  senderServiceName := some "com.example.app"
  sender := none

/-- Collaborators for the examples of the application properties. -/
def app_env : BusEnv where
  json_tokener_parse := fun text =>
    if text = "\x7b\"appId\":\"com.x\",\"key\":\"color\"\x7d" then
      some (Json.object [("appId", some (Json.string "com.x")),
        ("key", some (Json.string "color"))])
    else none
  json_object_to_json_string := fun _ => ""
  LSMessageReply := fun _ => true
  LSCallOneReply := fun _ _ => true
  malloc := true
  LPSystemCopyStringValue := fun _ => (LPErr.LP_ERR_OTHER 1, none)
  LPSystemKeyIsPublic := fun _ => false
  LPSystemCopyKeysCJ := (LPErr.LP_ERR_NONE, [])
  LPSystemCopyKeysPublicCJ := (LPErr.LP_ERR_NONE, [])
  LPSystemCopyAllCJ := (LPErr.LP_ERR_NONE, [])
  LPSystemCopyAllPublicCJ := (LPErr.LP_ERR_NONE, [])
  LPErrorString := fun _ => some "error"

/-- Whether an element of `files` names the backup artifact: it is not skipped and its
`final_path` contains `lunaprefs_backup.db`. -/
def names_backup (env : BusEnv) (temp_dir_str : String) (obj : Option Json) : Bool :=
  match postRestore_final_path env temp_dir_str obj with
  | some final_path => strstr final_path "lunaprefs_backup.db"
  | none => false

/-! ## `main.c`: the backup request -/

/-- Model of `json_object_object_get_ex`: `none` when the object has no member of the name,
otherwise the value of the member, which is `NULL` for a JSON `null`. -/
def json_object_object_get_ex (obj : Option Json) (key : String) : Option (Option Json) :=
  match obj with
  | some (Json.object members) => (members.find? fun m => decide (m.1 = key)).map Prod.snd
  | _ => none

/-- The end of `preBackup`: completes `reply_json` and sends it. -/
def preBackup_reply (env : BusEnv) (reply_json : List (String × Option Json))
    (backup_db_path errorText errorPayload : Option String) (success : Bool) : List Event :=
  let reply_json := match backup_db_path with
    | some path => json_object_object_add reply_json "backupFile" (some (Json.string path))
    | none => reply_json
  let reply_json := match errorText with
    | some text => json_object_object_add reply_json "errorText" (some (Json.string text))
    | none => reply_json
  let reply_json := match errorPayload with
    | some payload => json_object_object_add reply_json "errorPayload" (some (Json.string payload))
    | none => reply_json
  let reply_json := json_object_object_add reply_json "returnValue" (some (Json.boolean success))
  [Event.reply (Body.json (some (Json.object reply_json)))
    (env.LSMessageReply (Body.json (some (Json.object reply_json))))]

/-- The part of `preBackup` after the parameter check: sets the backup file name, creates the
backup and replies. -/
def preBackup_create (env : BusEnv) (s : State) (tempDir : Option String) :
    List Event × State :=
  let named := setBackupFile s tempDir
  let created := create_prefs_backup named.2
  if !created.1 then
    (preBackup_reply env [] (some named.1) (some "Unable to create backup file") none false,
      created.2)
  else
    let files_json := Json.array [some (Json.string named.1)]
    (preBackup_reply env (json_object_object_add [] "files" (some files_json)) (some named.1)
      none none true, created.2)

/-- Model of `preBackup`: the bus operations on the request and the device afterwards. -/
def preBackup (env : BusEnv) (s : State) (message : LSMessage) : List Event × State :=
  match message.payload with
  | none => (preBackup_reply env [] none (some "Cannot get payload") none false, s)
  | some payload =>
    match env.json_tokener_parse payload with
    | none => (preBackup_reply env [] none (some "Cannot parse payload") none false, s)
    | some payload_json =>
      if !is_json_object (some payload_json) then
        (preBackup_reply env [] none (some "Peyload must have type object") none false, s)
      else
        match json_object_object_get_ex (some payload_json) "tempDir" with
        | none => preBackup_create env s none
        | some (some (Json.string tempDir)) => preBackup_create env s (some tempDir)
        | some _ =>
          (preBackup_reply env [] none
            (some "Parameter \"tempDir\" must have value type string") (some payload) false, s)

/-- Whether a JSON value is an object with a member of the name, whatever the value of the
member. -/
def has_member (elem : Option Json) (key : String) : Bool :=
  match elem with
  | some (Json.object members) => members.any fun m => decide (m.1 = key)
  | _ => false

/-- The paths on which the loop of `postRestore` restores: the final paths of the elements of
`files` that name the backup artifact, in the order of the array. -/
def restore_candidates (env : BusEnv) (temp_dir_str : String) (files : List (Option Json)) :
    List String :=
  files.filterMap fun obj =>
    match postRestore_final_path env temp_dir_str obj with
    | some final_path => if strstr final_path "lunaprefs_backup.db" then some final_path else none
    | none => none

/-- Collaborators for the examples of `preBackup`: the payload of the request without
parameters parses to the empty object, and the bus accepts every reply. -/
def backup_env : BusEnv where
  json_tokener_parse := fun text =>
    if text = "\x7b\x7d" then some (Json.object []) else none
  json_object_to_json_string := fun _ => ""
  LSMessageReply := fun _ => true
  LSCallOneReply := fun _ _ => true
  malloc := true
  LPSystemCopyStringValue := fun _ => (LPErr.LP_ERR_OTHER 1, none)
  LPSystemKeyIsPublic := fun _ => false
  LPSystemCopyKeysCJ := (LPErr.LP_ERR_NONE, [])
  LPSystemCopyKeysPublicCJ := (LPErr.LP_ERR_NONE, [])
  LPSystemCopyAllCJ := (LPErr.LP_ERR_NONE, [])
  LPSystemCopyAllPublicCJ := (LPErr.LP_ERR_NONE, [])
  LPErrorString := fun _ => some "error"

/-- A `preBackup` request with the payload text. -/
def backup_request (payload : String) : LSMessage where
  payload := some payload
  kind := "/backup/preBackup"
  method := "preBackup"
  senderServiceName := some "com.example.backup"
  sender := none

/-- Collaborators for the examples of `getSomeSysPropertiesObj`: the request names the
version key and a key that the property store does not have. -/
def some_keys_env : BusEnv where
  json_tokener_parse := fun text =>
    if text = "[\x7b\"key\":\"com.palm.properties.version\"\x7d,\x7b\"key\":\"should result in an error\"\x7d]" then
      some (Json.array [some (Json.object [("key", some (Json.string "com.palm.properties.version"))]),
        some (Json.object [("key", some (Json.string "should result in an error"))])])
    else none
  json_object_to_json_string := fun _ => ""
  LSMessageReply := fun _ => true
  LSCallOneReply := fun _ _ => true
  malloc := true
  LPSystemCopyStringValue := fun key =>
    if key = "com.palm.properties.version" then (LPErr.LP_ERR_NONE, some "Open webOS 3.5.0 SDK")
    else (LPErr.LP_ERR_OTHER 1, none)
  LPSystemKeyIsPublic := fun _ => false
  LPSystemCopyKeysCJ := (LPErr.LP_ERR_NONE, [])
  LPSystemCopyKeysPublicCJ := (LPErr.LP_ERR_NONE, [])
  LPSystemCopyAllCJ := (LPErr.LP_ERR_NONE, [])
  LPSystemCopyAllPublicCJ := (LPErr.LP_ERR_NONE, [])
  LPErrorString := fun err =>
    if err = LPErr.LP_ERR_OTHER 1 then some "no such key" else some "error"

/-- A request for the two keys of `some_keys_env` through the given method. -/
def some_keys_request (method : String) : LSMessage where
  payload := some "[\x7b\"key\":\"com.palm.properties.version\"\x7d,\x7b\"key\":\"should result in an error\"\x7d]"
  kind := "/systemProperties/" ++ method
  method := method
  senderServiceName := some "com.example.app"
  sender := none

/-- A device on which the preferences root cannot be opened for enumeration. -/
def unreadable_root_example : State where
  backup_db_path := none
  nodes := flat_example.nodes
  journal := none
  faults := [Fault.g_dir_open prefs_dir]
  quoted_count := fun _ => none

/-- A key with one single quote: printed into the count query it leaves the SQL literal open,
and the query does not compile. -/
def unbalanced_key : String := "it's"

/-- A device during a restore into the store of `com.x`, which holds the key `a`; no count
query for a key with a quote compiles. -/
def stale_count_example : State where
  backup_db_path := none
  nodes := [("/", Node.dir), ("/var", Node.dir), ("/var/preferences", Node.dir),
    ("/var/preferences/com.x", Node.dir),
    ("/var/preferences/com.x/prefsDB.sl", Node.file ⟨some [("a", "1")], none⟩)]
  journal := none
  faults := []
  quoted_count := fun _ => none

/-- The parser of `absent_allowed_env`. -/
def absent_allowed_parse (text : String) : Option Json :=
  if text = "\x7b\"returnValue\":true\x7d" then
    some (Json.object [("returnValue", some (Json.boolean true))])
  else private_key_env.json_tokener_parse text

/-- The collaborators of `private_key_env` when the oracle answers `returnValue` true without
an `allowed` field. -/
def absent_allowed_env : BusEnv :=
  { private_key_env with json_tokener_parse := absent_allowed_parse }

/-! # Properties -/

/-! ## File system lemmas -/

theorem node_get_put_same (p : String) (n : Node) (ns : List (String × Node)) :
    node_get p (node_put p n ns) = some n := by
  induction ns with
  | nil => simp [node_put, node_get]
  | cons e rest ih =>
    obtain ⟨q, m⟩ := e
    by_cases h : q = p
    · simp [node_put, node_get, h]
    · simp [node_put, node_get, h, ih]

theorem node_get_put_other (p q : String) (n : Node) (ns : List (String × Node)) (h : q ≠ p) :
    node_get q (node_put p n ns) = node_get q ns := by
  induction ns with
  | nil => simp [node_put, node_get, Ne.symm h]
  | cons e rest ih =>
    obtain ⟨r, m⟩ := e
    by_cases hr : r = p
    · subst hr
      simp [node_put, node_get, Ne.symm h]
    · by_cases hq : r = q
      · subst hq
        simp [node_put, node_get, hr]
      · simp [node_put, node_get, hr, hq, ih]

theorem node_put_put (p : String) (a b : Node) (ns : List (String × Node)) :
    node_put p b (node_put p a ns) = node_put p b ns := by
  induction ns with
  | nil => simp [node_put]
  | cons e rest ih =>
    obtain ⟨r, m⟩ := e
    by_cases hr : r = p
    · simp [node_put, hr]
    · simp [node_put, hr, ih]

theorem node_put_same (p : String) (n : Node) (ns : List (String × Node))
    (h : node_get p ns = some n) : node_put p n ns = ns := by
  induction ns with
  | nil => simp [node_get] at h
  | cons e rest ih =>
    obtain ⟨r, m⟩ := e
    by_cases hr : r = p
    · simp [node_get, hr] at h
      simp [node_put, hr, h]
    · simp [node_get, hr] at h
      simp [node_put, hr, ih h]

theorem node_get_append_other (p q : String) (n : Node) (ns : List (String × Node))
    (h : q ≠ p) : node_get q (ns ++ [(p, n)]) = node_get q ns := by
  induction ns with
  | nil => simp [node_get, Ne.symm h]
  | cons e rest ih =>
    obtain ⟨r, m⟩ := e
    by_cases hr : r = q
    · simp [node_get, hr]
    · simp [node_get, hr, ih]

theorem node_get_append_new (p : String) (n : Node) (ns : List (String × Node))
    (h : node_get p ns = none) : node_get p (ns ++ [(p, n)]) = some n := by
  induction ns with
  | nil => simp [node_get]
  | cons e rest ih =>
    obtain ⟨r, m⟩ := e
    by_cases hr : r = p
    · simp [node_get, hr] at h
    · simp [node_get, hr] at h
      simp [node_get, hr, ih h]

@[simp] theorem file_put_faults (s : State) (p : String) (d : Db) :
    (file_put s p d).faults = s.faults := rfl

@[simp] theorem file_put_journal (s : State) (p : String) (d : Db) :
    (file_put s p d).journal = s.journal := rfl

@[simp] theorem file_put_quoted_count (s : State) (p : String) (d : Db) :
    (file_put s p d).quoted_count = s.quoted_count := rfl

@[simp] theorem file_get_file_put_same (s : State) (p : String) (d : Db) :
    file_get (file_put s p d) p = some d := by
  simp [file_get, file_put, node_get_put_same]

theorem file_get_file_put_other (s : State) (p q : String) (d : Db) (h : q ≠ p) :
    file_get (file_put s p d) q = file_get s q := by
  simp [file_get, file_put, node_get_put_other _ _ _ _ h]

theorem node_get_file_put_other (s : State) (p q : String) (d : Db) (h : q ≠ p) :
    node_get q (file_put s p d).nodes = node_get q s.nodes := by
  simp [file_put, node_get_put_other _ _ _ _ h]

@[simp] theorem file_put_file_put (s : State) (p : String) (a b : Db) :
    file_put (file_put s p a) p b = file_put s p b := by
  simp [file_put, node_put_put]

theorem file_put_same (s : State) (p : String) (d : Db) (h : file_get s p = some d) :
    file_put s p d = s := by
  have hn : node_get p s.nodes = some (Node.file d) := by
    unfold file_get at h
    split at h
    · next d' hd => simp at h; subst h; exact hd
    · simp at h
  simp [file_put, node_put_same _ _ _ hn]

/-! ## The keyed insert -/

theorem insert_unique_keys_nodup (rows : List BackupRow) (r : BackupRow)
    (h : (rows.map row_key).Nodup) : ((insert_unique rows r).map row_key).Nodup := by
  unfold insert_unique
  split
  · exact h
  · next hany =>
    simp only [List.any_eq_true, decide_eq_true_eq, not_exists, not_and] at hany
    rw [List.map_append, List.nodup_append]
    refine ⟨h, by simp, ?_⟩
    intro k hk hk2
    simp only [List.map_cons, List.map_nil, List.mem_singleton] at hk2
    simp only [List.mem_map] at hk
    obtain ⟨x, hx, hxk⟩ := hk
    exact hany x hx (by rw [hk2] at hxk; simpa [row_key] using hxk)

theorem merge_mem_iff (seq rows : List BackupRow) (r : BackupRow) :
    r ∈ seq.foldl insert_unique rows ↔
      r ∈ rows ∨ ((∀ x ∈ rows, row_key x ≠ row_key r) ∧
        seq.find? (fun x => decide (row_key x = row_key r)) = some r) := by
  induction seq generalizing rows with
  | nil => simp
  | cons a rest ih =>
    rw [List.foldl_cons, ih]
    unfold insert_unique
    by_cases hany : rows.any (fun x => decide (x.2.1 = a.2.1)) = true
    · rw [if_pos hany]
      simp only [List.any_eq_true, decide_eq_true_eq] at hany
      obtain ⟨y, hy, hya⟩ := hany
      by_cases hk : row_key a = row_key r
      · simp only [List.find?_cons, hk, decide_True]
        constructor
        · rintro (h | ⟨h, _⟩)
          · exact Or.inl h
          · exact absurd (by rw [← hk]; exact hya) (h y hy)
        · rintro (h | ⟨h, _⟩)
          · exact Or.inl h
          · exact absurd (by rw [← hk]; exact hya) (h y hy)
      · simp [List.find?_cons, hk]
    · rw [if_neg hany]
      simp only [List.any_eq_true, decide_eq_true_eq, not_exists, not_and] at hany
      by_cases hk : row_key a = row_key r
      · simp only [List.find?_cons, hk, decide_True, List.mem_append, List.mem_singleton,
          Option.some.injEq]
        constructor
        · rintro ((h | h) | ⟨h, _⟩)
          · exact Or.inl h
          · subst h
            exact Or.inr ⟨fun x hx => hany x hx, rfl⟩
          · exact absurd hk (h a (Or.inr rfl))
        · rintro (h | ⟨_, h⟩)
          · exact Or.inl (Or.inl h)
          · exact Or.inl (Or.inr h.symm)
      · simp only [List.find?_cons, hk, decide_False, List.mem_append, List.mem_singleton]
        constructor
        · rintro ((h | h) | ⟨h, h2⟩)
          · exact Or.inl h
          · subst h; exact absurd rfl hk
          · exact Or.inr ⟨fun x hx => h x (Or.inl hx), h2⟩
        · rintro (h | ⟨h, h2⟩)
          · exact Or.inl (Or.inl h)
          · refine Or.inr ⟨?_, h2⟩
            rintro x (hx | hx)
            · exact h x hx
            · subst hx; exact hk

theorem merge_of_nodup (seq rows : List BackupRow) (h : ((rows ++ seq).map row_key).Nodup) :
    seq.foldl insert_unique rows = rows ++ seq := by
  induction seq generalizing rows with
  | nil => simp
  | cons a rest ih =>
    have hnot : rows.any (fun x => decide (x.2.1 = a.2.1)) = false := by
      rw [List.map_append, List.nodup_append] at h
      obtain ⟨_, _, hdis⟩ := h
      simp only [List.any_eq_false, decide_eq_true_eq]
      intro x hx hxa
      exact hdis (List.mem_map_of_mem row_key hx) (by simp [row_key, hxa])
    rw [List.foldl_cons]
    have : insert_unique rows a = rows ++ [a] := by simp [insert_unique, hnot]
    rw [this, ih _ (by simpa using h)]
    simp

/-! ## The merge loop of the backup -/

theorem step_insert_backup_eq (s : State) (bp : String) (dd : Option (List Row))
    (rows : List BackupRow) (p k v : String) (hf : s.faults = [])
    (hfile : file_get s bp = some ⟨dd, some rows⟩) :
    (backup_action s bp (some ⟨bp, Sql.insert_backup⟩) (some p) (some k) (some v)).2
      = file_put s bp ⟨dd, some (insert_unique rows (p, k, v))⟩ := by
  unfold backup_action step_insert_backup insert_unique
  by_cases hany : rows.any (fun r => r.2.1 = k) = true
  · simp [hf, hfile, hany]
    exact (file_put_same s bp _ hfile).symm
  · simp [hf, hfile, hany]

theorem backup_rows_fold (s0 : State) (bp p : String) (dd : Option (List Row)) (hf : s0.faults = [])
    (rs : List Row) (rows : List BackupRow) :
    rs.foldl (fun acc row =>
        (backup_action acc bp (some ⟨bp, Sql.insert_backup⟩) (some p) (some row.1)
          (some row.2)).2) (file_put s0 bp ⟨dd, some rows⟩)
      = file_put s0 bp ⟨dd, some ((rs.map fun r => (p, r.1, r.2)).foldl insert_unique rows)⟩ := by
  induction rs generalizing rows with
  | nil => simp
  | cons r rest ih =>
    simp only [List.foldl_cons, List.map_cons]
    rw [step_insert_backup_eq _ bp dd rows p r.1 r.2 (by simpa using hf) (by simp)]
    rw [file_put_file_put]
    exact ih _

theorem prepare_statement_ok (s : State) (db : String) (c : Sql) (d : Db)
    (hf : s.faults = []) (hfile : file_get s db = some d) (ht : tables_exist d c = true)
    (hc : text_compiles s c = true) : prepare_statement s db c = some ⟨db, c⟩ := by
  simp [prepare_statement, hf, hfile, ht, hc]

theorem prepare_statement_no_table (s : State) (db : String) (c : Sql) (d : Db)
    (hfile : file_get s db = some d) (ht : tables_exist d c = false) :
    prepare_statement s db c = none := by
  simp [prepare_statement, hfile, ht]

theorem store_rows_of_file (s : State) (p : String) (d : Db) (h : file_get s p = some d) :
    store_rows s p = d.data.getD [] := by
  simp [store_rows, data_rows, h]

theorem store_rows_of_dir (s : State) (p : String) (h : node_get p s.nodes = some Node.dir) :
    store_rows s p = [] := by
  simp [store_rows, data_rows, file_get, h]

theorem create_backup_eq (s0 : State) (bp p : String) (rows : List BackupRow)
    (hf : s0.faults = []) (hp : p ≠ bp) (hex : g_file_test s0 p = true) :
    create_backup bp (some ⟨bp, Sql.insert_backup⟩) (file_put s0 bp ⟨none, some rows⟩) (some p)
      = file_put s0 bp ⟨none, some ((tagged_rows s0 p).foldl insert_unique rows)⟩ := by
  have hnode : node_get p (file_put s0 bp ⟨none, some rows⟩).nodes = node_get p s0.nodes :=
    node_get_file_put_other s0 bp p _ hp
  have hf1 : (file_put s0 bp ⟨none, some rows⟩).faults = [] := by simpa using hf
  unfold create_backup open_database
  simp only [file_put_faults, hf, List.not_mem_nil, if_false, hnode]
  unfold g_file_test at hex
  cases hn : node_get p s0.nodes with
  | none => simp [hn] at hex
  | some n =>
    cases n with
    | dir =>
      simp [tagged_rows, store_rows_of_dir s0 p hn]
    | file d =>
      have hfg0 : file_get s0 p = some d := by simp [file_get, hn]
      have hfg : file_get (file_put s0 bp ⟨none, some rows⟩) p = some d := by
        rw [file_get_file_put_other s0 bp p _ hp]; exact hfg0
      cases hd : d.data with
      | none =>
        rw [prepare_statement_no_table _ p _ d hfg (by simp [tables_exist, hd])]
        simp [tagged_rows, store_rows_of_file s0 p d hfg0, hd]
      | some rs =>
        rw [prepare_statement_ok _ p _ d hf1 hfg (by simp [tables_exist, hd])
          (by simp [text_compiles])]
        simp only [Bool.not_true, Bool.false_eq_true, if_false, step_select_data, ne_eq,
          not_true_eq_false, hf1, List.not_mem_nil, hfg, hd, close_database]
        rw [backup_rows_fold s0 bp p none hf rs rows]
        simp [tagged_rows, store_rows_of_file s0 p d hfg0, hd]

theorem create_backup_fold (s0 : State) (bp : String) (hf : s0.faults = [])
    (stores : List String) (hne : ∀ p ∈ stores, p ≠ bp)
    (hex : ∀ p ∈ stores, g_file_test s0 p = true) (rows : List BackupRow) :
    stores.foldl (fun acc file => create_backup bp (some ⟨bp, Sql.insert_backup⟩) acc (some file))
        (file_put s0 bp ⟨none, some rows⟩)
      = file_put s0 bp ⟨none, some ((merge_order s0 stores).foldl insert_unique rows)⟩ := by
  induction stores generalizing rows with
  | nil => simp [merge_order]
  | cons p rest ih =>
    simp only [List.foldl_cons]
    rw [create_backup_eq s0 bp p rows hf (hne p (by simp)) (hex p (by simp))]
    rw [ih (fun q hq => hne q (by simp [hq])) (fun q hq => hex q (by simp [hq]))]
    simp [merge_order, List.foldl_append]

theorem make_list_exists (s : State) (dir : Option String) (p : String)
    (h : p ∈ make_list s dir) : g_file_test s p = true := by
  unfold make_list at h
  cases dir with
  | none => simp at h
  | some d =>
    simp only at h
    split at h
    · simp at h
    · simp only [List.mem_filterMap] at h
      obtain ⟨e, _, he⟩ := h
      split at he
      · next hex => simp at he; subst he; exact hex
      · simp at he

theorem unlink_node_get (s : State) (p : String) :
    node_get p (unlink s p).nodes = none ∨ node_get p (unlink s p).nodes = some Node.dir := by
  unfold unlink
  simp only
  induction s.nodes with
  | nil => simp [node_get]
  | cons e rest ih =>
    obtain ⟨q, n⟩ := e
    by_cases hq : q = p
    · cases n with
      | dir => simp [List.filter, node_get, hq]
      | file d => simpa [List.filter, hq] using ih
    · simpa [List.filter, hq, node_get] using ih

@[simp] theorem unlink_faults (s : State) (p : String) : (unlink s p).faults = s.faults := rfl

@[simp] theorem getBackupFile_faults (s : State) : (getBackupFile s).2.faults = s.faults := by
  unfold getBackupFile setBackupFile
  cases s.backup_db_path <;> rfl

@[simp] theorem backup_start_faults (s : State) : (backup_start s).faults = s.faults := by
  simp [backup_start]

theorem create_prefs_backup_unfold (s : State) :
    create_prefs_backup s = read_and_backup_list (backup_start s)
      (make_list (backup_start s) (some prefs_dir)) (getBackupFile s).1 := by
  rfl

theorem create_prefs_backup_eq (s : State) (hf : s.faults = [])
    (hok : (create_prefs_backup s).1 = true) :
    (create_prefs_backup s).2 = file_put (backup_start s) (getBackupFile s).1
      ⟨none, some ((merge_order (backup_start s)
        (make_list (backup_start s) (some prefs_dir))).foldl insert_unique [])⟩
    ∧ node_get (getBackupFile s).1 (backup_start s).nodes = none := by
  rw [create_prefs_backup_unfold] at hok ⊢
  have hf2 : (backup_start s).faults = [] := by simpa using hf
  have hun := unlink_node_get (getBackupFile s).2 (getBackupFile s).1
  change node_get _ (backup_start s).nodes = none ∨ node_get _ (backup_start s).nodes = _ at hun
  generalize (getBackupFile s).1 = bp at *
  generalize hs2 : backup_start s = s2 at *
  rcases hun with hnone | hdir
  · -- nothing exists at the backup path
    unfold read_and_backup_list open_database at hok ⊢
    simp only [hf2, List.not_mem_nil, if_false, hnone] at hok ⊢
    by_cases hparent : is_dir s2 (g_path_get_dirname bp) = true
    · simp only [hparent, if_true] at hok ⊢
      have hsetup : setup_database (file_put s2 bp ⟨none, none⟩) bp
          = (true, some ⟨bp, Sql.insert_backup⟩, file_put s2 bp ⟨none, some []⟩) := by
        simp [setup_database, exec_command, hf2, prepare_statement, tables_exist, text_compiles]
      simp only [hsetup] at hok ⊢
      cases hj : s2.journal with
      | some j => simp [exec_command, hf2, hj] at hok
      | none =>
        have hbegin : exec_command (file_put s2 bp ⟨none, some []⟩) bp Sql.begin_immediate
            = (true, file_put { s2 with journal := some (bp, ⟨none, some []⟩) } bp
                ⟨none, some []⟩) := by
          simp [exec_command, hf2, hj]
          rfl
        simp only [hbegin] at hok ⊢
        have hne : ∀ p ∈ make_list s2 (some prefs_dir), p ≠ bp := by
          intro p hp hpb
          have := make_list_exists s2 _ p hp
          simp [g_file_test, hpb, hnone] at this
        have hfold := create_backup_fold { s2 with journal := some (bp, ⟨none, some []⟩) } bp hf2
          (make_list s2 (some prefs_dir)) hne (fun p hp => make_list_exists s2 _ p hp) []
        have hmo : merge_order { s2 with journal := some (bp, ⟨none, some []⟩) }
            (make_list s2 (some prefs_dir)) = merge_order s2 (make_list s2 (some prefs_dir)) := rfl
        rw [hmo] at hfold
        rw [hfold] at hok ⊢
        simp [exec_command, close_database, hf2]
        cases s2
        simp only at hj hf2
        subst hj
        subst hf2
        rfl
    · simp [hparent] at hok
  · unfold read_and_backup_list open_database at hok
    simp [hf2, hdir] at hok

/-! ## Key uniqueness of the snapshot -/

theorem backup_rows_file_put (s : State) (p bp : String) (d : Db) :
    backup_rows (file_put s p d) bp = if bp = p then d.lunaPrefs_backup else backup_rows s bp := by
  by_cases h : bp = p
  · subst h; simp [backup_rows]
  · simp [backup_rows, file_get_file_put_other s p bp d h, h]

theorem keys_unique_open (s : State) (bp p : String) (h : keys_unique s bp) :
    keys_unique (open_database s p).2 bp := by
  unfold open_database
  split
  · exact h
  · split
    · exact h
    · exact h
    · split
      · unfold keys_unique
        rw [backup_rows_file_put]
        split
        · simp
        · exact h
      · exact h

theorem keys_unique_step_insert (s : State) (bp : String) (stmt : Option Stmt)
    (p k v : String) (h : keys_unique s bp) :
    keys_unique (step_insert_backup s stmt p k v).2 bp := by
  unfold step_insert_backup
  split
  · exact h
  · next st =>
    split
    · exact h
    · split
      · exact h
      · split
        · exact h
        · next d hd =>
          split
          · exact h
          · next rows hrows =>
            split
            · exact h
            · next hany =>
              unfold keys_unique
              simp only
              rw [backup_rows_file_put]
              split
              · next hbp =>
                have hcur : backup_rows s bp = some rows := by
                  simp [backup_rows, hbp, hd, hrows]
                unfold keys_unique at h
                rw [hcur] at h
                have := insert_unique_keys_nodup rows (p, k, v) (by simpa using h)
                simpa [insert_unique, hany] using this
              · exact h

theorem keys_unique_backup_action (s : State) (bp bdb : String) (stmt : Option Stmt)
    (p k v : Option String) (h : keys_unique s bp) :
    keys_unique (backup_action s bdb stmt p k v).2 bp := by
  unfold backup_action
  split
  · next p k v =>
    have := keys_unique_step_insert s bp stmt p k v h
    simp only
    split <;> exact this
  · exact h

theorem journal_step_insert (s : State) (stmt : Option Stmt) (p k v : String) :
    (step_insert_backup s stmt p k v).2.journal = s.journal := by
  unfold step_insert_backup
  repeat' split
  all_goals rfl

theorem journal_backup_action (s : State) (bdb : String) (stmt : Option Stmt)
    (p k v : Option String) : (backup_action s bdb stmt p k v).2.journal = s.journal := by
  unfold backup_action
  split
  · next p k v =>
    have := journal_step_insert s stmt p k v
    simp only
    split <;> exact this
  · rfl

theorem journal_open (s : State) (p : String) : (open_database s p).2.journal = s.journal := by
  unfold open_database
  repeat' split
  all_goals rfl

theorem rows_fold_invariant (bp bdb p : String) (stmt : Option Stmt) (rs : List Row) (s : State)
    (h : keys_unique s bp) :
    keys_unique (rs.foldl (fun acc row =>
      (backup_action acc bdb stmt (some p) (some row.1) (some row.2)).2) s) bp
    ∧ (rs.foldl (fun acc row =>
      (backup_action acc bdb stmt (some p) (some row.1) (some row.2)).2) s).journal = s.journal := by
  induction rs generalizing s with
  | nil => exact ⟨h, rfl⟩
  | cons r rest ih =>
    simp only [List.foldl_cons]
    obtain ⟨h1, h2⟩ := ih _ (keys_unique_backup_action s bp bdb stmt _ _ _ h)
    exact ⟨h1, by rw [h2, journal_backup_action]⟩

theorem create_backup_invariant (bp bdb : String) (stmt : Option Stmt) (s : State)
    (file : Option String) (h : keys_unique s bp) :
    keys_unique (create_backup bdb stmt s file) bp
    ∧ (create_backup bdb stmt s file).journal = s.journal := by
  unfold create_backup
  split
  · exact ⟨h, rfl⟩
  · next db_path =>
    have ho := keys_unique_open s bp db_path h
    have hj := journal_open s db_path
    simp only
    split
    · exact ⟨ho, hj⟩
    · split
      · exact ⟨ho, hj⟩
      · next st _ =>
        have := rows_fold_invariant bp bdb db_path stmt
          (step_select_data (open_database s db_path).2 (some st)).1 _ ho
        simp only [close_database]
        exact ⟨this.1, by rw [this.2, hj]⟩

theorem stores_fold_invariant (bp bdb : String) (stmt : Option Stmt) (stores : List String)
    (s : State) (h : keys_unique s bp) :
    keys_unique (stores.foldl (fun acc file => create_backup bdb stmt acc (some file)) s) bp
    ∧ (stores.foldl (fun acc file => create_backup bdb stmt acc (some file)) s).journal
        = s.journal := by
  induction stores generalizing s with
  | nil => exact ⟨h, rfl⟩
  | cons p rest ih =>
    simp only [List.foldl_cons]
    obtain ⟨h1, h2⟩ := create_backup_invariant bp bdb stmt s (some p) h
    obtain ⟨h3, h4⟩ := ih _ h1
    exact ⟨h3, by rw [h4, h2]⟩

theorem backup_rows_of_file (s : State) (bp : String) (d : Db) (h : file_get s bp = some d) :
    backup_rows s bp = d.lunaPrefs_backup := by
  simp [backup_rows, h]

theorem keys_unique_exec_create (s : State) (bp db : String) (h : keys_unique s bp) :
    keys_unique (exec_command s db Sql.create_backup_table).2 bp := by
  unfold exec_command
  split
  · exact h
  · next d hd =>
    simp only
    split
    · exact h
    · unfold keys_unique
      rw [backup_rows_file_put]
      split
      · next hbp =>
        unfold keys_unique at h
        rw [hbp, backup_rows_of_file s db d hd] at h
        simpa using h
      · exact h

theorem keys_unique_setup (s : State) (bp : String) (h : keys_unique s bp) :
    keys_unique (setup_database s bp).2.2 bp := by
  have := keys_unique_exec_create s bp bp h
  unfold setup_database
  simp only
  split
  · exact this
  · split <;> exact this

theorem keys_unique_exec_begin (s : State) (bp : String) (h : keys_unique s bp) :
    keys_unique (exec_command s bp Sql.begin_immediate).2 bp
    ∧ ((exec_command s bp Sql.begin_immediate).1 = true →
        journal_keys_unique (exec_command s bp Sql.begin_immediate).2 bp) := by
  unfold exec_command
  split
  · exact ⟨h, by simp⟩
  · next d hd =>
    simp only
    split
    · exact ⟨h, by simp⟩
    · split
      · exact ⟨h, by simp⟩
      · refine ⟨h, fun _ => ?_⟩
        intro jd hjd
        simp only [Option.some.injEq, Prod.mk.injEq, true_and] at hjd
        subst hjd
        unfold keys_unique at h
        rw [backup_rows_of_file s bp d hd] at h
        exact h

theorem keys_unique_exec_commit (s : State) (bp : String) (h : keys_unique s bp)
    (hj : journal_keys_unique s bp) : keys_unique (exec_command s bp Sql.commit).2 bp := by
  unfold exec_command
  split
  · exact h
  · next d hd =>
    simp only
    split
    · exact h
    · next jdb jd hjournal =>
      split
      · exact h
      · next hdb =>
        simp only [ne_eq, not_not] at hdb
        subst hdb
        split
        · unfold keys_unique
          have : backup_rows { file_put s jdb jd with journal := none } jdb
              = backup_rows (file_put s jdb jd) jdb := rfl
          rw [this, backup_rows_file_put]
          simpa using hj jd hjournal
        · exact h

theorem read_and_backup_list_keys_unique (s : State) (stores : List String) (bp : String)
    (h : keys_unique s bp) : keys_unique (read_and_backup_list s stores bp).2 bp := by
  unfold read_and_backup_list
  have ho := keys_unique_open s bp bp h
  simp only
  split
  · exact ho
  · have hs := keys_unique_setup _ bp ho
    obtain ⟨hb, hbj⟩ := keys_unique_exec_begin _ bp hs
    split
    · exact hb
    · next hbegun =>
      have hbegun : (exec_command (setup_database (open_database s bp).2 bp).2.2 bp
          Sql.begin_immediate).1 = true := by simpa using hbegun
      obtain ⟨hfold, hjournal⟩ := stores_fold_invariant bp bp
        (setup_database (open_database s bp).2 bp).2.1 stores _ hb
      have hjk : journal_keys_unique _ bp := hbj hbegun
      have hc := keys_unique_exec_commit _ bp hfold (by
        intro jd hjd
        rw [hjournal] at hjd
        exact hjk jd hjd)
      simp only [close_database]
      split <;> exact hc

theorem backup_start_keys_unique (s : State) :
    keys_unique (backup_start s) (getBackupFile s).1 := by
  unfold keys_unique
  have hun := unlink_node_get (getBackupFile s).2 (getBackupFile s).1
  have : backup_rows (backup_start s) (getBackupFile s).1 = none := by
    unfold backup_rows file_get
    rcases hun with h | h
    · rw [show (backup_start s).nodes = (unlink (getBackupFile s).2 (getBackupFile s).1).nodes
        from rfl, h]
    · rw [show (backup_start s).nodes = (unlink (getBackupFile s).2 (getBackupFile s).1).nodes
        from rfl, h]
  rw [this]
  simp

/-! ## Claims about the backup -/

theorem backup_keys_unique (s : State) :
    keys_unique (create_prefs_backup s).2 (getBackupFile s).1 := by
  rw [create_prefs_backup_unfold]
  exact read_and_backup_list_keys_unique _ _ _ (backup_start_keys_unique s)

/-- C3: after `create_prefs_backup` the snapshot table holds at most one row per key, so two
stores never both have a row under the same key. -/
theorem snapshot_key_unique (s : State) :
    (((backup_rows (create_prefs_backup s).2 (getBackupFile s).1).getD []).map row_key).Nodup ∧
    ∀ p1 p2 k v1 v2 : String,
      (p1, k, v1) ∈ (backup_rows (create_prefs_backup s).2 (getBackupFile s).1).getD [] →
      (p2, k, v2) ∈ (backup_rows (create_prefs_backup s).2 (getBackupFile s).1).getD [] →
      p1 = p2 ∧ v1 = v2 := by
  have h := backup_keys_unique s
  refine ⟨h, ?_⟩
  intro p1 p2 k v1 v2 h1 h2
  have := List.inj_on_of_nodup_map h h1 h2 rfl
  simp only [Prod.mk.injEq, true_and] at this
  exact this

theorem data_rows_of_file (s : State) (p : String) (d : Db) (h : file_get s p = some d) :
    data_rows s p = d.data := by
  simp [data_rows, h]

theorem restore_row_fresh (t : State) (p : String) (cur : List Row)
    (b : Option (List BackupRow)) (c : Nat) (k v : String) (hf : t.faults = [])
    (hfile : file_get t p = some ⟨some cur, b⟩) (hq : sql_quote ∉ k.data)
    (hk : k ∉ cur.map Prod.fst) :
    (restore_row p (some ⟨p, Sql.update_data⟩) (some ⟨p, Sql.insert_data⟩) (c, t) (k, v)).2
      = file_put t p ⟨some (cur ++ [(k, v)]), b⟩ := by
  have hprep : prepare_statement t p (Sql.count_data k) = some ⟨p, Sql.count_data k⟩ :=
    prepare_statement_ok t p _ _ hf hfile (by simp [tables_exist]) (by simp [text_compiles, hq])
  have hzero : (cur.filter (fun r => decide (r.1 = k))).length = 0 := by
    rw [List.length_eq_zero, List.filter_eq_nil_iff]
    intro r hr
    simp only [decide_eq_true_eq]
    intro hrk
    exact hk (List.mem_map.2 ⟨r, hr, hrk⟩)
  have hcount : step_count t (some ⟨p, Sql.count_data k⟩) = some 0 := by
    simp [step_count, hf, data_rows_of_file t p _ hfile, hq, hzero]
  unfold restore_row
  simp only [hprep, hcount, ne_eq, not_true_eq_false, if_false]
  simp [restore_prefs_data, step_insert_data, hf, hfile]

theorem restore_rows_fresh (t0 : State) (p : String) (b : Option (List BackupRow))
    (hf : t0.faults = []) (rs cur : List Row) (c : Nat)
    (hq : ∀ r ∈ rs, sql_quote ∉ r.1.data)
    (hk : ((cur ++ rs).map Prod.fst).Nodup) :
    (rs.foldl (restore_row p (some ⟨p, Sql.update_data⟩) (some ⟨p, Sql.insert_data⟩))
        (c, file_put t0 p ⟨some cur, b⟩)).2
      = file_put t0 p ⟨some (cur ++ rs), b⟩ := by
  induction rs generalizing cur c with
  | nil => simp
  | cons r rest ih =>
    obtain ⟨k, v⟩ := r
    simp only [List.foldl_cons]
    have hknew : k ∉ cur.map Prod.fst := by
      rw [List.map_append, List.nodup_append] at hk
      intro hmem
      exact hk.2.2 hmem (by simp)
    have hstep := restore_row_fresh (file_put t0 p ⟨some cur, b⟩) p cur b c k v
      (by simpa using hf) (by simp) (hq (k, v) (by simp)) hknew
    rw [file_put_file_put] at hstep
    have hpair : restore_row p (some ⟨p, Sql.update_data⟩) (some ⟨p, Sql.insert_data⟩)
        (c, file_put t0 p ⟨some cur, b⟩) (k, v)
        = ((restore_row p (some ⟨p, Sql.update_data⟩) (some ⟨p, Sql.insert_data⟩)
            (c, file_put t0 p ⟨some cur, b⟩) (k, v)).1,
           file_put t0 p ⟨some (cur ++ [(k, v)]), b⟩) := by
      rw [← hstep]
    rw [hpair, ih (cur ++ [(k, v)]) _ (fun r hr => hq r (by simp [hr])) (by simpa using hk)]
    simp

theorem restore_action_fresh (t : State) (bp p : String) (rows : List BackupRow)
    (hf : t.faults = []) (hfile : file_get t p = some ⟨none, none⟩)
    (hsnap : backup_rows t bp = some rows)
    (hq : ∀ r ∈ rows_for rows p, sql_quote ∉ r.1.data)
    (hk : ((rows_for rows p).map Prod.fst).Nodup) :
    restore_action t (some ⟨bp, Sql.select_backup_where_appPath⟩) p (some p)
      = (true, file_put t p ⟨some (rows_for rows p), none⟩) := by
  have hne : bp ≠ p := by
    intro h
    subst h
    simp [backup_rows, hfile] at hsnap
  have hcreate : exec_command t p Sql.create_data_table = (true, file_put t p ⟨some [], none⟩) := by
    simp [exec_command, hfile, hf]
  have hf1 : (file_put t p ⟨some [], none⟩).faults = [] := by simpa using hf
  have hsnap1 : backup_rows (file_put t p ⟨some [], none⟩) bp = some rows := by
    rw [backup_rows_file_put, if_neg hne]; exact hsnap
  unfold restore_action
  simp only [hcreate, Bool.not_true, Bool.false_eq_true, if_false]
  rw [prepare_statement_ok _ p Sql.update_data ⟨some [], none⟩ hf1
    (file_get_file_put_same _ _ _) (by simp [tables_exist]) (by simp [text_compiles])]
  rw [prepare_statement_ok _ p Sql.insert_data ⟨some [], none⟩ hf1
    (file_get_file_put_same _ _ _) (by simp [tables_exist]) (by simp [text_compiles])]
  have hsel : step_select_where (file_put t p ⟨some [], none⟩)
      (some ⟨bp, Sql.select_backup_where_appPath⟩) p = (rows_for rows p, true) := by
    simp [step_select_where, hf, hsnap1, rows_for]
  simp only [hsel]
  rw [restore_rows_fresh t p none hf (rows_for rows p) [] 0 hq (by simpa using hk)]
  simp

theorem restored_one_faults (t : State) (rows : List BackupRow) (p : String) :
    (restored_one t rows p).faults = t.faults := rfl

theorem restored_one_node_get (t : State) (rows : List BackupRow) (p q : String)
    (h1 : q ≠ p) (h2 : q ≠ g_path_get_dirname p) :
    node_get q (restored_one t rows p).nodes = node_get q t.nodes := by
  unfold restored_one
  rw [node_get_file_put_other _ p q _ h1]
  exact node_get_append_other _ q _ _ h2

theorem restored_one_data (t : State) (rows : List BackupRow) (p : String) :
    data_rows (restored_one t rows p) p = some (rows_for rows p) := by
  simp [restored_one, data_rows]

theorem backup_rows_congr (s t : State) (bp : String)
    (h : node_get bp s.nodes = node_get bp t.nodes) : backup_rows s bp = backup_rows t bp := by
  simp [backup_rows, file_get, h]

theorem data_rows_congr (s t : State) (p : String)
    (h : node_get p s.nodes = node_get p t.nodes) : data_rows s p = data_rows t p := by
  simp [data_rows, file_get, h]

theorem is_dir_congr (s t : State) (p : String)
    (h : node_get p s.nodes = node_get p t.nodes) : is_dir s p = is_dir t p := by
  simp [is_dir, h]

theorem backup_rows_some_node (s : State) (bp : String) (rows : List BackupRow)
    (h : backup_rows s bp = some rows) : node_get bp s.nodes ≠ none := by
  intro hn
  simp [backup_rows, file_get, hn] at h

theorem is_dir_node (s : State) (p : String) (h : is_dir s p = true) :
    node_get p s.nodes = some Node.dir := by
  unfold is_dir at h
  split at h
  · assumption
  · simp at h

theorem restore_loop_step (bp : String) (rows : List BackupRow) (p : String)
    (rest : List String) (t : State) (hf : t.faults = [])
    (hsnap : backup_rows t bp = some rows)
    (hp : node_get p t.nodes = none) (hd : node_get (g_path_get_dirname p) t.nodes = none)
    (hdd : is_dir t (g_path_get_dirname (g_path_get_dirname p)) = true)
    (hne : g_path_get_dirname p ≠ p)
    (hq : ∀ r ∈ rows_for rows p, sql_quote ∉ r.1.data)
    (hk : ((rows_for rows p).map Prod.fst).Nodup) :
    restore_loop (some ⟨bp, Sql.select_backup_where_appPath⟩) t (p :: rest)
      = restore_loop (some ⟨bp, Sql.select_backup_where_appPath⟩) (restored_one t rows p) rest := by
  have hbp1 : bp ≠ p := fun h => backup_rows_some_node t bp rows hsnap (h ▸ hp)
  have hbp2 : bp ≠ g_path_get_dirname p := fun h => backup_rows_some_node t bp rows hsnap (h ▸ hd)
  have hmk : mkdir t (g_path_get_dirname p)
      = (true, { t with nodes := t.nodes ++ [(g_path_get_dirname p, Node.dir)] }) := by
    simp [mkdir, hf, g_file_test, hd, hdd]
  generalize ht1 : ({ t with nodes := t.nodes ++ [(g_path_get_dirname p, Node.dir)] } : State)
    = t1 at hmk
  have hf1 : t1.faults = [] := by rw [← ht1]; exact hf
  have hn1 : ∀ q, q ≠ g_path_get_dirname p → node_get q t1.nodes = node_get q t.nodes := by
    intro q hq
    rw [← ht1]
    exact node_get_append_other _ q _ _ hq
  have hdir1 : is_dir t1 (g_path_get_dirname p) = true := by
    rw [← ht1]
    simp [is_dir, node_get_append_new _ _ _ hd]
  have hopen : open_database t1 p = (true, file_put t1 p ⟨none, none⟩) := by
    simp [open_database, hf1, hn1 p (Ne.symm hne), hp, hdir1]
  have hsnap2 : backup_rows (file_put t1 p ⟨none, none⟩) bp = some rows := by
    rw [backup_rows_file_put, if_neg hbp1, backup_rows_congr t1 t bp (hn1 bp hbp2)]
    exact hsnap
  have hact := restore_action_fresh (file_put t1 p ⟨none, none⟩) bp p rows
    (by simpa using hf1) (by simp) hsnap2 hq hk
  rw [file_put_file_put] at hact
  rw [restore_loop]
  simp only [hmk, hopen, hact, Bool.not_true, Bool.false_eq_true, if_false, close_database]
  rw [← ht1]
  rfl

theorem restore_loop_fresh (bp : String) (rows : List BackupRow) (L : List String) (t : State)
    (hf : t.faults = []) (hsnap : backup_rows t bp = some rows)
    (hfresh : ∀ p ∈ L, node_get p t.nodes = none ∧
      node_get (g_path_get_dirname p) t.nodes = none ∧
      is_dir t (g_path_get_dirname (g_path_get_dirname p)) = true)
    (hdistinct : (L.map g_path_get_dirname ++ L).Nodup)
    (hq : ∀ p ∈ L, ∀ r ∈ rows_for rows p, sql_quote ∉ r.1.data)
    (hk : ∀ p ∈ L, ((rows_for rows p).map Prod.fst).Nodup) :
    (restore_loop (some ⟨bp, Sql.select_backup_where_appPath⟩) t L).1 = true ∧
    (∀ p ∈ L, data_rows (restore_loop (some ⟨bp, Sql.select_backup_where_appPath⟩) t L).2 p
      = some (rows_for rows p)) ∧
    (∀ q, q ∉ L → q ∉ L.map g_path_get_dirname →
      node_get q (restore_loop (some ⟨bp, Sql.select_backup_where_appPath⟩) t L).2.nodes
        = node_get q t.nodes) ∧
    (restore_loop (some ⟨bp, Sql.select_backup_where_appPath⟩) t L).2.faults = [] := by
  induction L generalizing t with
  | nil => simp [restore_loop, hf]
  | cons p rest ih =>
    obtain ⟨hp, hd, hdd⟩ := hfresh p (by simp)
    have hnd := hdistinct
    simp only [List.map_cons, List.cons_append, List.nodup_cons, List.mem_append, List.mem_map,
      List.mem_cons, not_or, not_exists, not_and] at hnd
    obtain ⟨⟨hd_notin_dirs, hd_ne_p, hd_notin_rest⟩, hrest_nodup⟩ := hnd
    have hrest_nodup' := hrest_nodup
    rw [List.nodup_append] at hrest_nodup'
    obtain ⟨_, hpr_nodup, hdisj⟩ := hrest_nodup'
    have hp_notin_rest : p ∉ rest := (List.nodup_cons.1 hpr_nodup).1
    have hp_notin_dirs : ∀ q ∈ rest, g_path_get_dirname q ≠ p := by
      intro q hq hqp
      exact hdisj (List.mem_map_of_mem _ hq) (by rw [hqp]; simp)
    rw [restore_loop_step bp rows p rest t hf hsnap hp hd hdd hd_ne_p (hq p (by simp))
      (hk p (by simp))]
    have hbp1 : bp ≠ p := fun h => backup_rows_some_node t bp rows hsnap (h ▸ hp)
    have hbp2 : bp ≠ g_path_get_dirname p :=
      fun h => backup_rows_some_node t bp rows hsnap (h ▸ hd)
    have hsnap' : backup_rows (restored_one t rows p) bp = some rows := by
      rw [backup_rows_congr _ t bp (restored_one_node_get t rows p bp hbp1 hbp2)]
      exact hsnap
    have hfresh' : ∀ q ∈ rest, node_get q (restored_one t rows p).nodes = none ∧
        node_get (g_path_get_dirname q) (restored_one t rows p).nodes = none ∧
        is_dir (restored_one t rows p) (g_path_get_dirname (g_path_get_dirname q)) = true := by
      intro q hqm
      obtain ⟨h1, h2, h3⟩ := hfresh q (by simp [hqm])
      have hqp : q ≠ p := fun h => hp_notin_rest (h ▸ hqm)
      have hqd : q ≠ g_path_get_dirname p := fun h => hd_notin_rest (h ▸ hqm)
      have hdq1 : g_path_get_dirname q ≠ p := hp_notin_dirs q hqm
      have hdq2 : g_path_get_dirname q ≠ g_path_get_dirname p :=
        fun h => hd_notin_dirs q hqm h
      have h3n := is_dir_node t _ h3
      have hddq1 : g_path_get_dirname (g_path_get_dirname q) ≠ p := by
        intro h; rw [h, hp] at h3n; simp at h3n
      have hddq2 : g_path_get_dirname (g_path_get_dirname q) ≠ g_path_get_dirname p := by
        intro h; rw [h, hd] at h3n; simp at h3n
      refine ⟨?_, ?_, ?_⟩
      · rw [restored_one_node_get t rows p q hqp hqd]; exact h1
      · rw [restored_one_node_get t rows p _ hdq1 hdq2]; exact h2
      · rw [is_dir_congr _ t _ (restored_one_node_get t rows p _ hddq1 hddq2)]; exact h3
    have hsub : (List.map g_path_get_dirname rest ++ rest).Nodup :=
      hrest_nodup.sublist ((List.sublist_cons_self p rest).append_left _)
    obtain ⟨ih1, ih2, ih3, ih4⟩ := ih (restored_one t rows p) (by rw [restored_one_faults]; exact hf)
      hsnap' hfresh' hsub (fun q hqm => hq q (by simp [hqm]))
      (fun q hqm => hk q (by simp [hqm]))
    refine ⟨ih1, ?_, ?_, ih4⟩
    · intro q hqm
      rcases List.mem_cons.1 hqm with hqp | hqr
      · subst hqp
        rw [data_rows_congr _ (restored_one t rows q) q
          (ih3 q hp_notin_rest (by
            intro hmem
            obtain ⟨x, hx, hxq⟩ := List.mem_map.1 hmem
            exact hp_notin_dirs x hx hxq))]
        exact restored_one_data t rows q
      · exact ih2 q hqr
    · intro q hq1 hq2
      simp only [List.mem_cons, not_or, List.map_cons] at hq1 hq2
      rw [ih3 q hq1.2 hq2.2]
      exact restored_one_node_get t rows p q hq1.1 hq2.1

theorem mem_sql_distinct {x : String} {l : List String} : x ∈ sql_distinct l ↔ x ∈ l := by
  induction l with
  | nil => simp [sql_distinct]
  | cons y rest ih =>
    simp only [sql_distinct, List.mem_cons, List.mem_filter, decide_eq_true_eq, ih]
    constructor
    · rintro (h | ⟨h, _⟩)
      · exact Or.inl h
      · exact Or.inr h
    · rintro (h | h)
      · exact Or.inl h
      · by_cases hxy : x = y
        · exact Or.inl hxy
        · exact Or.inr ⟨h, hxy⟩

theorem nodup_sql_distinct (l : List String) : (sql_distinct l).Nodup := by
  induction l with
  | nil => simp [sql_distinct]
  | cons y rest ih =>
    simp only [sql_distinct, List.nodup_cons, List.mem_filter, decide_eq_true_eq, ne_eq,
      not_true_eq_false, and_false, not_false_eq_true, true_and]
    exact ih.filter _

theorem try_restore_fresh (bp : String) (rows : List BackupRow) (t : State)
    (hf : t.faults = []) (hsnap : backup_rows t bp = some rows)
    (hfresh : ∀ p ∈ sql_distinct (rows.map Prod.fst), node_get p t.nodes = none ∧
      node_get (g_path_get_dirname p) t.nodes = none ∧
      is_dir t (g_path_get_dirname (g_path_get_dirname p)) = true)
    (hdistinct : ((sql_distinct (rows.map Prod.fst)).map g_path_get_dirname
      ++ (sql_distinct (rows.map Prod.fst))).Nodup)
    (hq : ∀ r ∈ rows, sql_quote ∉ (row_key r).data)
    (hk : (rows.map row_key).Nodup) :
    (try_restore t (some bp)).1 = true ∧
    (∀ p ∈ sql_distinct (rows.map Prod.fst),
      data_rows (try_restore t (some bp)).2 p = some (rows_for rows p)) ∧
    (∀ q, q ∉ (sql_distinct (rows.map Prod.fst)) →
      q ∉ (sql_distinct (rows.map Prod.fst)).map g_path_get_dirname →
      node_get q (try_restore t (some bp)).2.nodes = node_get q t.nodes) := by
  obtain ⟨d, hd, hdrows⟩ : ∃ d, file_get t bp = some d ∧ d.lunaPrefs_backup = some rows := by
    unfold backup_rows at hsnap
    split at hsnap
    · simp at hsnap
    · next d hd => exact ⟨d, hd, hsnap⟩
  have hnode : node_get bp t.nodes = some (Node.file d) := by
    unfold file_get at hd
    split at hd
    · next d' hd' => simp at hd; subst hd; exact hd'
    · simp at hd
  have hq' : ∀ p ∈ sql_distinct (rows.map Prod.fst), ∀ r ∈ rows_for rows p,
      sql_quote ∉ r.1.data := by
    intro p _ r hr
    simp only [rows_for, List.mem_map, List.mem_filter] at hr
    obtain ⟨x, ⟨hx, _⟩, hxr⟩ := hr
    subst hxr
    exact hq x hx
  have hk' : ∀ p ∈ sql_distinct (rows.map Prod.fst),
      ((rows_for rows p).map Prod.fst).Nodup := by
    intro p _
    have hsub : List.Sublist ((rows_for rows p).map Prod.fst) (rows.map row_key) := by
      simp only [rows_for, List.map_map]
      exact (List.filter_sublist rows).map _
    exact hk.sublist hsub
  have hloop := restore_loop_fresh bp rows _ t hf hsnap hfresh hdistinct hq' hk'
  have hprep1 : prepare_statement t bp Sql.select_distinct_appPath
      = some ⟨bp, Sql.select_distinct_appPath⟩ :=
    prepare_statement_ok t bp _ d hf hd (by simp [tables_exist, hdrows]) (by simp [text_compiles])
  have hprep2 : prepare_statement t bp Sql.select_backup_where_appPath
      = some ⟨bp, Sql.select_backup_where_appPath⟩ :=
    prepare_statement_ok t bp _ d hf hd (by simp [tables_exist, hdrows]) (by simp [text_compiles])
  have hsel : step_select_distinct t (some ⟨bp, Sql.select_distinct_appPath⟩)
      = (sql_distinct (rows.map Prod.fst)) := by
    simp [step_select_distinct, hf, hsnap]
  have hrun : try_restore t (some bp)
      = (true, (restore_loop (some ⟨bp, Sql.select_backup_where_appPath⟩) t
          (sql_distinct (rows.map Prod.fst))).2) := by
    unfold try_restore begin_restore
    simp only [g_file_test, hnode, Option.isSome_some, if_true, open_database, hf,
      List.not_mem_nil, if_false, Bool.not_true, Bool.false_eq_true, hprep1, hprep2, hsel,
      close_database, decide_True, not_false_eq_true]
    rw [show restore_loop (some ⟨bp, Sql.select_backup_where_appPath⟩) t
        (sql_distinct (rows.map Prod.fst)) = (true, (restore_loop (some ⟨bp,
          Sql.select_backup_where_appPath⟩) t (sql_distinct (rows.map Prod.fst))).2) from
      Prod.ext hloop.1 rfl]
    simp [hloop.2.2.2]
  rw [hrun]
  exact ⟨rfl, hloop.2.1, hloop.2.2.1⟩

theorem rows_for_merge_order_not_mem (s : State) (stores : List String) (p : String)
    (h : p ∉ stores) : rows_for (merge_order s stores) p = [] := by
  simp only [rows_for, List.map_eq_nil_iff, List.filter_eq_nil_iff, merge_order,
    List.mem_flatMap, tagged_rows, List.mem_map, decide_eq_true_eq]
  rintro x ⟨q, hq, y, _, hxy⟩ hxp
  subst hxy
  exact h (hxp ▸ hq)

theorem rows_for_tagged_same (s : State) (p : String) :
    rows_for (tagged_rows s p) p = store_rows s p := by
  simp only [rows_for, tagged_rows]
  rw [List.filter_eq_self.2]
  · simp [List.map_map, Function.comp_def]
  · intro x hx
    simp only [List.mem_map] at hx
    obtain ⟨y, _, hxy⟩ := hx
    subst hxy
    simp

theorem rows_for_tagged_other (s : State) (p q : String) (h : q ≠ p) :
    rows_for (tagged_rows s q) p = [] := by
  simp only [rows_for, tagged_rows, List.map_eq_nil_iff, List.filter_eq_nil_iff, List.mem_map,
    decide_eq_true_eq]
  rintro x ⟨y, _, hxy⟩ hxp
  subst hxy
  exact h hxp

theorem rows_for_append (a b : List BackupRow) (p : String) :
    rows_for (a ++ b) p = rows_for a p ++ rows_for b p := by
  simp [rows_for]

theorem rows_for_merge_order (s : State) (stores : List String) (p : String)
    (hn : stores.Nodup) (h : p ∈ stores) : rows_for (merge_order s stores) p = store_rows s p := by
  induction stores with
  | nil => simp at h
  | cons q rest ih =>
    have hcons : merge_order s (q :: rest) = tagged_rows s q ++ merge_order s rest := by
      simp [merge_order]
    rw [hcons, rows_for_append]
    obtain ⟨hq, hrest⟩ := List.nodup_cons.1 hn
    by_cases hqp : q = p
    · subst hqp
      rw [rows_for_tagged_same, rows_for_merge_order_not_mem s rest q hq]
      simp
    · rw [rows_for_tagged_other s p q hqp]
      have : p ∈ rest := by
        rcases List.mem_cons.1 h with h1 | h1
        · exact absurd h1.symm hqp
        · exact h1
      simpa using ih hrest this

theorem merge_order_fst_mem (s : State) (stores : List String) (x : BackupRow)
    (h : x ∈ merge_order s stores) : x.1 ∈ stores := by
  simp only [merge_order, List.mem_flatMap, tagged_rows, List.mem_map] at h
  obtain ⟨q, hq, y, _, hxy⟩ := h
  subst hxy
  exact hq

theorem nodup_dirs_of_subset (stores L : List String) (hL : L.Nodup) (hsub : ∀ p ∈ L, p ∈ stores)
    (h : (stores.map g_path_get_dirname ++ stores).Nodup) :
    (L.map g_path_get_dirname ++ L).Nodup := by
  rw [List.nodup_append] at h ⊢
  obtain ⟨hdirs, _, hdisj⟩ := h
  refine ⟨?_, hL, ?_⟩
  · apply List.Nodup.map_on _ hL
    intro x hx y hy hxy
    exact List.inj_on_of_nodup_map hdirs (hsub x hx) (hsub y hy) hxy
  · intro x hx1 hx2
    obtain ⟨y, hy, hyx⟩ := List.mem_map.1 hx1
    exact hdisj (List.mem_map.2 ⟨y, hsub y hy, hyx⟩) (hsub x hx2)

theorem node_get_filter (q : String) (f : String × Node → Bool) (ns : List (String × Node))
    (h : ∀ e ∈ ns, e.1 = q → f e = true) : node_get q (ns.filter f) = node_get q ns := by
  induction ns with
  | nil => rfl
  | cons e rest ih =>
    obtain ⟨r, n⟩ := e
    have ih' := ih (fun e he => h e (List.mem_cons_of_mem _ he))
    by_cases hr : r = q
    · have hfe : f (r, n) = true := h (r, n) (by simp) hr
      rw [List.filter_cons_of_pos hfe]
      simp [node_get, hr]
    · cases hfe : f (r, n) with
      | true =>
        rw [List.filter_cons_of_pos hfe]
        simp [node_get, hr, ih']
      | false =>
        rw [List.filter_cons_of_neg (by simp [hfe])]
        simp [node_get, hr, ih']

theorem unlink_node_get_other (s : State) (p q : String) (h : q ≠ p) :
    node_get q (unlink s p).nodes = node_get q s.nodes := by
  unfold unlink
  apply node_get_filter
  intro e _ he
  simp [he, h]

theorem getBackupFile_nodes (s : State) : (getBackupFile s).2.nodes = s.nodes := by
  unfold getBackupFile setBackupFile
  cases s.backup_db_path <;> rfl

theorem store_rows_backup_start (s : State) (p : String) (h : p ≠ (getBackupFile s).1) :
    store_rows (backup_start s) p = store_rows s p := by
  have : node_get p (backup_start s).nodes = node_get p s.nodes := by
    unfold backup_start
    rw [unlink_node_get_other _ _ _ h, getBackupFile_nodes]
  simp [store_rows, data_rows, file_get, this]

/-! ## Claims about the restore -/

/-- C6 (code evaluated at the failing input): restoring a snapshot that holds, for a fresh
store, the key `a` and then a key containing single quotes inserts `a` and then loses the
second pair: its count query counts every row, so the update branch runs and matches no row. -/
theorem restore_upsert_quoted_key :
    data_rows quoted_key_example "/var/preferences/com.x/prefsDB.sl" = none ∧
    (try_restore quoted_key_example (some backup_db_file)).1 = true ∧
    data_rows (try_restore quoted_key_example (some backup_db_file)).2
      "/var/preferences/com.x/prefsDB.sl" = some [("a", "1")] := by
  decide

/-- C7 (code evaluated at the failing input): when the directory of an origin path already
exists, `mkdir` fails, `begin_restore` returns false, and the destination store is neither
created nor written. -/
theorem begin_restore_existing_dir :
    is_dir existing_dir_example (g_path_get_dirname "/var/preferences/com.x/prefsDB.sl") = true ∧
    (mkdir existing_dir_example (g_path_get_dirname "/var/preferences/com.x/prefsDB.sl")).1
      = false ∧
    (begin_restore existing_dir_example (some backup_db_file)).1 = false ∧
    (begin_restore existing_dir_example (some backup_db_file)).2.nodes
      = existing_dir_example.nodes := by
  decide

/-- C8: for a path that is `NULL` or names nothing that exists, `try_restore` returns true
and leaves the whole state as it was. -/
theorem try_restore_missing (s : State) (db_file : Option String)
    (h : ∀ file, db_file = some file → g_file_test s file = false) :
    try_restore s db_file = (true, s) := by
  unfold try_restore
  cases db_file with
  | none => rfl
  | some file => simp [h file rfl]

/-- Witness for C8: no snapshot exists under `/tmp`. -/
theorem try_restore_missing_witness :
    g_file_test flat_example "/tmp/lunaprefs_backup.db" = false ∧
    try_restore flat_example (some "/tmp/lunaprefs_backup.db") = (true, flat_example) :=
  ⟨by decide, try_restore_missing flat_example (some "/tmp/lunaprefs_backup.db") (by
    intro file hfile
    cases hfile
    decide)⟩

/-! ## The authorization gate -/

@[simp] theorem replies_sent_nil : replies_sent [] = 0 := rfl

@[simp] theorem replies_sent_reply (body : Body) (sent : Bool) (l : List Event) :
    replies_sent (Event.reply body sent :: l) = (if sent then 1 else 0) + replies_sent l := by
  cases sent <;> simp [replies_sent, List.countP_cons, Nat.add_comm]

@[simp] theorem replies_sent_ref (l : List Event) :
    replies_sent (Event.ref :: l) = replies_sent l := by
  simp [replies_sent, List.countP_cons]

@[simp] theorem replies_sent_unref (l : List Event) :
    replies_sent (Event.unref :: l) = replies_sent l := by
  simp [replies_sent, List.countP_cons]

@[simp] theorem replies_sent_call (uri payload : String) (l : List Event) :
    replies_sent (Event.call uri payload :: l) = replies_sent l := by
  simp [replies_sent, List.countP_cons]

@[simp] theorem refs_taken_nil : refs_taken [] = 0 := rfl

@[simp] theorem refs_taken_reply (body : Body) (sent : Bool) (l : List Event) :
    refs_taken (Event.reply body sent :: l) = refs_taken l := by
  simp [refs_taken, List.countP_cons]

@[simp] theorem refs_taken_ref (l : List Event) :
    refs_taken (Event.ref :: l) = refs_taken l + 1 := by
  simp [refs_taken, List.countP_cons]

@[simp] theorem refs_taken_unref (l : List Event) :
    refs_taken (Event.unref :: l) = refs_taken l := by
  simp [refs_taken, List.countP_cons]

@[simp] theorem refs_taken_call (uri payload : String) (l : List Event) :
    refs_taken (Event.call uri payload :: l) = refs_taken l := by
  simp [refs_taken, List.countP_cons]

@[simp] theorem refs_released_nil : refs_released [] = 0 := rfl

@[simp] theorem refs_released_reply (body : Body) (sent : Bool) (l : List Event) :
    refs_released (Event.reply body sent :: l) = refs_released l := by
  simp [refs_released, List.countP_cons]

@[simp] theorem refs_released_ref (l : List Event) :
    refs_released (Event.ref :: l) = refs_released l := by
  simp [refs_released, List.countP_cons]

@[simp] theorem refs_released_unref (l : List Event) :
    refs_released (Event.unref :: l) = refs_released l + 1 := by
  simp [refs_released, List.countP_cons]

@[simp] theorem refs_released_call (uri payload : String) (l : List Event) :
    refs_released (Event.call uri payload :: l) = refs_released l := by
  simp [refs_released, List.countP_cons]

@[simp] theorem replies_sent_append (a b : List Event) :
    replies_sent (a ++ b) = replies_sent a + replies_sent b := by
  simp [replies_sent]

@[simp] theorem refs_taken_append (a b : List Event) :
    refs_taken (a ++ b) = refs_taken a + refs_taken b := by
  simp [refs_taken]

@[simp] theorem refs_released_append (a b : List Event) :
    refs_released (a ++ b) = refs_released a + refs_released b := by
  simp [refs_released]

theorem errorReplyStr_counts (env : BusEnv) (hbus : ∀ b, env.LSMessageReply b = true)
    (errString : Option String) :
    replies_sent (errorReplyStr env errString) = 1 ∧
    refs_taken (errorReplyStr env errString) = 0 ∧
    refs_released (errorReplyStr env errString) = 0 := by
  simp [errorReplyStr, hbus]

theorem errorReplyErr_counts (env : BusEnv) (hbus : ∀ b, env.LSMessageReply b = true)
    (err : LPErr) (h : err ≠ LPErr.LP_ERR_NONE) :
    replies_sent (errorReplyErr env err) = 1 ∧
    refs_taken (errorReplyErr env err) = 0 ∧
    refs_released (errorReplyErr env err) = 0 := by
  unfold errorReplyErr
  rw [if_pos h]
  exact errorReplyStr_counts env hbus _

theorem sysGet_internal_resolves (env : BusEnv) (hbus : ∀ b, env.LSMessageReply b = true)
    (getter : LPErr × List (Option Json)) (asObj : Bool) :
    resolves_once (sysGet_internal env getter asObj) := by
  unfold sysGet_internal resolves_once
  split
  · next h =>
    obtain ⟨h1, h2, h3⟩ := errorReplyErr_counts env hbus _ h
    simp [h1, h2, h3]
  · simp [hbus]

theorem sysGetSomeObj_callback_resolves (env : BusEnv)
    (hbus : ∀ b, env.LSMessageReply b = true) (message : LSMessage) (allowed : Bool) :
    resolves_once (sysGetSomeObj_callback env message allowed) := by
  unfold sysGetSomeObj_callback resolves_once
  simp only
  split
  · simp [replyWithValue, hbus]
  · obtain ⟨h1, h2, h3⟩ := errorReplyErr_counts env hbus LPErr.LP_ERR_PARAM_ERR (by decide)
    simp [h1, h2, h3]

theorem sysGetValue_callback_resolves (env : BusEnv)
    (hbus : ∀ b, env.LSMessageReply b = true)
    (hlib : ∀ key, (env.LPSystemCopyStringValue key).1 = LPErr.LP_ERR_NONE →
      (env.LPSystemCopyStringValue key).2 ≠ none)
    (message : LSMessage) (allowed : Bool) :
    resolves_once (sysGetValue_callback env message allowed) := by
  have hperm := errorReplyErr_counts env hbus LPErr.LP_ERR_PERM (by decide)
  unfold sysGetValue_callback resolves_once
  simp only
  split
  · next key _ _ =>
    split
    · simp [hperm]
    · split
      · simp [replyWithKeyValue, replyWithValue, hbus]
      · next err _ hne =>
        have herr : (env.LPSystemCopyStringValue key).1 ≠ LPErr.LP_ERR_NONE := by
          intro h0
          cases hv : (env.LPSystemCopyStringValue key).2 with
          | none => exact hlib key h0 hv
          | some v => exact hne v h0 hv
        obtain ⟨h1, h2, h3⟩ := errorReplyErr_counts env hbus _ herr
        simp [herr, h1, h2, h3]
  · obtain ⟨h1, h2, h3⟩ := errorReplyStr_counts env hbus (some "missing parameter key")
    simp [h1, h2, h3]

theorem gated_handler_counts (callback : callbackType) (env : BusEnv)
    (hbus : ∀ b, env.LSMessageReply b = true)
    (hcb : ∀ message allowed, resolves_once (callback env message allowed))
    (message oracle_reply : LSMessage) (p : Json)
    (hparse : oracle_reply.payload.bind env.json_tokener_parse = some p) :
    refs_taken (gated_request (gated_handler callback) env message oracle_reply) = 1 ∧
    refs_released (gated_request (gated_handler callback) env message oracle_reply) = 1 ∧
    (dropped_by_oracle (gated_handler callback) env message p = true →
      replies_sent (gated_request (gated_handler callback) env message oracle_reply) = 0) ∧
    (dropped_by_oracle (gated_handler callback) env message p = false →
      replies_sent (gated_request (gated_handler callback) env message oracle_reply) = 1) := by
  obtain ⟨hp1, hp2, hp3⟩ := errorReplyErr_counts env hbus LPErr.LP_ERR_PERM (by decide)
  unfold dropped_by_oracle gated_request gated_handler formURI checkAccess
  simp only
  cases hm : env.malloc with
  | false => simp [hp1, hp2, hp3]
  | true =>
    simp only [Bool.not_true, Bool.false_eq_true, if_false]
    cases hs : (match message.senderServiceName with
        | some name => some name
        | none => message.sender) with
    | none => simp [hp1, hp2, hp3]
    | some requester =>
      simp only
      cases hc : env.LSCallOneReply IS_CALL_ALLOWED_CHECK
          ("\x7b\"requester\":\"" ++ requester ++ "\",\"uri\":\""
            ++ (SERVICE_ROOT_URI ++ message.kind) ++ "\"\x7d") with
      | false => simp [hp1, hp2, hp3]
      | true =>
        simp only [Bool.not_true, Bool.false_eq_true, if_false, processReply, hparse,
          Option.isSome_some, Bool.true_and]
        cases hr : json_object_get_boolean (json_object_object_get (some p) "returnValue") with
        | false => simp
        | true =>
          obtain ⟨h1, h2, h3⟩ := hcb message
            (json_object_get_boolean (json_object_object_get (some p) "allowed"))
          simp [h1, h2, h3]

/-- C9 (amended): for every method of the gated table `sysPropGetMethods`, when the bus
accepts the replies, the property store hands back a value whenever it reports success, and
the oracle's answer (if one is awaited) parses: the extra reference is taken once and
released once; exactly one reply is sent when the nested call cannot be dispatched and when
the answer has a true `returnValue` (allowed or denied); and no reply at all is sent when the
answer has a false or missing `returnValue`, the request being dropped. -/
theorem gated_request_lifecycle (name : String)
    (handler : BusEnv → LSMessage → List Event × Option callbackContext)
    (hmem : (name, handler) ∈ sysPropGetMethods) (env : BusEnv)
    (hbus : ∀ b, env.LSMessageReply b = true)
    (hlib : ∀ key, (env.LPSystemCopyStringValue key).1 = LPErr.LP_ERR_NONE →
      (env.LPSystemCopyStringValue key).2 ≠ none)
    (message oracle_reply : LSMessage) (p : Json)
    (hparse : oracle_reply.payload.bind env.json_tokener_parse = some p) :
    refs_taken (gated_request handler env message oracle_reply) = 1 ∧
    refs_released (gated_request handler env message oracle_reply) = 1 ∧
    (dropped_by_oracle handler env message p = true →
      replies_sent (gated_request handler env message oracle_reply) = 0) ∧
    (dropped_by_oracle handler env message p = false →
      replies_sent (gated_request handler env message oracle_reply) = 1) := by
  have hvalue := gated_handler_counts sysGetValue_callback env hbus
    (fun m a => sysGetValue_callback_resolves env hbus hlib m a) message oracle_reply p hparse
  have hkeys := gated_handler_counts sysGetKeysObj_callback env hbus
    (fun _ _ => sysGet_internal_resolves env hbus _ _) message oracle_reply p hparse
  have hall := gated_handler_counts sysGetAllObj_callback env hbus
    (fun _ _ => sysGet_internal_resolves env hbus _ _) message oracle_reply p hparse
  have hsome := gated_handler_counts sysGetSomeObj_callback env hbus
    (fun m a => sysGetSomeObj_callback_resolves env hbus m a) message oracle_reply p hparse
  have htable : ∀ entry ∈ sysPropGetMethods,
      refs_taken (gated_request entry.2 env message oracle_reply) = 1 ∧
      refs_released (gated_request entry.2 env message oracle_reply) = 1 ∧
      (dropped_by_oracle entry.2 env message p = true →
        replies_sent (gated_request entry.2 env message oracle_reply) = 0) ∧
      (dropped_by_oracle entry.2 env message p = false →
        replies_sent (gated_request entry.2 env message oracle_reply) = 1) := by
    unfold sysPropGetMethods
    simp only [List.forall_mem_cons, List.not_mem_nil, IsEmpty.forall_iff, implies_true,
      and_true]
    exact ⟨hvalue, hkeys, hkeys, hall, hall, hsome, hsome, hvalue⟩
  exact htable (name, handler) hmem

/-- Witness for C9 (amended): a `getSysProperty` request that the oracle allows takes the
reference once, releases it once and gets one reply. -/
theorem gated_request_lifecycle_witness :
    refs_taken (gated_request sysGetValue example_env example_request
      (oracle_answer "\x7b\"returnValue\":true,\"allowed\":true\x7d")) = 1 ∧
    refs_released (gated_request sysGetValue example_env example_request
      (oracle_answer "\x7b\"returnValue\":true,\"allowed\":true\x7d")) = 1 ∧
    replies_sent (gated_request sysGetValue example_env example_request
      (oracle_answer "\x7b\"returnValue\":true,\"allowed\":true\x7d")) = 1 :=
  have h := gated_request_lifecycle "getSysProperty" sysGetValue (by simp [sysPropGetMethods])
    example_env (fun _ => rfl)
    (by
      intro key h
      unfold example_env at h ⊢
      simp only at h ⊢
      split at h
      · next hk => simp [hk]
      · simp at h)
    example_request (oracle_answer "\x7b\"returnValue\":true,\"allowed\":true\x7d")
    (Json.object [("returnValue", some (Json.boolean true)),
      ("allowed", some (Json.boolean true))]) (by rfl)
  ⟨h.1, h.2.1, h.2.2.2 (by decide)⟩

/-- Counterexample to C9 as stated: on the exit path where the oracle answers with an error
reply (`returnValue` false), the reference is released but no reply is sent to the caller. -/
theorem gated_request_lifecycle_counterexample :
    replies_sent (gated_request sysGetValue example_env example_request
      (oracle_answer "\x7b\"returnValue\":false\x7d")) = 0 ∧
    refs_released (gated_request sysGetValue example_env example_request
      (oracle_answer "\x7b\"returnValue\":false\x7d")) = 1 := by
  decide

/-- C10 (code evaluated at the failing input): when the oracle's answer does not parse,
`processReply` performs no bus operation at all: it sends no reply and does not invoke the
continuation, and it does not release the reference of the original request either. -/
theorem processReply_malformed (env : BusEnv) (oracle_reply : LSMessage)
    (ctx : Option callbackContext) :
    processReply { env with json_tokener_parse := fun _ => none } oracle_reply ctx = [] := by
  unfold processReply
  cases ctx with
  | none => rfl
  | some newCC =>
    cases oracle_reply.payload <;> rfl

/-! ## Claims about failures of the backup and the restore -/
theorem open_database_faults (s : State) (p : String) :
    (open_database s p).2.faults = s.faults := by
  unfold open_database
  repeat' split
  all_goals rfl

theorem step_insert_backup_faults (s : State) (stmt : Option Stmt) (p k v : String) :
    (step_insert_backup s stmt p k v).2.faults = s.faults := by
  unfold step_insert_backup
  repeat' split
  all_goals rfl

theorem backup_action_faults (s : State) (bdb : String) (stmt : Option Stmt)
    (p k v : Option String) : (backup_action s bdb stmt p k v).2.faults = s.faults := by
  unfold backup_action
  split
  · next p k v =>
    have := step_insert_backup_faults s stmt p k v
    simp only
    split <;> exact this
  · rfl

theorem create_backup_faults (bdb : String) (stmt : Option Stmt) (s : State)
    (file : Option String) : (create_backup bdb stmt s file).faults = s.faults := by
  unfold create_backup
  split
  · rfl
  · next db_path =>
    have ho := open_database_faults s db_path
    simp only
    split
    · exact ho
    · split
      · exact ho
      · next st _ =>
        simp only [close_database]
        rw [← ho]
        generalize (step_select_data (open_database s db_path).2 (some st)).1 = rs
        generalize (open_database s db_path).2 = acc
        induction rs generalizing acc with
        | nil => rfl
        | cons r rest ih =>
          simp only [List.foldl_cons]
          rw [ih, backup_action_faults]

theorem stores_fold_faults (bdb : String) (stmt : Option Stmt) (stores : List String)
    (s : State) :
    (stores.foldl (fun acc file => create_backup bdb stmt acc (some file)) s).faults
      = s.faults := by
  induction stores generalizing s with
  | nil => rfl
  | cons p rest ih =>
    simp only [List.foldl_cons]
    rw [ih, create_backup_faults]

theorem exec_command_faults (s : State) (db : String) (c : Sql) :
    (exec_command s db c).2.faults = s.faults := by
  unfold exec_command
  repeat' split
  all_goals rfl

theorem setup_database_faults (s : State) (bp : String) :
    (setup_database s bp).2.2.faults = s.faults := by
  have := exec_command_faults s bp Sql.create_backup_table
  unfold setup_database
  simp only
  split
  · exact this
  · split <;> exact this

/-- C19: whatever the per-app stores hold and whichever of them cannot be opened or read,
if the snapshot store opens, the transaction begins and the snapshot store closes, then
`create_prefs_backup` returns true. -/
theorem backup_best_effort (s : State)
    (hopen : (open_database (backup_start s) (getBackupFile s).1).1 = true)
    (hbegin : (exec_command
      (setup_database (open_database (backup_start s) (getBackupFile s).1).2
        (getBackupFile s).1).2.2
      (getBackupFile s).1 Sql.begin_immediate).1 = true)
    (hclose : Fault.close_database (getBackupFile s).1 ∉ s.faults) :
    (create_prefs_backup s).1 = true := by
  rw [create_prefs_backup_unfold]
  unfold read_and_backup_list
  simp only [hopen, hbegin, Bool.not_true, Bool.false_eq_true, if_false, close_database]
  have hfaults : ∀ acc : State, acc.faults = s.faults →
      Fault.close_database (getBackupFile s).1 ∉ acc.faults := fun acc h => h ▸ hclose
  have h1 : (exec_command
      (List.foldl
        (fun acc file => create_backup (getBackupFile s).1
          (setup_database (open_database (backup_start s) (getBackupFile s).1).2
            (getBackupFile s).1).2.1 acc (some file))
        (exec_command
          (setup_database (open_database (backup_start s) (getBackupFile s).1).2
            (getBackupFile s).1).2.2 (getBackupFile s).1 Sql.begin_immediate).2
        (make_list (backup_start s) (some prefs_dir)))
      (getBackupFile s).1 Sql.commit).2.faults = s.faults := by
    rw [exec_command_faults, stores_fold_faults, exec_command_faults, setup_database_faults,
      open_database_faults, backup_start_faults]
  simp [hfaults _ h1]

/-- Witness for C19: the store of `com.x` cannot be opened and the stores share the key
`theme`; the backup still returns true. -/
theorem backup_best_effort_witness :
    unreadable_store_example.faults = [Fault.open_database "/var/preferences/com.x/prefsDB.sl"] ∧
    (create_prefs_backup unreadable_store_example).1 = true :=
  ⟨rfl, backup_best_effort unreadable_store_example (by decide) (by decide) (by decide)⟩

/-- C18 (code evaluated at the failing input): when the commit of the merge transaction
fails, `create_prefs_backup` still returns true, and the snapshot it leaves holds no row of
the two stores. -/
theorem backup_commit_failure :
    store_rows commit_fault_example "/var/preferences/com.x/prefsDB.sl" = [("color", "red")] ∧
    Fault.exec_command backup_db_file Sql.commit ∈ commit_fault_example.faults ∧
    (create_prefs_backup commit_fault_example).1 = true ∧
    backup_rows (create_prefs_backup commit_fault_example).2 backup_db_file = some [] := by
  decide

theorem mkdir_failed_state (s : State) (dir : String) (h : (mkdir s dir).1 = false) :
    (mkdir s dir).2 = s := by
  unfold mkdir at h ⊢
  split
  · rfl
  · split
    · rfl
    · split
      · rfl
      · next h1 h2 h3 => simp [h1, h2, h3] at h

theorem restore_loop_append (stmt : Option Stmt) (earlier later : List String) (s : State) :
    restore_loop stmt s (earlier ++ later) =
      if (restore_loop stmt s earlier).1 then
        restore_loop stmt (restore_loop stmt s earlier).2 later
      else restore_loop stmt s earlier := by
  induction earlier generalizing s with
  | nil => simp [restore_loop]
  | cons p rest ih =>
    simp only [List.cons_append, restore_loop]
    split
    · simp
    · split
      · simp
      · split
        · simp
        · exact ih _

theorem restore_loop_mkdir_fails (stmt : Option Stmt) (p : String) (later : List String)
    (s : State) (h : (mkdir s (g_path_get_dirname p)).1 = false) :
    restore_loop stmt s (p :: later) = (false, s) := by
  rw [restore_loop]
  simp [h, mkdir_failed_state s _ h]

/-- C20: when the origin paths of the snapshot are `earlier`, then `p`, then `later`, the
paths of `earlier` have been restored and creating the directory of `p` fails, `begin_restore`
returns false and leaves exactly the state reached after restoring `earlier`: the stores of
`earlier` keep their restored contents, and nothing of `p` or `later` is opened or written. -/
theorem begin_restore_mkdir_failure (s restored : State) (db_file p : String)
    (earlier later : List String) (distinct_statement prefs_db_statement : Stmt)
    (hopen : open_database s db_file = (true, s))
    (hdistinct : prepare_statement s db_file Sql.select_distinct_appPath
      = some distinct_statement)
    (hpaths : step_select_distinct s (some distinct_statement) = earlier ++ p :: later)
    (hselect : prepare_statement s db_file Sql.select_backup_where_appPath
      = some prefs_db_statement)
    (hearlier : restore_loop (some prefs_db_statement) s earlier = (true, restored))
    (hmkdir : (mkdir restored (g_path_get_dirname p)).1 = false) :
    begin_restore s (some db_file) = (false, restored) := by
  unfold begin_restore
  simp only [hopen, hdistinct, hpaths, hselect, Bool.not_true, Bool.false_eq_true, if_false]
  rw [restore_loop_append, hearlier]
  simp [restore_loop_mkdir_fails _ p later restored hmkdir]

/-- Witness for C20: the store of `com.x` is restored, creating the directory of `com.y`
fails because it exists, and the restore stops with the store of `com.x` in place and no
store of `com.y`. -/
theorem begin_restore_mkdir_failure_witness :
    (begin_restore partial_restore_example (some backup_db_file)).1 = false ∧
    data_rows (begin_restore partial_restore_example (some backup_db_file)).2
      "/var/preferences/com.x/prefsDB.sl" = some [("color", "red")] ∧
    data_rows (begin_restore partial_restore_example (some backup_db_file)).2
      "/var/preferences/com.y/prefsDB.sl" = none :=
  have h := begin_restore_mkdir_failure partial_restore_example
    (restore_loop (some ⟨backup_db_file, Sql.select_backup_where_appPath⟩)
      partial_restore_example ["/var/preferences/com.x/prefsDB.sl"]).2
    backup_db_file "/var/preferences/com.y/prefsDB.sl"
    ["/var/preferences/com.x/prefsDB.sl"] []
    ⟨backup_db_file, Sql.select_distinct_appPath⟩
    ⟨backup_db_file, Sql.select_backup_where_appPath⟩
    (by rfl) (by decide) (by decide) (by decide) (Prod.ext (by decide) rfl) (by decide)
  ⟨by rw [h], by rw [h]; decide, by rw [h]; decide⟩

/-! ## Claims about the permission check -/

theorem errorReplyStr_eq (env : BusEnv) (errString : Option String) :
    errorReplyStr env errString
      = [Event.reply (error_reply_body errString)
          (env.LSMessageReply (error_reply_body errString))] := rfl

/-- C11: for an oracle reply that parses, delivered with the context that `checkAccess`
registered: if its `returnValue` is false or absent, `processReply` releases the reference
of the request once and does nothing else, whatever the continuation is; otherwise its bus
operations are exactly those of one call of the continuation on the original request with
the boolean value of the field `allowed`, with nothing released by `processReply` itself. -/
theorem processReply_parsed (env : BusEnv) (oracle_reply request : LSMessage)
    (callback : callbackType) (p : Json)
    (hparse : oracle_reply.payload.bind env.json_tokener_parse = some p) :
    (json_object_get_boolean (json_object_object_get (some p) "returnValue") = false →
      processReply env oracle_reply (some ⟨some request, some callback⟩) = [Event.unref]) ∧
    (json_object_get_boolean (json_object_object_get (some p) "returnValue") = true →
      processReply env oracle_reply (some ⟨some request, some callback⟩) =
        callback env request
          (json_object_get_boolean (json_object_object_get (some p) "allowed"))) := by
  unfold processReply
  simp only [hparse]
  constructor
  · intro h
    simp [h]
  · intro h
    simp [h]

/-- Witness for C11: the oracle allows, and the continuation of `getSysProperty` runs once
with `allowed` true. -/
theorem processReply_parsed_witness :
    processReply example_env (oracle_answer "\x7b\"returnValue\":true,\"allowed\":true\x7d")
        (some ⟨some example_request, some sysGetValue_callback⟩)
      = sysGetValue_callback example_env example_request true :=
  (processReply_parsed example_env
    (oracle_answer "\x7b\"returnValue\":true,\"allowed\":true\x7d") example_request
    sysGetValue_callback
    (Json.object [("returnValue", some (Json.boolean true)),
      ("allowed", some (Json.boolean true))]) (by rfl)).2 (by decide)

/-- C12: when the nested call cannot be dispatched, `checkAccess` returns false with nothing
dispatched and no continuation registered, and every gated handler takes the reference,
sends the one permission error reply and releases the reference, with no continuation
left to run. -/
theorem dispatch_failure (name : String)
    (handler : BusEnv → LSMessage → List Event × Option callbackContext)
    (hmem : (name, handler) ∈ sysPropGetMethods) (env : BusEnv) (message : LSMessage)
    (hcall : ∀ uri payload, env.LSCallOneReply uri payload = false) :
    (∀ uri callback, checkAccess env message uri callback = (false, [], none)) ∧
    handler env message =
      ([Event.ref,
        Event.reply (error_reply_body (env.LPErrorString LPErr.LP_ERR_PERM))
          (env.LSMessageReply (error_reply_body (env.LPErrorString LPErr.LP_ERR_PERM))),
        Event.unref], none) := by
  have hcheck : ∀ uri callback, checkAccess env message uri callback = (false, [], none) := by
    intro uri callback
    unfold checkAccess
    cases env.malloc with
    | false => rfl
    | true =>
      cases hs : message.senderServiceName with
      | some requester => simp [hcall]
      | none => cases hx : message.sender <;> simp [hcall]
  have hgated : ∀ callback, gated_handler callback env message =
      ([Event.ref,
        Event.reply (error_reply_body (env.LPErrorString LPErr.LP_ERR_PERM))
          (env.LSMessageReply (error_reply_body (env.LPErrorString LPErr.LP_ERR_PERM))),
        Event.unref], none) := by
    intro callback
    unfold gated_handler formURI
    simp [hcheck, errorReplyErr, errorReplyStr_eq]
  refine ⟨hcheck, ?_⟩
  have htable : ∀ entry ∈ sysPropGetMethods, entry.2 env message =
      ([Event.ref,
        Event.reply (error_reply_body (env.LPErrorString LPErr.LP_ERR_PERM))
          (env.LSMessageReply (error_reply_body (env.LPErrorString LPErr.LP_ERR_PERM))),
        Event.unref], none) := by
    unfold sysPropGetMethods
    simp only [List.forall_mem_cons, List.not_mem_nil, IsEmpty.forall_iff, implies_true,
      and_true]
    exact ⟨hgated _, hgated _, hgated _, hgated _, hgated _, hgated _, hgated _, hgated _⟩
  exact htable (name, handler) hmem

/-- Witness for C12: `getSomeSysProperties` on a bus that refuses the nested call. -/
theorem dispatch_failure_witness :
    replies_sent (sysGetSomeObj { example_env with LSCallOneReply := fun _ _ => false }
      example_request).1 = 1 ∧
    refs_released (sysGetSomeObj { example_env with LSCallOneReply := fun _ _ => false }
      example_request).1 = 1 ∧
    (sysGetSomeObj { example_env with LSCallOneReply := fun _ _ => false }
      example_request).2.isNone = true :=
  have h := (dispatch_failure "getSomeSysProperties" sysGetSomeObj
    (by simp [sysPropGetMethods])
    { example_env with LSCallOneReply := fun _ _ => false } example_request
    (fun _ _ => rfl)).2
  ⟨by rw [h]; rfl, by rw [h]; rfl, by rw [h]; rfl⟩
/-- C13 (amended): when the oracle's reply parses with `returnValue` true and `allowed`
false, a `getSysProperty` request for a key that is not public gets the permission error
reply and nothing else; the replies of the keys and all-properties methods do not depend on
the full key list and the full property list (only the public ones are read); and the
element that `getSomeSysProperties` produces for a key that is not public is the permission
`errorText` element. -/
theorem denied_serves_public_only (env : BusEnv) (oracle_reply message : LSMessage) (p : Json)
    (hparse : oracle_reply.payload.bind env.json_tokener_parse = some p)
    (hreturn : json_object_get_boolean (json_object_object_get (some p) "returnValue") = true)
    (hdenied : json_object_get_boolean (json_object_object_get (some p) "allowed") = false) :
    (∀ key, parseMessage env message ["key"] = (true, [some key]) →
      onWhitelist env key = false →
      processReply env oracle_reply (some ⟨some message, some sysGetValue_callback⟩)
        = [Event.reply (error_reply_body (env.LPErrorString LPErr.LP_ERR_PERM))
            (env.LSMessageReply (error_reply_body (env.LPErrorString LPErr.LP_ERR_PERM))),
           Event.unref]) ∧
    (∀ all_keys,
      processReply { env with LPSystemCopyKeysCJ := all_keys } oracle_reply
          (some ⟨some message, some sysGetKeysObj_callback⟩)
        = processReply env oracle_reply (some ⟨some message, some sysGetKeysObj_callback⟩)) ∧
    (∀ all_properties,
      processReply { env with LPSystemCopyAllCJ := all_properties } oracle_reply
          (some ⟨some message, some sysGetAllObj_callback⟩)
        = processReply env oracle_reply (some ⟨some message, some sysGetAllObj_callback⟩)) ∧
    (∀ members key keyText, json_object_object_get (some (Json.object members)) "key" = some key →
      json_object_get_string env (some key) = some keyText →
      onWhitelist env keyText = false →
      sysGetSome_elem env false (some (Json.object members))
        = addKeyValueToArray "errorText" (env.LPErrorString LPErr.LP_ERR_PERM)) := by
  refine ⟨?_, ?_, ?_, ?_⟩
  · intro key hkey hpublic
    unfold processReply
    simp only [hparse, hreturn, hdenied, Bool.not_true, Bool.false_eq_true, if_false]
    unfold sysGetValue_callback
    simp [hkey, hpublic, errorReplyErr, errorReplyStr_eq]
  · intro all_keys
    unfold processReply
    simp only [hparse, hreturn, hdenied, Bool.not_true, Bool.false_eq_true, if_false]
    rfl
  · intro all_properties
    unfold processReply
    simp only [hparse, hreturn, hdenied, Bool.not_true, Bool.false_eq_true, if_false]
    rfl
  · intro members key keyText hkey htext hpublic
    unfold sysGetSome_elem
    simp [is_json_object, hkey, htext, hpublic]

/-- Witness for C13 (amended): the oracle denies, the requested key is not public, and the
request gets the permission error reply and no value. -/
theorem denied_serves_public_only_witness :
    processReply private_key_env
        (oracle_answer "\x7b\"returnValue\":true,\"allowed\":false\x7d")
        (some ⟨some example_request, some sysGetValue_callback⟩)
      = [Event.reply (error_reply_body (some "error")) true, Event.unref] :=
  (denied_serves_public_only private_key_env
    (oracle_answer "\x7b\"returnValue\":true,\"allowed\":false\x7d") example_request
    (Json.object [("returnValue", some (Json.boolean true)),
      ("allowed", some (Json.boolean false))]) (by rfl) (by decide) (by decide)).1
    "com.palm.properties.version" (by rfl) (by rfl)

/-- Counterexample to C13 as stated: the oracle replies `returnValue` true and `allowed`
false, the requested key is public, and the caller receives the value of the property. -/
theorem denied_serves_public_only_counterexample :
    gated_request sysGetValue public_key_env example_request
        (oracle_answer "\x7b\"returnValue\":true,\"allowed\":false\x7d")
      = [Event.ref,
         Event.call "luna://com.webos.service.bus/isCallAllowed"
           (isCallAllowed_payload "com.example.app"
             "luna://com.palm.preferences/systemProperties/getSysProperty"),
         Event.reply (Body.json (some (Json.object
           [("com.palm.properties.version", some (Json.string "Open webOS 3.5.0")),
            ("returnValue", some (Json.boolean true))]))) true,
         Event.unref] := by
  rfl

/-- C14: when the context can be allocated and the bus accepts the nested call, `checkAccess`
queries the oracle once, at `luna://com.webos.service.bus/isCallAllowed`, with the payload
naming the sender's service name when there is one and the raw sender otherwise, and the
target URI; when neither identity is available it returns false and dispatches nothing; and
every gated handler passes as target URI `luna://com.palm.preferences` followed by the kind
of the request. -/
theorem checkAccess_query (env : BusEnv) (message : LSMessage) (uri_to_check : String)
    (callback : callbackType) (hmalloc : env.malloc = true)
    (hcall : ∀ uri payload, env.LSCallOneReply uri payload = true) :
    (∀ name, message.senderServiceName = some name →
      checkAccess env message uri_to_check callback
        = (true, [Event.call "luna://com.webos.service.bus/isCallAllowed"
            (isCallAllowed_payload name uri_to_check)],
           some ⟨some message, some callback⟩)) ∧
    (∀ sender, message.senderServiceName = none → message.sender = some sender →
      checkAccess env message uri_to_check callback
        = (true, [Event.call "luna://com.webos.service.bus/isCallAllowed"
            (isCallAllowed_payload sender uri_to_check)],
           some ⟨some message, some callback⟩)) ∧
    (message.senderServiceName = none → message.sender = none →
      checkAccess env message uri_to_check callback = (false, [], none)) ∧
    (∀ entry ∈ sysPropGetMethods, ∀ name, message.senderServiceName = some name →
      (entry.2 env message).1
        = [Event.ref, Event.call "luna://com.webos.service.bus/isCallAllowed"
            (isCallAllowed_payload name ("luna://com.palm.preferences" ++ message.kind))]) := by
  have hservice : ∀ uri cb name, message.senderServiceName = some name →
      checkAccess env message uri cb
        = (true, [Event.call "luna://com.webos.service.bus/isCallAllowed"
            (isCallAllowed_payload name uri)], some ⟨some message, some cb⟩) := by
    intro uri cb name hname
    unfold checkAccess
    simp [hmalloc, hname, hcall, IS_CALL_ALLOWED_CHECK, isCallAllowed_payload]
  refine ⟨hservice _ _, ?_, ?_, ?_⟩
  · intro sender hname hsender
    unfold checkAccess
    simp [hmalloc, hname, hsender, hcall, IS_CALL_ALLOWED_CHECK, isCallAllowed_payload]
  · intro hname hsender
    unfold checkAccess
    simp [hmalloc, hname, hsender]
  · have hgated : ∀ cb name, message.senderServiceName = some name →
        (gated_handler cb env message).1
          = [Event.ref, Event.call "luna://com.webos.service.bus/isCallAllowed"
              (isCallAllowed_payload name ("luna://com.palm.preferences" ++ message.kind))] := by
      intro cb name hname
      unfold gated_handler formURI
      simp [hservice _ cb name hname, SERVICE_ROOT_URI]
    unfold sysPropGetMethods
    simp only [List.forall_mem_cons, List.not_mem_nil, IsEmpty.forall_iff, implies_true,
      and_true]
    exact ⟨hgated _, hgated _, hgated _, hgated _, hgated _, hgated _, hgated _, hgated _⟩

/-- Witness for C14: the query sent for the example request of `com.example.app`. -/
theorem checkAccess_query_witness :
    (sysGetValue example_env example_request).1
      = [Event.ref, Event.call "luna://com.webos.service.bus/isCallAllowed"
          ("\x7b\"requester\":\"com.example.app\",\"uri\":\""
            ++ "luna://com.palm.preferences/systemProperties/getSysProperty\"\x7d")] :=
  (checkAccess_query example_env example_request "" sysGetValue_callback rfl
    (fun _ _ => rfl)).2.2.2 ("getSysProperty", sysGetValue) (by simp [sysPropGetMethods])
    "com.example.app" rfl

/-! ## Claims about the restore request and the application properties -/

@[simp] theorem reply_calls_nil : reply_calls [] = 0 := rfl

@[simp] theorem reply_calls_cons_reply (body : Body) (sent : Bool) (events : List Event) :
    reply_calls (Event.reply body sent :: events) = reply_calls events + 1 := by
  simp [reply_calls]

@[simp] theorem reply_calls_append (xs ys : List Event) :
    reply_calls (xs ++ ys) = reply_calls xs + reply_calls ys := by
  simp [reply_calls, List.countP_append]

@[simp] theorem reply_calls_successReply (env : BusEnv) :
    reply_calls (successReply env) = 1 := rfl

@[simp] theorem reply_calls_errorReplyStr (env : BusEnv) (errString : Option String) :
    reply_calls (errorReplyStr env errString) = 1 := rfl

theorem reply_calls_errorReplyErr (env : BusEnv) (err : LPErr)
    (h : err ≠ LPErr.LP_ERR_NONE) : reply_calls (errorReplyErr env err) = 1 := by
  simp [errorReplyErr, h]

@[simp] theorem errorReplyErr_none (env : BusEnv) :
    errorReplyErr env LPErr.LP_ERR_NONE = [] := by
  simp [errorReplyErr]

/-- An element of `files` that does not name the backup artifact is passed over. -/
theorem postRestore_file_skip (env : BusEnv) (temp_dir_str : String) (s : State)
    (obj : Option Json) (h : names_backup env temp_dir_str obj = false) :
    postRestore_file env temp_dir_str s obj = ([], s) := by
  unfold names_backup at h
  unfold postRestore_file
  cases hp : postRestore_final_path env temp_dir_str obj with
  | none => rfl
  | some final_path =>
    rw [hp] at h
    simp only at h
    simp [h]

/-- An element of `files` that names the backup artifact gets one reply. -/
theorem postRestore_file_match (env : BusEnv) (temp_dir_str : String) (s : State)
    (obj : Option Json) (final_path : String)
    (hp : postRestore_final_path env temp_dir_str obj = some final_path)
    (h : strstr final_path "lunaprefs_backup.db" = true) :
    postRestore_file env temp_dir_str s obj
      = (if (try_restore s (some final_path)).1 then successReply env
          else errorReplyStr env (some "unable to restore preference db"),
         (try_restore s (some final_path)).2) := by
  unfold postRestore_file
  simp only [hp, h, if_true]
  cases (try_restore s (some final_path)).1 <;> simp

theorem postRestore_loop_skip (env : BusEnv) (temp_dir_str : String) (s : State)
    (files : List (Option Json))
    (h : ∀ obj ∈ files, names_backup env temp_dir_str obj = false) :
    postRestore_loop env temp_dir_str s files = ([], s) := by
  induction files with
  | nil => rfl
  | cons obj rest ih =>
    have h1 := postRestore_file_skip env temp_dir_str s obj (h obj (List.mem_cons_self _ _))
    have h2 := ih (fun o ho => h o (List.mem_cons_of_mem _ ho))
    simp [postRestore_loop, h1, h2]

theorem postRestore_loop_append (env : BusEnv) (temp_dir_str : String) (s : State)
    (xs ys : List (Option Json)) :
    postRestore_loop env temp_dir_str s (xs ++ ys)
      = ((postRestore_loop env temp_dir_str s xs).1
          ++ (postRestore_loop env temp_dir_str (postRestore_loop env temp_dir_str s xs).2 ys).1,
         (postRestore_loop env temp_dir_str (postRestore_loop env temp_dir_str s xs).2 ys).2) := by
  induction xs generalizing s with
  | nil => simp [postRestore_loop]
  | cons obj rest ih => simp [postRestore_loop, ih, List.append_assoc]

/-- The number of replies of the loop of `postRestore`: one for each element that names the
backup artifact. -/
theorem postRestore_loop_reply_calls (env : BusEnv) (temp_dir_str : String) (s : State)
    (files : List (Option Json)) :
    reply_calls (postRestore_loop env temp_dir_str s files).1
      = files.countP (names_backup env temp_dir_str) := by
  induction files generalizing s with
  | nil => rfl
  | cons obj rest ih =>
    cases hn : names_backup env temp_dir_str obj with
    | false =>
      have h1 := postRestore_file_skip env temp_dir_str s obj hn
      simp [postRestore_loop, h1, ih, hn]
    | true =>
      unfold names_backup at hn
      cases hp : postRestore_final_path env temp_dir_str obj with
      | none => rw [hp] at hn; simp at hn
      | some final_path =>
        rw [hp] at hn
        simp only at hn
        have h1 := postRestore_file_match env temp_dir_str s obj final_path hp hn
        have hb : names_backup env temp_dir_str obj = true := by
          unfold names_backup; rw [hp]; exact hn
        simp only [postRestore_loop, h1, reply_calls_append, ih, List.countP_cons, hb, if_true]
        cases (try_restore s (some final_path)).1 <;> simp <;> omega

/-- A well-formed request reaches the loop of `postRestore` and the reply after it. -/
theorem postRestore_well_formed (env : BusEnv) (s : State) (message : LSMessage) (str : String)
    (payload : Json) (temp_dir_str : String) (files : List (Option Json))
    (hpayload : message.payload = some str)
    (hparse : env.json_tokener_parse str = some payload)
    (htemp : json_object_object_get (some payload) "tempDir" = some (Json.string temp_dir_str))
    (hfiles : json_object_object_get (some payload) "files" = some (Json.array files)) :
    postRestore env s message
      = ((postRestore_loop env temp_dir_str s files).1 ++ successReply env,
         (postRestore_loop env temp_dir_str s files).2) := by
  unfold postRestore
  simp only [hpayload, hparse, htemp, hfiles]

/-- C15: for a request whose payload parses with a string `tempDir` and an array `files`,
`postRestore` calls `LSMessageReply` once for each entry of `files` that names the backup
artifact and once more after the loop; the number of replies is one only when no entry names
the artifact. -/
theorem postRestore_reply_calls (env : BusEnv) (s : State) (message : LSMessage) (str : String)
    (payload : Json) (temp_dir_str : String) (files : List (Option Json))
    (hpayload : message.payload = some str)
    (hparse : env.json_tokener_parse str = some payload)
    (htemp : json_object_object_get (some payload) "tempDir" = some (Json.string temp_dir_str))
    (hfiles : json_object_object_get (some payload) "files" = some (Json.array files)) :
    reply_calls (postRestore env s message).1
      = files.countP (names_backup env temp_dir_str) + 1 := by
  rw [postRestore_well_formed env s message str payload temp_dir_str files hpayload hparse
    htemp hfiles]
  simp [postRestore_loop_reply_calls]

/-- Witness for C15: one entry names the snapshot of the device and the restore succeeds; the
request gets two `returnValue: true` replies, both accepted by the bus. -/
theorem postRestore_reply_calls_witness :
    reply_calls (postRestore restore_env flat_restore_example (restore_request
      "\x7b\"tempDir\":\"/var/preferences\",\"files\":[\"lunaprefs_backup.db\"]\x7d")).1 = 2 ∧
    (postRestore restore_env flat_restore_example (restore_request
      "\x7b\"tempDir\":\"/var/preferences\",\"files\":[\"lunaprefs_backup.db\"]\x7d")).1
      = [Event.reply (Body.text "\x7b\"returnValue\": true\x7d") true,
         Event.reply (Body.text "\x7b\"returnValue\": true\x7d") true] :=
  ⟨postRestore_reply_calls restore_env flat_restore_example (restore_request
      "\x7b\"tempDir\":\"/var/preferences\",\"files\":[\"lunaprefs_backup.db\"]\x7d")
      "\x7b\"tempDir\":\"/var/preferences\",\"files\":[\"lunaprefs_backup.db\"]\x7d"
      (Json.object [("tempDir", some (Json.string "/var/preferences")),
        ("files", some (Json.array [some (Json.string "lunaprefs_backup.db")]))])
      "/var/preferences" [some (Json.string "lunaprefs_backup.db")] rfl rfl rfl rfl,
    by rfl⟩

/-- C16 (amended): for a request whose payload parses with a string `tempDir` and an array
`files`: when no entry of `files` names the backup artifact, `postRestore` restores nothing
and its only reply is `returnValue: true`; when an entry names it and no earlier entry does,
the first reply for the request is `returnValue: true` if `try_restore` succeeds on that
entry, and the error reply "unable to restore preference db" if it fails. -/
theorem postRestore_first_reply (env : BusEnv) (s : State) (message : LSMessage) (str : String)
    (payload : Json) (temp_dir_str : String) (files : List (Option Json))
    (hpayload : message.payload = some str)
    (hparse : env.json_tokener_parse str = some payload)
    (htemp : json_object_object_get (some payload) "tempDir" = some (Json.string temp_dir_str))
    (hfiles : json_object_object_get (some payload) "files" = some (Json.array files)) :
    ((∀ obj ∈ files, names_backup env temp_dir_str obj = false) →
      postRestore env s message = (successReply env, s)) ∧
    (∀ skipped obj rest final_path, files = skipped ++ obj :: rest →
      (∀ earlier ∈ skipped, names_backup env temp_dir_str earlier = false) →
      postRestore_final_path env temp_dir_str obj = some final_path →
      strstr final_path "lunaprefs_backup.db" = true →
      ∃ later, (postRestore env s message).1
        = (if (try_restore s (some final_path)).1 then successReply env
            else errorReplyStr env (some "unable to restore preference db")) ++ later) := by
  have hwell := postRestore_well_formed env s message str payload temp_dir_str files hpayload
    hparse htemp hfiles
  constructor
  · intro hnone
    rw [hwell, postRestore_loop_skip env temp_dir_str s files hnone]
    rfl
  · intro skipped obj rest final_path hsplit hskipped hpath hmatch
    rw [hwell, hsplit, postRestore_loop_append,
      postRestore_loop_skip env temp_dir_str s skipped hskipped]
    simp only [postRestore_loop, List.nil_append,
      postRestore_file_match env temp_dir_str s obj final_path hpath hmatch, List.append_assoc]
    exact ⟨_, rfl⟩

/-- Witness for C16 (amended): the snapshot named by the only entry cannot be opened, and the
first reply for the request is the error reply. -/
theorem postRestore_first_reply_witness :
    ∃ later, (postRestore restore_env unopenable_snapshot_example (restore_request
      "\x7b\"tempDir\":\"/var/preferences\",\"files\":[\"lunaprefs_backup.db\"]\x7d")).1
      = Event.reply (Body.text
          "\x7b\"returnValue\": false, \"errorText\": \"unable to restore preference db\"\x7d")
          true :: later :=
  (postRestore_first_reply restore_env unopenable_snapshot_example (restore_request
      "\x7b\"tempDir\":\"/var/preferences\",\"files\":[\"lunaprefs_backup.db\"]\x7d")
      "\x7b\"tempDir\":\"/var/preferences\",\"files\":[\"lunaprefs_backup.db\"]\x7d"
      (Json.object [("tempDir", some (Json.string "/var/preferences")),
        ("files", some (Json.array [some (Json.string "lunaprefs_backup.db")]))])
      "/var/preferences" [some (Json.string "lunaprefs_backup.db")] rfl rfl rfl rfl).2
    [] (some (Json.string "lunaprefs_backup.db")) [] "/var/preferences/lunaprefs_backup.db"
    rfl (by simp) (by rfl) (by decide)

/-- Counterexample to C16 as stated: the list `files` is empty, so no entry names the backup
artifact and nothing is restored, and the request gets the reply `returnValue: true`. -/
theorem postRestore_first_reply_counterexample :
    postRestore restore_env flat_restore_example
        (restore_request "\x7b\"tempDir\":\"/var/preferences\",\"files\":[]\x7d")
      = ([Event.reply (Body.text "\x7b\"returnValue\": true\x7d") true], flat_restore_example) := by
  rfl

/-- C17: the handlers built on `appGet_internal` and `appRemoveValue` call `LSMessageReply`
exactly once for every request and every answer of the property store; `appGetValue` sends
nothing when no handle can be obtained for the application, and `appSetValue` sends nothing
when the payload does not parse. -/
theorem app_handlers_reply_calls :
    (∀ env app message getter asObj,
      reply_calls (appGet_internal env app message getter asObj) = 1) ∧
    (∀ env app message, reply_calls (appRemoveValue env app message) = 1) ∧
    appGetValue app_env no_handle_store app_request = [] ∧
    appSetValue app_env no_handle_store unparsable_request = [] := by
  refine ⟨?_, ?_, by rfl, by rfl⟩
  · intro env app message getter asObj
    unfold appGet_internal
    dsimp only
    split
    · next appId _ _ =>
      by_cases he : app.LPAppGetHandle appId = LPErr.LP_ERR_NONE
      · by_cases hg : (getter appId).1 = LPErr.LP_ERR_NONE
        · simp [he, hg]
        · simp [he, hg, reply_calls_errorReplyErr]
      · simp [he, reply_calls_errorReplyErr]
    · simp
  · intro env app message
    unfold appRemoveValue
    dsimp only
    split
    · next appId key _ _ =>
      by_cases he : app.LPAppGetHandle appId = LPErr.LP_ERR_NONE
      · by_cases hr : app.LPAppRemoveValue appId key = LPErr.LP_ERR_NONE
        · simp [he, hr]
        · simp [he, hr, reply_calls_errorReplyErr]
      · simp [he, reply_calls_errorReplyErr]
    · simp

/-! ## Claims about the backup request -/

/-- C21: `setBackupFile` stores and returns the directory joined with `lunaprefs_backup.db`
when a directory is given and `/var/preferences/lunaprefs_backup.db` when it is `NULL`;
`getBackupFile` returns the name stored by the most recent `setBackupFile` and changes
nothing, and when no name has been stored it stores and returns the default. -/
theorem backup_file_name (s : State) :
    (∀ dir, setBackupFile s (some dir)
      = (g_build_filename [dir, "lunaprefs_backup.db"],
         { s with backup_db_path := some (g_build_filename [dir, "lunaprefs_backup.db"]) })) ∧
    setBackupFile s none
      = ("/var/preferences/lunaprefs_backup.db",
         { s with backup_db_path := some "/var/preferences/lunaprefs_backup.db" }) ∧
    (∀ tempDir, getBackupFile (setBackupFile s tempDir).2
      = ((setBackupFile s tempDir).1, (setBackupFile s tempDir).2)) ∧
    (s.backup_db_path = none →
      getBackupFile s
        = ("/var/preferences/lunaprefs_backup.db",
           { s with backup_db_path := some "/var/preferences/lunaprefs_backup.db" })) := by
  refine ⟨fun dir => rfl, rfl, fun tempDir => rfl, ?_⟩
  intro hnone
  unfold getBackupFile
  rw [hnone]
  rfl

/-- Witness for C21: on a device where no name was stored, `getBackupFile` gives the default,
and after `setBackupFile` with `/tmp` it gives `/tmp/lunaprefs_backup.db`. -/
theorem backup_file_name_witness :
    (getBackupFile flat_example).1 = "/var/preferences/lunaprefs_backup.db" ∧
    (getBackupFile (setBackupFile flat_example (some "/tmp")).2).1
      = "/tmp/lunaprefs_backup.db" :=
  ⟨by rw [(backup_file_name flat_example).2.2.2 rfl],
   by rw [(backup_file_name flat_example).2.2.1 (some "/tmp")]; decide⟩

/-- C22: for a payload that parses to a JSON object whose `tempDir` is absent or a string,
when `create_prefs_backup` succeeds `preBackup` sends exactly one reply, the object with the
members `files` (the array of the one path), `backupFile` (the same path) and `returnValue`
true, where the path is the backup file name that `setBackupFile` resolves from `tempDir`. -/
theorem preBackup_success (env : BusEnv) (s : State) (message : LSMessage) (payload : String)
    (members : List (String × Option Json)) (tempDir : Option String)
    (hpayload : message.payload = some payload)
    (hparse : env.json_tokener_parse payload = some (Json.object members))
    (htemp : json_object_object_get_ex (some (Json.object members)) "tempDir"
      = tempDir.map fun dir => some (Json.string dir))
    (hcreated : (create_prefs_backup (setBackupFile s tempDir).2).1 = true) :
    (preBackup env s message).1
      = [Event.reply
          (Body.json (some (Json.object
            [("files", some (Json.array [some (Json.string (setBackupFile s tempDir).1)])),
             ("backupFile", some (Json.string (setBackupFile s tempDir).1)),
             ("returnValue", some (Json.boolean true))])))
          (env.LSMessageReply (Body.json (some (Json.object
            [("files", some (Json.array [some (Json.string (setBackupFile s tempDir).1)])),
             ("backupFile", some (Json.string (setBackupFile s tempDir).1)),
             ("returnValue", some (Json.boolean true))]))))] ∧
    (setBackupFile s tempDir).1
      = (match tempDir with
         | some dir => g_build_filename [dir, "lunaprefs_backup.db"]
         | none => "/var/preferences/lunaprefs_backup.db") := by
  have hcreate : (preBackup_create env s tempDir).1
      = [Event.reply
          (Body.json (some (Json.object
            [("files", some (Json.array [some (Json.string (setBackupFile s tempDir).1)])),
             ("backupFile", some (Json.string (setBackupFile s tempDir).1)),
             ("returnValue", some (Json.boolean true))])))
          (env.LSMessageReply (Body.json (some (Json.object
            [("files", some (Json.array [some (Json.string (setBackupFile s tempDir).1)])),
             ("backupFile", some (Json.string (setBackupFile s tempDir).1)),
             ("returnValue", some (Json.boolean true))]))))] := by
    unfold preBackup_create
    simp only [hcreated, Bool.not_true, Bool.false_eq_true, if_false]
    simp [preBackup_reply, json_object_object_add]
  constructor
  · unfold preBackup
    simp only [hpayload, hparse, is_json_object, Bool.not_true, Bool.false_eq_true, if_false,
      htemp]
    cases tempDir with
    | none => exact hcreate
    | some dir => exact hcreate
  · cases tempDir <;> rfl

/-- Witness for C22: the request without parameters on the device with the stores of `com.x`
and `com.y` is answered with the default backup file name. -/
theorem preBackup_success_witness :
    (preBackup backup_env flat_example (backup_request "\x7b\x7d")).1
      = [Event.reply
          (Body.json (some (Json.object
            [("files", some (Json.array
               [some (Json.string "/var/preferences/lunaprefs_backup.db")])),
             ("backupFile", some (Json.string "/var/preferences/lunaprefs_backup.db")),
             ("returnValue", some (Json.boolean true))])))
          true] :=
  (preBackup_success backup_env flat_example (backup_request "\x7b\x7d") "\x7b\x7d" [] none
    rfl rfl rfl (by decide)).1

/-! ## Claims about the replies of the system-property methods -/

/-- C23: for a payload that parses to a JSON array, `sysGetSomeObj_callback` sends one reply
whose array has one element for each element of the request, the i-th computed from the i-th
element alone; an element is the pair of the key and its value when the element is an object
with a `key`, the caller is allowed or the key is public, and the lookup succeeds, and is an
`errorText` element in every other case; a payload that is not an array gets the single
parameter-error reply. -/
theorem sysGetSome_elementwise (env : BusEnv) (message : LSMessage) (allowed : Bool) :
    (∀ str elems, message.payload = some str →
      env.json_tokener_parse str = some (Json.array elems) →
      sysGetSomeObj_callback env message allowed
        = [Event.reply
            (Body.json (some (if message.method = "getSomeSysPropertiesObj"
              then wrapArray (elems.map (sysGetSome_elem env allowed))
              else Json.array (elems.map (sysGetSome_elem env allowed)))))
            (env.LSMessageReply
              (Body.json (some (if message.method = "getSomeSysPropertiesObj"
                then wrapArray (elems.map (sysGetSome_elem env allowed))
                else Json.array (elems.map (sysGetSome_elem env allowed)))))),
           Event.unref] ∧
      (elems.map (sysGetSome_elem env allowed)).length = elems.length ∧
      ∀ i (h : i < elems.length),
        (elems.map (sysGetSome_elem env allowed))[i]?
          = some (sysGetSome_elem env allowed (elems.get ⟨i, h⟩))) ∧
    (∀ members key, members_get "key" members = some key →
      (allowed = true ∨ onWhitelist env ((json_object_get_string env (some key)).getD "") = true) →
      (env.LPSystemCopyStringValue ((json_object_get_string env (some key)).getD "")).1
        = LPErr.LP_ERR_NONE →
      sysGetSome_elem env allowed (some (Json.object members))
        = addKeyValueToArray ((json_object_get_string env (some key)).getD "")
            (env.LPSystemCopyStringValue ((json_object_get_string env (some key)).getD "")).2) ∧
    (∀ elem,
      (∃ text, sysGetSome_elem env allowed elem = addKeyValueToArray "errorText" text) ∨
      (∃ members key, elem = some (Json.object members) ∧
        members_get "key" members = some key ∧
        (allowed = true ∨
          onWhitelist env ((json_object_get_string env (some key)).getD "") = true) ∧
        (env.LPSystemCopyStringValue ((json_object_get_string env (some key)).getD "")).1
          = LPErr.LP_ERR_NONE)) ∧
    ((∀ elems, message.payload.bind env.json_tokener_parse ≠ some (Json.array elems)) →
      sysGetSomeObj_callback env message allowed
        = [Event.reply (error_reply_body (env.LPErrorString LPErr.LP_ERR_PARAM_ERR))
            (env.LSMessageReply (error_reply_body (env.LPErrorString LPErr.LP_ERR_PARAM_ERR))),
           Event.unref]) := by
  refine ⟨?_, ?_, ?_, ?_⟩
  · intro str elems hpayload hparse
    refine ⟨?_, by simp, fun i h => by simp [List.getElem?_eq_getElem h]⟩
    unfold sysGetSomeObj_callback
    simp only [hpayload, hparse, replyWithValue, GET_SOME_SYS_PROP_OBJ_API]
    rfl
  · intro members key hkey hallowed hfound
    unfold sysGetSome_elem
    simp only [is_json_object, json_object_object_get, hkey, if_true]
    rcases hallowed with ha | hp
    · simp [ha, hfound]
    · simp [hp, hfound]
  · intro elem
    unfold sysGetSome_elem
    cases elem with
    | none => exact Or.inl ⟨_, rfl⟩
    | some j =>
      cases j with
      | object members =>
        simp only [is_json_object, json_object_object_get, if_true]
        cases hkey : members_get "key" members with
        | none => exact Or.inl ⟨_, rfl⟩
        | some key =>
          simp only
          by_cases hgate : (!allowed && !onWhitelist env
              ((json_object_get_string env (some key)).getD "")) = true
          · rw [if_pos hgate]
            exact Or.inl ⟨_, rfl⟩
          · rw [if_neg hgate]
            by_cases hfound : (env.LPSystemCopyStringValue
                ((json_object_get_string env (some key)).getD "")).1 = LPErr.LP_ERR_NONE
            · refine Or.inr ⟨members, key, rfl, hkey, ?_, hfound⟩
              cases allowed <;> simp at hgate ⊢
              exact hgate
            · rw [if_neg hfound]
              exact Or.inl ⟨_, rfl⟩
      | _ => exact Or.inl ⟨_, rfl⟩
  · intro hnot
    have hperm : errorReplyErr env LPErr.LP_ERR_PARAM_ERR
        = [Event.reply (error_reply_body (env.LPErrorString LPErr.LP_ERR_PARAM_ERR))
            (env.LSMessageReply
              (error_reply_body (env.LPErrorString LPErr.LP_ERR_PARAM_ERR)))] := by
      simp [errorReplyErr, errorReplyStr_eq]
    unfold sysGetSomeObj_callback
    cases hpayload : message.payload with
    | none => simp [hperm]
    | some str =>
      cases hparse : env.json_tokener_parse str with
      | none => simp [hperm, hparse]
      | some j =>
        cases j with
        | array elems => exact absurd (by simp [hpayload, hparse]) (hnot elems)
        | _ => simp [hperm, hparse]

/-- Witness for C23: the request for the version key and for a key that is not there gets the
array of the value and of the error, in that order. -/
theorem sysGetSome_elementwise_witness :
    sysGetSomeObj_callback some_keys_env (some_keys_request "getSomeSysProperties") true
      = [Event.reply
          (Body.json (some (Json.array
            [some (Json.object
               [("com.palm.properties.version", some (Json.string "Open webOS 3.5.0 SDK"))]),
             some (Json.object [("errorText", some (Json.string "no such key"))])])))
          true,
         Event.unref] :=
  ((sysGetSome_elementwise some_keys_env (some_keys_request "getSomeSysProperties") true).1
    "[\x7b\"key\":\"com.palm.properties.version\"\x7d,\x7b\"key\":\"should result in an error\"\x7d]"
    [some (Json.object [("key", some (Json.string "com.palm.properties.version"))]),
      some (Json.object [("key", some (Json.string "should result in an error"))])]
    rfl rfl).1

/-- C24 (code evaluated at the failing input): the request of the documented example, in
which the first key is found and the second is not, gets through `getSomeSysPropertiesObj`
the reply with the two elements and `returnValue` false. -/
theorem sysGetSomeObj_partial_failure :
    sysGetSomeObj_callback some_keys_env (some_keys_request "getSomeSysPropertiesObj") true
      = [Event.reply
          (Body.json (some (Json.object
            [("values", some (Json.array
               [some (Json.object
                  [("com.palm.properties.version", some (Json.string "Open webOS 3.5.0 SDK"))]),
                some (Json.object [("errorText", some (Json.string "no such key"))])])),
             ("returnValue", some (Json.boolean false))])))
          true,
         Event.unref] := by
  rfl

/-- C25 (amended): for every key other than `returnValue` and every stored value, the reply
built by `replyWithKeyValue` is the object with the member named by the key and the member
`returnValue` true, in that order; the member of the key carries the parsed value when the
stored text parses to a JSON object or array, and the stored text as a JSON string in every
other case. -/
theorem replyWithKeyValue_shape (env : BusEnv) (key value : String)
    (hkey : key ≠ "returnValue") :
    (∀ members, env.json_tokener_parse value = some (Json.object members) →
      (replyWithKeyValue env key value).1
        = [Event.reply
            (Body.json (some (Json.object
              [(key, some (Json.object members)), ("returnValue", some (Json.boolean true))])))
            (env.LSMessageReply (Body.json (some (Json.object
              [(key, some (Json.object members)),
               ("returnValue", some (Json.boolean true))]))))]) ∧
    (∀ elems, env.json_tokener_parse value = some (Json.array elems) →
      (replyWithKeyValue env key value).1
        = [Event.reply
            (Body.json (some (Json.object
              [(key, some (Json.array elems)), ("returnValue", some (Json.boolean true))])))
            (env.LSMessageReply (Body.json (some (Json.object
              [(key, some (Json.array elems)),
               ("returnValue", some (Json.boolean true))]))))]) ∧
    ((∀ members, env.json_tokener_parse value ≠ some (Json.object members)) →
      (∀ elems, env.json_tokener_parse value ≠ some (Json.array elems)) →
      (replyWithKeyValue env key value).1
        = [Event.reply
            (Body.json (some (Json.object
              [(key, some (Json.string value)), ("returnValue", some (Json.boolean true))])))
            (env.LSMessageReply (Body.json (some (Json.object
              [(key, some (Json.string value)),
               ("returnValue", some (Json.boolean true))]))))]) := by
  refine ⟨?_, ?_, ?_⟩
  · intro members hparse
    simp [replyWithKeyValue, replyWithValue, json_object_object_add, hparse, hkey]
  · intro elems hparse
    simp [replyWithKeyValue, replyWithValue, json_object_object_add, hparse, hkey]
  · intro hobject harray
    unfold replyWithKeyValue
    cases hparse : env.json_tokener_parse value with
    | none => simp [replyWithValue, json_object_object_add, hkey]
    | some j =>
      cases j with
      | object members => exact absurd hparse (hobject members)
      | array elems => exact absurd hparse (harray elems)
      | _ => simp [replyWithValue, json_object_object_add, hkey]

/-- Witness for C25 (amended): the version text does not parse as JSON and is sent as a
string. -/
theorem replyWithKeyValue_shape_witness :
    (replyWithKeyValue example_env "com.palm.properties.version" "Open webOS 3.5.0").1
      = [Event.reply
          (Body.json (some (Json.object
            [("com.palm.properties.version", some (Json.string "Open webOS 3.5.0")),
             ("returnValue", some (Json.boolean true))])))
          true] :=
  (replyWithKeyValue_shape example_env "com.palm.properties.version" "Open webOS 3.5.0"
    (by decide)).2.2 (fun members h => by simp [example_env] at h)
    (fun elems h => by simp [example_env] at h)

/-- Counterexample to C25 as stated: for the key `returnValue` with the stored value `off`
the reply is the object with the single member `returnValue` true; no member carries the
value. -/
theorem replyWithKeyValue_shape_counterexample :
    (replyWithKeyValue example_env "returnValue" "off").1
      = [Event.reply
          (Body.json (some (Json.object [("returnValue", some (Json.boolean true))])))
          true] := by
  rfl

/-- C27: for an oracle reply that parses with `returnValue` true, `processReply` runs the
continuation on the request with the json-c boolean of the `allowed` field; that boolean is
false when the field is missing or `null` and when it is the boolean false, and it is true
only for a field that is present and is the boolean true, a number other than zero or a
string that is not empty. -/
theorem processReply_allowed (env : BusEnv) (oracle_reply request : LSMessage)
    (callback : callbackType) (p : Json)
    (hparse : oracle_reply.payload.bind env.json_tokener_parse = some p)
    (hreturn : json_object_get_boolean (json_object_object_get (some p) "returnValue") = true) :
    processReply env oracle_reply (some ⟨some request, some callback⟩)
      = callback env request
          (json_object_get_boolean (json_object_object_get (some p) "allowed")) ∧
    (json_object_object_get (some p) "allowed" = none →
      processReply env oracle_reply (some ⟨some request, some callback⟩)
        = callback env request false) ∧
    (json_object_object_get (some p) "allowed" = some (Json.boolean false) →
      processReply env oracle_reply (some ⟨some request, some callback⟩)
        = callback env request false) ∧
    (json_object_get_boolean (json_object_object_get (some p) "allowed") = true →
      ∃ field, json_object_object_get (some p) "allowed" = some field ∧
        (field = Json.boolean true ∨ (∃ n, field = Json.int n ∧ n ≠ 0) ∨
          (∃ mantissa exponent, field = Json.double mantissa exponent ∧ mantissa ≠ 0) ∨
          (∃ text, field = Json.string text ∧ text.length ≠ 0))) := by
  have hrun : processReply env oracle_reply (some ⟨some request, some callback⟩)
      = callback env request
          (json_object_get_boolean (json_object_object_get (some p) "allowed")) := by
    unfold processReply
    simp [hparse, hreturn]
  refine ⟨hrun, ?_, ?_, ?_⟩
  · intro habsent
    rw [hrun, habsent]
    rfl
  · intro hfalse
    rw [hrun, hfalse]
    rfl
  · intro htrue
    cases hfield : json_object_object_get (some p) "allowed" with
    | none => rw [hfield] at htrue; simp [json_object_get_boolean] at htrue
    | some field =>
      rw [hfield] at htrue
      refine ⟨field, rfl, ?_⟩
      cases field with
      | boolean b =>
        simp [json_object_get_boolean] at htrue
        exact Or.inl (by rw [htrue])
      | int n =>
        simp [json_object_get_boolean] at htrue
        exact Or.inr (Or.inl ⟨n, rfl, htrue⟩)
      | double mantissa exponent =>
        simp [json_object_get_boolean] at htrue
        exact Or.inr (Or.inr (Or.inl ⟨mantissa, exponent, rfl, htrue⟩))
      | string text =>
        simp [json_object_get_boolean] at htrue
        exact Or.inr (Or.inr (Or.inr ⟨text, rfl, by simpa using htrue⟩))
      | array elems => simp [json_object_get_boolean] at htrue
      | object members => simp [json_object_get_boolean] at htrue

/-- Witness for C27: the oracle answers `returnValue` true without an `allowed` field, and
the request for a key that is not public is refused. -/
theorem processReply_allowed_witness :
    processReply absent_allowed_env (oracle_answer "\x7b\"returnValue\":true\x7d")
        (some ⟨some example_request, some sysGetValue_callback⟩)
      = sysGetValue_callback absent_allowed_env example_request false ∧
    sysGetValue_callback absent_allowed_env example_request false
      = [Event.reply (error_reply_body (some "error")) true, Event.unref] :=
  ⟨(processReply_allowed absent_allowed_env (oracle_answer "\x7b\"returnValue\":true\x7d")
      example_request sysGetValue_callback
      (Json.object [("returnValue", some (Json.boolean true))]) (by rfl) (by decide)).2.1
      (by rfl),
    by rfl⟩

/-! ## Claims about the discovery of the stores and the restore decisions -/

theorem backup_start_journal (s : State) : (backup_start s).journal = s.journal := by
  unfold backup_start unlink getBackupFile setBackupFile
  cases s.backup_db_path <;> rfl

/-- The merge of an empty list of stores, when only the enumeration of the root is faulty and
the snapshot store opens: the backup succeeds and the snapshot holds no row. -/
theorem read_and_backup_list_nil (s2 : State) (bp root : String)
    (honly : ∀ f ∈ s2.faults, f = Fault.g_dir_open root) (hjournal : s2.journal = none)
    (hnode : node_get bp s2.nodes = none ∨ node_get bp s2.nodes = some Node.dir)
    (hopen : (open_database s2 bp).1 = true) :
    (read_and_backup_list s2 [] bp).1 = true ∧
    backup_rows (read_and_backup_list s2 [] bp).2 bp = some [] := by
  have h1 : Fault.open_database bp ∉ s2.faults := fun h => by cases honly _ h
  have h2 : Fault.exec_command bp Sql.create_backup_table ∉ s2.faults :=
    fun h => by cases honly _ h
  have h3 : Fault.prepare_statement bp Sql.insert_backup ∉ s2.faults :=
    fun h => by cases honly _ h
  have h4 : Fault.exec_command bp Sql.begin_immediate ∉ s2.faults :=
    fun h => by cases honly _ h
  have h5 : Fault.exec_command bp Sql.commit ∉ s2.faults := fun h => by cases honly _ h
  have h6 : Fault.close_database bp ∉ s2.faults := fun h => by cases honly _ h
  rcases hnode with hnone | hdir
  · unfold open_database at hopen
    simp only [h1, if_false, hnone] at hopen
    by_cases hparent : is_dir s2 (g_path_get_dirname bp) = true
    · have hopened : open_database s2 bp = (true, file_put s2 bp ⟨none, none⟩) := by
        simp [open_database, h1, hnone, hparent]
      have hsetup : setup_database (file_put s2 bp ⟨none, none⟩) bp
          = (true, some ⟨bp, Sql.insert_backup⟩, file_put s2 bp ⟨none, some []⟩) := by
        simp [setup_database, exec_command, h2, h3, prepare_statement, tables_exist,
          text_compiles]
      have hbegin : exec_command (file_put s2 bp ⟨none, some []⟩) bp Sql.begin_immediate
          = (true, file_put { s2 with journal := some (bp, ⟨none, some []⟩) } bp
              ⟨none, some []⟩) := by
        simp [exec_command, h4, hjournal]
        rfl
      have hget : file_get (file_put { s2 with journal := some (bp, ⟨none, some []⟩) } bp
          ⟨none, some []⟩) bp = some ⟨none, some []⟩ := file_get_file_put_same _ _ _
      have hcommit : exec_command (file_put { s2 with journal := some (bp, ⟨none, some []⟩) } bp
          ⟨none, some []⟩) bp Sql.commit
          = (true, { file_put { s2 with journal := some (bp, ⟨none, some []⟩) } bp
              ⟨none, some []⟩ with journal := none }) := by
        unfold exec_command
        rw [hget]
        have h5b : Fault.exec_command bp Sql.commit ∉
            (file_put { s2 with journal := some (bp, ⟨none, some []⟩) } bp
              ⟨none, some []⟩).faults := h5
        have hjb : (file_put { s2 with journal := some (bp, ⟨none, some []⟩) } bp
            ⟨none, some []⟩).journal = some (bp, ⟨none, some []⟩) := rfl
        simp only [hjb, ne_eq, not_true_eq_false, if_false, h5b]
      have hclosed : Fault.close_database bp ∉
          ({ file_put { s2 with journal := some (bp, ⟨none, some []⟩) } bp
              ⟨none, some []⟩ with journal := none } : State).faults := h6
      have hrows : backup_rows ({ file_put { s2 with journal := some (bp, ⟨none, some []⟩) } bp
          ⟨none, some []⟩ with journal := none } : State) bp = some [] := by
        have hstate : ({ file_put { s2 with journal := some (bp, ⟨none, some []⟩) } bp
            ⟨none, some []⟩ with journal := none } : State)
            = file_put { s2 with journal := none } bp ⟨none, some []⟩ := rfl
        rw [hstate, backup_rows_file_put]
        simp
      unfold read_and_backup_list
      simp only [hopened, hsetup, hbegin, hcommit, Bool.not_true, Bool.false_eq_true, if_false,
        List.foldl_nil, close_database, hclosed, not_false_eq_true, decide_True]
      exact ⟨trivial, hrows⟩
    · simp [hparent] at hopen
  · unfold open_database at hopen
    simp [h1, hdir] at hopen

/-- C26: when the root opens, `make_list` returns the paths `root/<entry>/prefsDB.sl` of the
immediate entries of the root, in enumeration order, keeping those at which something
exists; when the root cannot be opened it returns the empty list, and `create_prefs_backup`
then still succeeds and leaves a snapshot with no rows (when nothing else fails and the
snapshot store opens). -/
theorem make_list_discovery (s : State) (root : String) :
    (Fault.g_dir_open root ∉ s.faults → is_dir s root = true →
      make_list s (some root)
        = ((g_dir_read_name s root).map fun entry =>
            g_build_filename [root, entry, "prefsDB.sl"]).filter (g_file_test s)) ∧
    (Fault.g_dir_open root ∈ s.faults ∨ is_dir s root = false → make_list s (some root) = []) ∧
    ((Fault.g_dir_open prefs_dir ∈ s.faults ∨ is_dir (backup_start s) prefs_dir = false) →
      (∀ f ∈ s.faults, f = Fault.g_dir_open prefs_dir) → s.journal = none →
      (open_database (backup_start s) (getBackupFile s).1).1 = true →
      make_list (backup_start s) (some prefs_dir) = [] ∧
      (create_prefs_backup s).1 = true ∧
      backup_rows (create_prefs_backup s).2 (getBackupFile s).1 = some []) := by
  refine ⟨?_, ?_, ?_⟩
  · intro hfault hdir
    unfold make_list
    simp only [hfault, hdir, Bool.not_true, Bool.false_eq_true, or_self, if_false]
    induction g_dir_read_name s root with
    | nil => rfl
    | cons entry rest ih =>
      by_cases hex : g_file_test s (g_build_filename [root, entry, "prefsDB.sl"]) = true
      · simp [List.filterMap_cons, hex, ih]
      · simp [List.filterMap_cons, hex, ih]
  · intro hroot
    unfold make_list
    rcases hroot with hfault | hdir
    · simp [hfault]
    · simp [hdir]
  · intro hroot honly hjournal hopen
    have hempty : make_list (backup_start s) (some prefs_dir) = [] := by
      unfold make_list
      rcases hroot with hfault | hdir
      · simp [backup_start_faults, hfault]
      · simp [hdir]
    have hmerge := read_and_backup_list_nil (backup_start s) (getBackupFile s).1 prefs_dir
      (by rw [backup_start_faults]; exact honly) (by rw [backup_start_journal]; exact hjournal)
      (unlink_node_get (getBackupFile s).2 (getBackupFile s).1) hopen
    rw [create_prefs_backup_unfold, hempty]
    exact ⟨rfl, hmerge⟩

/-- Witness for C26: the two stores of the device are discovered in the order of the
enumeration; when the root cannot be opened the backup succeeds with an empty snapshot. -/
theorem make_list_discovery_witness :
    make_list flat_example (some "/var/preferences")
      = ["/var/preferences/com.x/prefsDB.sl", "/var/preferences/com.y/prefsDB.sl"] ∧
    make_list unreadable_root_example (some "/var/preferences") = [] ∧
    (create_prefs_backup unreadable_root_example).1 = true ∧
    backup_rows (create_prefs_backup unreadable_root_example).2
      "/var/preferences/lunaprefs_backup.db" = some [] :=
  ⟨by rw [(make_list_discovery flat_example "/var/preferences").1 (by decide) (by decide)]
      decide,
   (make_list_discovery unreadable_root_example "/var/preferences").2.1 (Or.inl (by decide)),
   ((make_list_discovery unreadable_root_example "/var/preferences").2.2
      (Or.inl (by decide)) (by decide) rfl (by decide)).2⟩

/-! ## Claims about the wrapped replies, the count query and the restore candidates -/

/-- C28 (amended): for every JSON array, `wrapArray` gives the object with exactly the two
members `values`, the array itself, and `returnValue`; `returnValue` is false if and only if
some element of the array is a JSON object with a member named `errorText` whose value is
not `null`; it is true for the empty array and for every array of strings. -/
theorem wrapArray_shape (a : List (Option Json)) :
    (∃ returnValue,
      wrapArray a = Json.object [("values", some (Json.array a)),
        ("returnValue", some (Json.boolean returnValue))] ∧
      (returnValue = false ↔
        ∃ elem ∈ a, ∃ members value, elem = some (Json.object members) ∧
          members_get "errorText" members = some value)) ∧
    wrapArray [] = Json.object [("values", some (Json.array [])),
      ("returnValue", some (Json.boolean true))] ∧
    (∀ texts : List String,
      wrapArray (texts.map fun text => some (Json.string text))
        = Json.object [("values", some (Json.array (texts.map fun text => some (Json.string text)))),
            ("returnValue", some (Json.boolean true))]) := by
  have hshape : ∀ b : List (Option Json),
      wrapArray b = Json.object [("values", some (Json.array b)),
        ("returnValue", some (Json.boolean (!(b.any fun elem =>
          is_json_object elem && (json_object_object_get elem "errorText").isSome))))] := by
    intro b
    simp [wrapArray, json_object_object_add]
  refine ⟨⟨_, hshape a, ?_⟩, by rfl, ?_⟩
  · simp only [Bool.not_eq_false', List.any_eq_true, Bool.and_eq_true]
    constructor
    · rintro ⟨elem, hmem, hobject, hget⟩
      cases elem with
      | none => simp [is_json_object] at hobject
      | some j =>
        cases j with
        | object members =>
          simp only [json_object_object_get, Option.isSome_iff_exists] at hget
          obtain ⟨value, hvalue⟩ := hget
          exact ⟨_, hmem, members, value, rfl, hvalue⟩
        | _ => simp [is_json_object] at hobject
    · rintro ⟨elem, hmem, members, value, helem, hvalue⟩
      subst helem
      exact ⟨_, hmem, rfl, by simp [json_object_object_get, hvalue]⟩
  · intro texts
    rw [hshape]
    have hnone : ((texts.map fun text => some (Json.string text)).any fun elem =>
        is_json_object elem && (json_object_object_get elem "errorText").isSome) = false := by
      induction texts with
      | nil => rfl
      | cons text rest ih => simp [is_json_object]
    rw [hnone]
    rfl

/-- Counterexample to C28 as stated: the only element of the array is a JSON object with a
member named `errorText`, whose value is `null`, and `returnValue` is true. -/
theorem wrapArray_shape_counterexample :
    has_member (some (Json.object [("errorText", none)])) "errorText" = true ∧
    wrapArray [some (Json.object [("errorText", none)])]
      = Json.object [("values", some (Json.array [some (Json.object [("errorText", none)])])),
          ("returnValue", some (Json.boolean true))] :=
  ⟨by decide, by rfl⟩

/-- C29: in the row loop of `restore_action` the local `count` starts at 0; for each row,
when the count query for the key of the row yields a row, the decision uses that count:
update by key when it is not zero, insert when it is zero; when the count query cannot be
prepared or stepped, the count left by the previous row is used again: the row is updated by
key when that count is not zero and inserted when it is zero. -/
theorem restore_row_count (restoreDb : String)
    (backup_statement individual_db_statement : Option Stmt) (acc : Nat × State) (row : Row) :
    (∀ n, step_count acc.2 (prepare_statement acc.2 restoreDb (Sql.count_data row.1)) = some n →
      restore_row restoreDb backup_statement individual_db_statement acc row
        = (n, if n ≠ 0 then (step_update_data acc.2 backup_statement row.1 row.2 row.1).2
              else (step_insert_data acc.2 individual_db_statement row.1 row.2).2)) ∧
    ((prepare_statement acc.2 restoreDb (Sql.count_data row.1) = none ∨
        step_count acc.2 (prepare_statement acc.2 restoreDb (Sql.count_data row.1)) = none) →
      restore_row restoreDb backup_statement individual_db_statement acc row
        = (acc.1, if acc.1 ≠ 0 then (step_update_data acc.2 backup_statement row.1 row.2 row.1).2
              else (step_insert_data acc.2 individual_db_statement row.1 row.2).2)) ∧
    (∀ s prefs_db_statement path update_statement insert_statement,
      (exec_command s restoreDb Sql.create_data_table).1 = true →
      prepare_statement (exec_command s restoreDb Sql.create_data_table).2 restoreDb
        Sql.update_data = some update_statement →
      prepare_statement (exec_command s restoreDb Sql.create_data_table).2 restoreDb
        Sql.insert_data = some insert_statement →
      (restore_action s prefs_db_statement restoreDb (some path)).2
        = ((step_select_where (exec_command s restoreDb Sql.create_data_table).2
              prefs_db_statement path).1.foldl
            (restore_row restoreDb (some update_statement) (some insert_statement))
            (0, (exec_command s restoreDb Sql.create_data_table).2)).2) := by
  refine ⟨?_, ?_, ?_⟩
  · intro n hcount
    unfold restore_row
    simp only [hcount]
    by_cases hn : n = 0
    · simp [hn, restore_prefs_data]
    · simp [hn, restore_prefs_data]
  · intro hfail
    have hnone : step_count acc.2 (prepare_statement acc.2 restoreDb (Sql.count_data row.1))
        = none := by
      rcases hfail with hprepare | hstep
      · rw [hprepare]
        rfl
      · exact hstep
    unfold restore_row
    simp only [hnone]
    by_cases hn : acc.1 = 0
    · simp [hn, restore_prefs_data]
    · simp [hn, restore_prefs_data]
  · intro s prefs_db_statement path update_statement insert_statement hcreated hupdate hinsert
    unfold restore_action
    simp only [hcreated, hupdate, hinsert, Bool.not_true, Bool.false_eq_true, if_false]

/-- Witness for C29: the count query for the key `it's` does not compile; after a row whose
count was 1 the pair is sent to the update, which matches no row, and after a count of 0 it
is inserted. -/
theorem restore_row_count_witness :
    data_rows (restore_row "/var/preferences/com.x/prefsDB.sl"
        (some ⟨"/var/preferences/com.x/prefsDB.sl", Sql.update_data⟩)
        (some ⟨"/var/preferences/com.x/prefsDB.sl", Sql.insert_data⟩)
        (1, stale_count_example) (unbalanced_key, "2")).2
      "/var/preferences/com.x/prefsDB.sl" = some [("a", "1")] ∧
    data_rows (restore_row "/var/preferences/com.x/prefsDB.sl"
        (some ⟨"/var/preferences/com.x/prefsDB.sl", Sql.update_data⟩)
        (some ⟨"/var/preferences/com.x/prefsDB.sl", Sql.insert_data⟩)
        (0, stale_count_example) (unbalanced_key, "2")).2
      "/var/preferences/com.x/prefsDB.sl" = some [("a", "1"), ("it's", "2")] :=
  ⟨by rw [(restore_row_count "/var/preferences/com.x/prefsDB.sl"
        (some ⟨"/var/preferences/com.x/prefsDB.sl", Sql.update_data⟩)
        (some ⟨"/var/preferences/com.x/prefsDB.sl", Sql.insert_data⟩)
        (1, stale_count_example) (unbalanced_key, "2")).2.1 (Or.inl (by decide))]
      decide,
   by rw [(restore_row_count "/var/preferences/com.x/prefsDB.sl"
        (some ⟨"/var/preferences/com.x/prefsDB.sl", Sql.update_data⟩)
        (some ⟨"/var/preferences/com.x/prefsDB.sl", Sql.insert_data⟩)
        (0, stale_count_example) (unbalanced_key, "2")).2.1 (Or.inl (by decide))]
      decide⟩

/-- The device after the loop of `postRestore`: `try_restore` has run on the restore
candidates, in their order. -/
theorem postRestore_loop_state (env : BusEnv) (temp_dir_str : String) (s : State)
    (files : List (Option Json)) :
    (postRestore_loop env temp_dir_str s files).2
      = (restore_candidates env temp_dir_str files).foldl
          (fun acc final_path => (try_restore acc (some final_path)).2) s := by
  induction files generalizing s with
  | nil => rfl
  | cons obj rest ih =>
    unfold restore_candidates at ih ⊢
    cases hpath : postRestore_final_path env temp_dir_str obj with
    | none =>
      have hskip := postRestore_file_skip env temp_dir_str s obj (by simp [names_backup, hpath])
      simp [postRestore_loop, hskip, List.filterMap_cons, hpath, ih]
    | some final_path =>
      by_cases hmatch : strstr final_path "lunaprefs_backup.db" = true
      · have hrun := postRestore_file_match env temp_dir_str s obj final_path hpath hmatch
        simp [postRestore_loop, hrun, List.filterMap_cons, hpath, hmatch, ih]
      · have hskip := postRestore_file_skip env temp_dir_str s obj
          (by simpa [names_backup, hpath] using hmatch)
        simp [postRestore_loop, hskip, List.filterMap_cons, hpath, hmatch, ih]

/-- C30: in the loop of `postRestore` a `null` entry is skipped; for any other entry the
candidate path is the text of the entry when it contains a `/` and `tempDir` joined with the
text when it does not; `try_restore` runs on the candidate, and a reply is sent for it, only
when the candidate contains `lunaprefs_backup.db` (anywhere in the path); over the whole
array `try_restore` has run once for each such entry, in array order. -/
theorem postRestore_selection (env : BusEnv) (temp_dir_str : String) :
    (∀ s, postRestore_file env temp_dir_str s none = ([], s)) ∧
    (∀ entry, postRestore_final_path env temp_dir_str (some (Json.string entry))
      = some (if strpbrk entry "/" then entry else g_build_filename [temp_dir_str, entry])) ∧
    (∀ obj cpath, json_object_get_string env (some obj) = some cpath →
      postRestore_final_path env temp_dir_str (some obj)
        = some (if strpbrk cpath "/" then cpath else g_build_filename [temp_dir_str, cpath])) ∧
    (∀ s obj final_path, postRestore_final_path env temp_dir_str obj = some final_path →
      strstr final_path "lunaprefs_backup.db" = true →
      postRestore_file env temp_dir_str s obj
        = (if (try_restore s (some final_path)).1 then successReply env
            else errorReplyStr env (some "unable to restore preference db"),
           (try_restore s (some final_path)).2)) ∧
    (∀ s obj final_path, postRestore_final_path env temp_dir_str obj = some final_path →
      strstr final_path "lunaprefs_backup.db" = false →
      postRestore_file env temp_dir_str s obj = ([], s)) ∧
    (∀ files final_path, final_path ∈ restore_candidates env temp_dir_str files ↔
      ∃ obj ∈ files, postRestore_final_path env temp_dir_str obj = some final_path ∧
        strstr final_path "lunaprefs_backup.db" = true) ∧
    (∀ s files, (postRestore_loop env temp_dir_str s files).2
      = (restore_candidates env temp_dir_str files).foldl
          (fun acc final_path => (try_restore acc (some final_path)).2) s) ∧
    strstr "/media/lunaprefs_backup.db.old/notes.txt" "lunaprefs_backup.db" = true := by
  have hpath : ∀ obj cpath, json_object_get_string env (some obj) = some cpath →
      postRestore_final_path env temp_dir_str (some obj)
        = some (if strpbrk cpath "/" then cpath
            else g_build_filename [temp_dir_str, cpath]) := by
    intro obj cpath htext
    unfold postRestore_final_path
    simp only [htext]
    cases strpbrk cpath "/" <;> rfl
  refine ⟨fun s => rfl, fun entry => hpath _ entry rfl, hpath,
    fun s obj final_path h1 h2 => postRestore_file_match env temp_dir_str s obj final_path h1 h2,
    ?_, ?_, fun s files => postRestore_loop_state env temp_dir_str s files, by decide⟩
  · intro s obj final_path hfinal hmatch
    exact postRestore_file_skip env temp_dir_str s obj (by simp [names_backup, hfinal, hmatch])
  · intro files final_path
    unfold restore_candidates
    simp only [List.mem_filterMap]
    constructor
    · rintro ⟨obj, hmem, hsome⟩
      cases hfinal : postRestore_final_path env temp_dir_str obj with
      | none => simp [hfinal] at hsome
      | some candidate =>
        rw [hfinal] at hsome
        by_cases hmatch : strstr candidate "lunaprefs_backup.db" = true
        · simp only [hmatch, if_true, Option.some.injEq] at hsome
          subst hsome
          exact ⟨obj, hmem, hfinal, hmatch⟩
        · simp [hmatch] at hsome
    · rintro ⟨obj, hmem, hfinal, hmatch⟩
      exact ⟨obj, hmem, by simp [hfinal, hmatch]⟩

/-- Witness for C30: of the entries `null`, `notes.txt`, `lunaprefs_backup.db` and
`/media/lunaprefs_backup.db.old/notes.txt` the last two are restore candidates, the first of
them under `tempDir` and the second as it is. -/
theorem postRestore_selection_witness :
    postRestore_final_path restore_env "/var/preferences"
        (some (Json.string "lunaprefs_backup.db"))
      = some "/var/preferences/lunaprefs_backup.db" ∧
    restore_candidates restore_env "/var/preferences"
        [none, some (Json.string "notes.txt"), some (Json.string "lunaprefs_backup.db"),
          some (Json.string "/media/lunaprefs_backup.db.old/notes.txt")]
      = ["/var/preferences/lunaprefs_backup.db", "/media/lunaprefs_backup.db.old/notes.txt"] ∧
    postRestore_file restore_env "/var/preferences" flat_restore_example
        (some (Json.string "notes.txt")) = ([], flat_restore_example) :=
  ⟨by rw [(postRestore_selection restore_env "/var/preferences").2.1 "lunaprefs_backup.db"]
      decide,
   by decide,
   (postRestore_selection restore_env "/var/preferences").2.2.2.2.1 flat_restore_example
     (some (Json.string "notes.txt")) "/var/preferences/notes.txt" (by decide) (by decide)⟩

end LunaPrefs
